import Mathlib

/-!
Verification of the log-compression pipeline: a shallow embedding of
`dict_coder.py`, `sort_log_by_edit_distance.py`, `word_frequency_dict.py`
and `create_longest_match_dict_with_stats.py`, followed by theorems about
the embedded functions.

Strings are modelled as `List Char`; files as `List Str` (one entry per
line, without the trailing newline).  Python dictionaries are modelled as
association lists in insertion order, which is exactly the iteration order
Python guarantees for `dict`.
-/

set_option maxRecDepth 4000

abbrev Str := List Char

/-- The whitespace characters recognised by Python's `str.strip` /
`str.split` for ASCII text. -/
def isSpacePy (c : Char) : Bool :=
  c == ' ' || c == '\t' || c == '\n' || c == '\r' || c == '\x0b' || c == '\x0c'

/-- `str.strip()`: drop leading and trailing whitespace. -/
def stripPy (s : Str) : Str :=
  ((s.dropWhile isSpacePy).reverse.dropWhile isSpacePy).reverse

/-- One step of the maximal-run splitter: characters satisfying `keep`
extend the current run, all others close it. -/
def splitStep (keep : Char → Bool) (c : Char) (acc : List Str) : List Str :=
  if keep c then
    match acc with
    | [] => [[c]]
    | w :: ws => (c :: w) :: ws
  else [] :: acc

/-- Maximal runs of characters satisfying `keep`, in order. -/
def runsBy (keep : Char → Bool) (s : Str) : List Str :=
  (s.foldr (splitStep keep) []).filter (fun w => decide (w ≠ []))

/-- Python `str.split()` with no separator: maximal runs of
non-whitespace characters. -/
def splitWS (s : Str) : List Str :=
  runsBy (fun c => !isSpacePy c) s

/-- Python `' '.join(...)`. -/
def joinSpace : List Str → Str
  | [] => []
  | [t] => t
  | t :: ts => t ++ ' ' :: joinSpace ts

/-- Python `str.split('|')`: split at every `'|'`, keeping empty parts. -/
def splitBarAux (c : Char) (acc : List Str) : List Str :=
  if c = '|' then [] :: acc
  else
    match acc with
    | [] => [[c]]
    | w :: ws => (c :: w) :: ws

def splitBar (s : Str) : List Str :=
  s.foldr splitBarAux [[]]

/-- Python `str.lower()` restricted to ASCII case folding. -/
def lowerStr (s : Str) : Str :=
  s.map Char.toLower

/-- The reserved unknown token `'unk'`. -/
def unkStr : Str := ['u', 'n', 'k']

/-- Decimal rendering of a natural number, as Python's `str(n)`. -/
def natToStr (n : Nat) : Str :=
  if _h : n < 10 then [Nat.digitChar n]
  else natToStr (n / 10) ++ [Nat.digitChar (n % 10)]
termination_by n
decreasing_by exact Nat.div_lt_self (by omega) (by omega)

/-- Value of a digit string read in base 10. -/
def parseNat (s : Str) : Nat :=
  s.foldl (fun a c => a * 10 + (c.toNat - 48)) 0

/-- Python `int(token)` on a whitespace-free token: an optional sign
followed by a nonempty run of decimal digits. -/
def pyInt : Str → Option Int
  | [] => none
  | c :: rest =>
      if c = '+' then
        if rest ≠ [] ∧ rest.all Char.isDigit then some (parseNat rest) else none
      else if c = '-' then
        if rest ≠ [] ∧ rest.all Char.isDigit then some (-(parseNat rest : Int)) else none
      else if (c :: rest).all Char.isDigit then some (parseNat (c :: rest)) else none

/-! ## `dict_coder.py` -/

/-- The state of `DictionaryCoder`: the two mutually inverse dictionaries
and the next free id.  Association lists record Python's dict insertion
order. -/
structure DictionaryCoder where
  word_to_id : List (Str × Nat)
  id_to_word : List (Nat × Str)
  next_id : Nat
deriving DecidableEq, Repr

def emptyCoder : DictionaryCoder := ⟨[], [], 0⟩

/-- `word in self.word_to_id` / `self.word_to_id[word]`. -/
def lookupW (m : List (Str × Nat)) (w : Str) : Option Nat :=
  (m.find? (fun p => decide (p.1 = w))).map Prod.snd

/-- `self.id_to_word.get(word_id, ...)`, keyed by the parsed integer. -/
def lookupId (m : List (Nat × Str)) (i : Int) : Option Str :=
  (m.find? (fun p => decide ((p.1 : Int) = i))).map Prod.snd

/-- Extract the token of one dictionary row:
`parts = line.strip().split('|')`, skip the row if `len(parts) < 2`,
else `word = parts[1].strip()` with a trailing `'...'` marker removed. -/
def parseRow (line : Str) : Option Str :=
  match (splitBar (stripPy line))[1]? with
  | none => none
  | some p =>
      let w := stripPy p
      some (if w.reverse.take 3 = ['.', '.', '.'] then w.take (w.length - 3) else w)

/-- Insert a token with the next free id unless it is already mapped. -/
def addWord (c : DictionaryCoder) (w : Str) : DictionaryCoder :=
  if (lookupW c.word_to_id w).isSome then c
  else
    { word_to_id := c.word_to_id ++ [(w, c.next_id)]
      id_to_word := c.id_to_word ++ [(c.next_id, w)]
      next_id := c.next_id + 1 }

/-- `DictionaryCoder.load_dictionary`: skip the two header lines (an
empty file aborts the process, modelled as `none`), then fold the rows. -/
def load_dictionary (c : DictionaryCoder) (lines : List Str) : Option DictionaryCoder :=
  match lines with
  | _ :: _ :: rows =>
      some (rows.foldl
        (fun c row =>
          match parseRow row with
          | none => c
          | some w => addWord c w) c)
  | _ => none

/-- Encoding of a single token: the case-folded form's id if mapped,
otherwise `'unk'`'s id, assigning `'unk'` the next free id on first use. -/
def encodeWord (c : DictionaryCoder) (w : Str) : DictionaryCoder × Str :=
  match lookupW c.word_to_id (lowerStr w) with
  | some k => (c, natToStr k)
  | none =>
      match lookupW c.word_to_id unkStr with
      | some k => (c, natToStr k)
      | none =>
          ({ word_to_id := c.word_to_id ++ [(unkStr, c.next_id)]
             id_to_word := c.id_to_word ++ [(c.next_id, unkStr)]
             next_id := c.next_id + 1 },
           natToStr c.next_id)

def encodeWords (c : DictionaryCoder) : List Str → DictionaryCoder × List Str
  | [] => (c, [])
  | w :: ws =>
      let r := encodeWord c w
      let rest := encodeWords r.1 ws
      (rest.1, r.2 :: rest.2)

/-- One line of `DictionaryCoder.encode`:
`words = line.strip().split()`, encode each, join with spaces. -/
def encodeLine (c : DictionaryCoder) (line : Str) : DictionaryCoder × Str :=
  let r := encodeWords c (splitWS (stripPy line))
  (r.1, joinSpace r.2)

/-- `DictionaryCoder.encode` over a whole file. -/
def encode (c : DictionaryCoder) : List Str → DictionaryCoder × List Str
  | [] => (c, [])
  | line :: ls =>
      let r := encodeLine c line
      let rest := encode r.1 ls
      (rest.1, r.2 :: rest.2)

/-- Decoding of a single token: parse it as an integer and look it up,
defaulting to `'unk'` on parse failure or a missing entry. -/
def decodeToken (m : List (Nat × Str)) (t : Str) : Str :=
  match pyInt t with
  | none => unkStr
  | some i =>
      match lookupId m i with
      | some w => w
      | none => unkStr

/-- One line of `DictionaryCoder.decode`. -/
def decodeLine (c : DictionaryCoder) (line : Str) : Str :=
  joinSpace ((splitWS (stripPy line)).map (decodeToken c.id_to_word))

/-- `DictionaryCoder.decode` over a whole file. -/
def decode (c : DictionaryCoder) (lines : List Str) : List Str :=
  lines.map (decodeLine c)

/-- `save_mappings` followed by `load_mappings`: the pickled dictionaries
round-trip unchanged and `next_id` is reset to `len(word_to_id)`. -/
def reload (c : DictionaryCoder) : DictionaryCoder :=
  { word_to_id := c.word_to_id
    id_to_word := c.id_to_word
    next_id := c.word_to_id.length }

/-! ## `sort_log_by_edit_distance.py` -/

/-- Inner loop of `levenshtein_distance`: walk the previous row (the
two visible entries are `previous_row[j]` and `previous_row[j+1]`),
carrying `current_row[j]` in `last`, and emit the new row entries.
The catch-all case is never reached when `prev` has one entry more than
`s2`, the shape the outer loop maintains. -/
def rowAux (c1 : Char) : Str → List Nat → Nat → List Nat
  | c2 :: s2, pj :: pj1 :: prest, last =>
      let v := min (pj1 + 1) (min (last + 1) (pj + (if c1 = c2 then 0 else 1)))
      v :: rowAux c1 s2 (pj1 :: prest) v
  | _, _, _ => []

/-- One iteration of the outer loop: `current_row = [i + 1]` extended by
the inner loop. -/
def currentRow (c1 : Char) (s2 : Str) (prev : List Nat) (i : Nat) : List Nat :=
  (i + 1) :: rowAux c1 s2 prev (i + 1)

/-- The outer loop of `levenshtein_distance` over `enumerate(s1)`. -/
def levFold (s2 : Str) (prev : List Nat) (i : Nat) : List Char → List Nat
  | [] => prev
  | c1 :: s1 => levFold s2 (currentRow c1 s2 prev i) (i + 1) s1

/-- `levenshtein_distance` after the argument swap: the `len(s2) == 0`
early return, then the row dynamic program; `previous_row[-1]` is the
result. -/
def levCore (s1 s2 : Str) : Nat :=
  if s2.length = 0 then s1.length
  else (levFold s2 (List.range (s2.length + 1)) 0 s1).getLastD 0

/-- `levenshtein_distance(s1, s2)`: the source first recurses with the
arguments swapped when `len(s1) < len(s2)`; after that single swap the
guard is false, so the recursion is equivalent to this one-step swap. -/
def levenshtein_distance (s1 s2 : Str) : Nat :=
  if s1.length < s2.length then levCore s2 s1 else levCore s1 s2

/-- Reference recursion for edit distance, peeling first characters. -/
def levR : Str → Str → Nat
  | [], ys => ys.length
  | _ :: xs, [] => xs.length + 1
  | x :: xs, y :: ys =>
      if x = y then levR xs ys
      else 1 + min (levR xs (y :: ys)) (min (levR (x :: xs) ys) (levR xs ys))
termination_by xs ys => xs.length + ys.length
decreasing_by all_goals simp +arith [List.length]

/-- Edit distance with the recursion on last characters, obtained by
running `levR` on the reversals. -/
def levD (a b : Str) : Nat := levR a.reverse b.reverse

/-- An alignment-style edit script from `a` to `b` using `n`
single-character insertions, deletions and substitutions. -/
inductive EditScript : Str → Str → Nat → Prop
  | nil : EditScript [] [] 0
  | keep {xs ys n} (c : Char) : EditScript xs ys n → EditScript (c :: xs) (c :: ys) n
  | subst {xs ys n} {c d : Char} : c ≠ d → EditScript xs ys n →
      EditScript (c :: xs) (d :: ys) (n + 1)
  | del {xs ys n} (c : Char) : EditScript xs ys n → EditScript (c :: xs) ys (n + 1)
  | ins {xs ys n} (d : Char) : EditScript xs ys n → EditScript xs (d :: ys) (n + 1)

/-- The printable character set of Python's `string.printable`:
ASCII 32–126 together with the five ASCII whitespace controls. -/
def printablePy (c : Char) : Bool :=
  (32 ≤ c.toNat && c.toNat ≤ 126) || c == '\t' || c == '\n' || c == '\r' ||
    c == '\x0b' || c == '\x0c'

/-- `clean_line`: replace every non-printable character by `'?'`. -/
def clean_line (s : Str) : Str :=
  s.map (fun c => if printablePy c then c else '?')

/-- `process_batch`: pair every line with its edit distance to the
batch's first line, sort by distance (Python's `list.sort` is stable,
modelled by `mergeSort`), and emit the lines.  An empty batch produces
no output. -/
def process_batch (batch : List Str) : List Str :=
  match batch with
  | [] => []
  | base :: _ =>
      ((batch.map (fun l => (levenshtein_distance base l, l))).mergeSort
        (fun a b => a.1 ≤ b.1)).map Prod.snd

/-- The loop of `read_and_process_in_batches`: clean and trim each line,
keep it if nonempty, and flush the batch through `process_batch` as soon
as it reaches `batch_size`; the final partial batch is flushed at the
end. -/
def rpAux (batch_size : Nat) (batch : List Str) : List Str → List Str
  | [] => process_batch batch
  | l :: ls =>
      let cleaned := stripPy (clean_line l)
      let batch' := if cleaned = [] then batch else batch ++ [cleaned]
      if batch_size ≤ batch'.length then
        process_batch batch' ++ rpAux batch_size [] ls
      else
        rpAux batch_size batch' ls

/-- `read_and_process_in_batches` (the input is modelled after byte
decoding, which never fails thanks to `errors='replace'`). -/
def read_and_process_in_batches (lines : List Str) (batch_size : Nat) : List Str :=
  rpAux batch_size [] lines

/-- Specification helper: the batches the loop forms, as plain chunks of
the cleaned nonempty lines. -/
def chunksAux (batch_size : Nat) (acc : List Str) : List Str → List (List Str)
  | [] => if acc = [] then [] else [acc]
  | l :: ls =>
      let acc' := acc ++ [l]
      if batch_size ≤ acc'.length then acc' :: chunksAux batch_size [] ls
      else chunksAux batch_size acc' ls

def chunks (batch_size : Nat) (l : List Str) : List (List Str) :=
  chunksAux batch_size [] l

/-- The cleaned, trimmed, nonempty lines the clusterer actually batches. -/
def cleanedLines (lines : List Str) : List Str :=
  (lines.map (fun l => stripPy (clean_line l))).filter (fun l => decide (l ≠ []))

/-! ## `word_frequency_dict.py` -/

/-- Character class of the tokenizer regex `[\w\-:/=']+` (`\w` modelled
as ASCII alphanumerics and underscore). -/
def isWordChar (c : Char) : Bool :=
  c.isAlphanum || c == '_' || c == '-' || c == ':' || c == '/' || c == '=' ||
    c == '\''

/-- `extract_words`: `re.findall` of the maximal runs of tokenizer
characters. -/
def extract_words (line : Str) : List Str :=
  runsBy isWordChar line

/-- `word_counts[normalized_word] += 1` on an insertion-ordered counter
(`defaultdict(int)`). -/
def bump : List (Str × Nat) → Str → List (Str × Nat)
  | [], w => [(w, 1)]
  | (k, n) :: rest, w =>
      if k = w then (k, n + 1) :: rest else (k, n) :: bump rest w

/-- `build_word_frequency_dict`: scan at most `max_lines` lines (blank
lines consume the budget but contribute no words), tokenize each
trimmed line and count the case-folded tokens. -/
def build_word_frequency_dict (lines : List Str) (max_lines : Nat) : List (Str × Nat) :=
  (lines.take max_lines).foldl
    (fun m line =>
      let cleaned := stripPy line
      if cleaned = [] then m
      else (extract_words cleaned).foldl (fun m w => bump m (lowerStr w)) m)
    []

/-- Lexicographic `≤` on strings by code point, as Python compares
`str` values. -/
def strLE : Str → Str → Bool
  | [], _ => true
  | _ :: _, [] => false
  | a :: as, b :: bs => decide (a < b) || (decide (a = b) && strLE as bs)

/-- The sort key `(-frequency, -len(word), word)` of
`save_word_frequency_dict`, as a boolean total preorder. -/
def rankLE (a b : Str × Nat) : Bool :=
  decide (b.2 < a.2) ||
    (decide (b.2 = a.2) &&
      (decide (b.1.length < a.1.length) ||
        (decide (b.1.length = a.1.length) && strLE a.1 b.1)))

/-- `save_word_frequency_dict`, restricted to the information the rows
carry: the entries sorted by `rankLE` and numbered from rank 1.  (The
word column is additionally display-truncated in the file; ranking uses
the full token.) -/
def save_word_frequency_dict (m : List (Str × Nat)) : List (Nat × Str × Nat) :=
  (m.mergeSort rankLE).enum.map (fun p => (p.1 + 1, p.2))

/-! ## `create_longest_match_dict_with_stats.py` -/

/-- `extract_substrings(line, min_length, max_length)`: every substring
`line[start:end]` with `start + min_length ≤ end ≤ min(start + max_length,
len(line))`, in generation order (outer loop on `start`, inner on `end`).
The source collects them into a `set`, whose membership this list
represents; iteration order of that set is *not* fixed by the source, so
consumers below are parameterised by an enumeration. -/
def extract_substrings (line : Str) (min_length max_length : Nat) : List Str :=
  (List.range line.length).flatMap (fun start =>
    let max_end := min (start + max_length) line.length
    (List.range' (start + min_length) (max_end + 1 - (start + min_length))).map
      (fun e => (line.drop start).take (e - start)))

/-- The `longest_substrings` update for one substring: the key is
`substr[:2]` (the whole substring when shorter), and the stored value is
replaced only by a strictly longer one; a fresh key is appended.  Python
dicts keep the position of an updated key, which the in-place update
models. -/
def updateLongest : List (Str × Str) → Str → List (Str × Str)
  | [], s => [(s.take 2, s)]
  | (k, v) :: rest, s =>
      if k = s.take 2 then
        (if v.length < s.length then (k, s) :: rest else (k, v) :: rest)
      else (k, v) :: updateLongest rest s

/-- The `longest_substrings` table produced by `build_enhanced_dict`,
parameterised by the per-line iteration sequences of the substring sets
(the substring-statistics table updated alongside it is independent of
this map and not modelled). -/
def build_enhanced_dict (orders : List (List Str)) : List (Str × Str) :=
  orders.foldl (fun m ord => ord.foldl updateLongest m) []

/-- The nonblank trimmed lines actually scanned by `build_enhanced_dict`
from the first `max_lines` lines of the file. -/
def scannedLines (lines : List Str) (max_lines : Nat) : List Str :=
  ((lines.take max_lines).map stripPy).filter (fun l => decide (l ≠ []))

/-- A list enumerates the substring set of `line` when it has the same
members as the generated substring list. -/
def EnumeratesSubs (ord : List Str) (line : Str) : Prop :=
  ∀ s, s ∈ ord ↔ s ∈ extract_substrings line 3 50

/-! ## String lemmas -/

/-- The invariant of a `DictionaryCoder` state: ids are `0, 1, …` in
insertion order, `id_to_word` is the transpose of `word_to_id`, the next
free id is the size, and tokens are distinct. -/
def CoderInv (c : DictionaryCoder) : Prop :=
  c.word_to_id.map Prod.snd = List.range c.word_to_id.length ∧
  c.id_to_word = c.word_to_id.map (fun p => (p.2, p.1)) ∧
  c.next_id = c.word_to_id.length ∧
  (c.word_to_id.map Prod.fst).Nodup

/-- The result of assigning the reserved token during an encode run. -/
def addUnk (c : DictionaryCoder) : DictionaryCoder :=
  ⟨c.word_to_id ++ [(unkStr, c.next_id)], c.id_to_word ++ [(c.next_id, unkStr)],
    c.next_id + 1⟩

/-- States reachable from `c0` during one encode run: unchanged, or with
`'unk'` assigned the next free id. -/
def Grown (c0 c : DictionaryCoder) : Prop :=
  c = c0 ∨ (lookupW c0.word_to_id unkStr = none ∧ c = addUnk c0)

/-- What one encoded token means, relative to the dictionary state `c0`
at the start of the run and the state `cf` at its end. -/
def TokenSpec (c0 cf : DictionaryCoder) (w out : Str) : Prop :=
  (∃ k, lookupW c0.word_to_id (lowerStr w) = some k ∧ out = natToStr k) ∨
  (lookupW c0.word_to_id (lowerStr w) = none ∧
    ∃ u, out = natToStr u ∧ (unkStr, u) ∈ cf.word_to_id)

/-- The state after a dictionary load followed by any sequence of encode
runs. -/
def encodeRuns (c : DictionaryCoder) (runs : List (List Str)) : DictionaryCoder :=
  runs.foldl (fun c run => (encode c run).1) c

/-- First-occurrence deduplication of a token stream, relative to tokens
already seen. -/
def dedupFirst (seen : List Str) : List Str → List Str
  | [] => []
  | w :: ws => if w ∈ seen then dedupFirst seen ws else w :: dedupFirst (seen ++ [w]) ws

/-- Map a numeric function over the nonempty prefixes of a string, in
order of increasing length. -/
def mapPrefixes (f : Str → Nat) : Str → List Nat
  | [] => []
  | d :: w => f [d] :: mapPrefixes (fun q => f (d :: q)) w

/-- Invariant of the `longest_substrings` table relative to the
substrings processed so far. -/
def LongestInv (m : List (Str × Str)) (P : List Str) : Prop :=
  (m.map Prod.fst).Nodup ∧
  (∀ k v, (k, v) ∈ m → v.take 2 = k ∧ v ∈ P) ∧
  (∀ s ∈ P, ∃ v, (s.take 2, v) ∈ m ∧ s.length ≤ v.length)

/-- A 53-character line with prefix key `"ab"` occurring at offsets 0
and 3: both occurrences admit substrings of the capped maximal length
50, so the key has two distinct longest substrings. -/
def C10line : Str := "abcabdefghijklmnopqrstuvwxyzABCDEFGHIJKLMNOPQRSTUVWXY".toList

/-- The substring pool of `C10line` in generation (scan) order; it has
no duplicates, so it and any permutation of it are possible iteration
sequences of the substring `set`. -/
def subsC10 : List Str := extract_substrings C10line 3 50

/-- `longest_substrings[key]` read-back. -/
def lookupL (m : List (Str × Str)) (k : Str) : Option Str :=
  (m.find? (fun p => decide (p.1 = k))).map Prod.snd

/-- Substrings 0–219 of `C10line` in scan order (spelled out
so each evaluation step below stays small). -/
def C10chunkF0 : List Str :=
["abc".toList,
  "abca".toList,
  "abcab".toList,
  "abcabd".toList,
  "abcabde".toList,
  "abcabdef".toList,
  "abcabdefg".toList,
  "abcabdefgh".toList,
  "abcabdefghi".toList,
  "abcabdefghij".toList,
  "abcabdefghijk".toList,
  "abcabdefghijkl".toList,
  "abcabdefghijklm".toList,
  "abcabdefghijklmn".toList,
  "abcabdefghijklmno".toList,
  "abcabdefghijklmnop".toList,
  "abcabdefghijklmnopq".toList,
  "abcabdefghijklmnopqr".toList,
  "abcabdefghijklmnopqrs".toList,
  "abcabdefghijklmnopqrst".toList,
  "abcabdefghijklmnopqrstu".toList,
  "abcabdefghijklmnopqrstuv".toList,
  "abcabdefghijklmnopqrstuvw".toList,
  "abcabdefghijklmnopqrstuvwx".toList,
  "abcabdefghijklmnopqrstuvwxy".toList,
  "abcabdefghijklmnopqrstuvwxyz".toList,
  "abcabdefghijklmnopqrstuvwxyzA".toList,
  "abcabdefghijklmnopqrstuvwxyzAB".toList,
  "abcabdefghijklmnopqrstuvwxyzABC".toList,
  "abcabdefghijklmnopqrstuvwxyzABCD".toList,
  "abcabdefghijklmnopqrstuvwxyzABCDE".toList,
  "abcabdefghijklmnopqrstuvwxyzABCDEF".toList,
  "abcabdefghijklmnopqrstuvwxyzABCDEFG".toList,
  "abcabdefghijklmnopqrstuvwxyzABCDEFGH".toList,
  "abcabdefghijklmnopqrstuvwxyzABCDEFGHI".toList,
  "abcabdefghijklmnopqrstuvwxyzABCDEFGHIJ".toList,
  "abcabdefghijklmnopqrstuvwxyzABCDEFGHIJK".toList,
  "abcabdefghijklmnopqrstuvwxyzABCDEFGHIJKL".toList,
  "abcabdefghijklmnopqrstuvwxyzABCDEFGHIJKLM".toList,
  "abcabdefghijklmnopqrstuvwxyzABCDEFGHIJKLMN".toList,
  "abcabdefghijklmnopqrstuvwxyzABCDEFGHIJKLMNO".toList,
  "abcabdefghijklmnopqrstuvwxyzABCDEFGHIJKLMNOP".toList,
  "abcabdefghijklmnopqrstuvwxyzABCDEFGHIJKLMNOPQ".toList,
  "abcabdefghijklmnopqrstuvwxyzABCDEFGHIJKLMNOPQR".toList,
  "abcabdefghijklmnopqrstuvwxyzABCDEFGHIJKLMNOPQRS".toList,
  "abcabdefghijklmnopqrstuvwxyzABCDEFGHIJKLMNOPQRST".toList,
  "abcabdefghijklmnopqrstuvwxyzABCDEFGHIJKLMNOPQRSTU".toList,
  "abcabdefghijklmnopqrstuvwxyzABCDEFGHIJKLMNOPQRSTUV".toList,
  "bca".toList,
  "bcab".toList,
  "bcabd".toList,
  "bcabde".toList,
  "bcabdef".toList,
  "bcabdefg".toList,
  "bcabdefgh".toList,
  "bcabdefghi".toList,
  "bcabdefghij".toList,
  "bcabdefghijk".toList,
  "bcabdefghijkl".toList,
  "bcabdefghijklm".toList,
  "bcabdefghijklmn".toList,
  "bcabdefghijklmno".toList,
  "bcabdefghijklmnop".toList,
  "bcabdefghijklmnopq".toList,
  "bcabdefghijklmnopqr".toList,
  "bcabdefghijklmnopqrs".toList,
  "bcabdefghijklmnopqrst".toList,
  "bcabdefghijklmnopqrstu".toList,
  "bcabdefghijklmnopqrstuv".toList,
  "bcabdefghijklmnopqrstuvw".toList,
  "bcabdefghijklmnopqrstuvwx".toList,
  "bcabdefghijklmnopqrstuvwxy".toList,
  "bcabdefghijklmnopqrstuvwxyz".toList,
  "bcabdefghijklmnopqrstuvwxyzA".toList,
  "bcabdefghijklmnopqrstuvwxyzAB".toList,
  "bcabdefghijklmnopqrstuvwxyzABC".toList,
  "bcabdefghijklmnopqrstuvwxyzABCD".toList,
  "bcabdefghijklmnopqrstuvwxyzABCDE".toList,
  "bcabdefghijklmnopqrstuvwxyzABCDEF".toList,
  "bcabdefghijklmnopqrstuvwxyzABCDEFG".toList,
  "bcabdefghijklmnopqrstuvwxyzABCDEFGH".toList,
  "bcabdefghijklmnopqrstuvwxyzABCDEFGHI".toList,
  "bcabdefghijklmnopqrstuvwxyzABCDEFGHIJ".toList,
  "bcabdefghijklmnopqrstuvwxyzABCDEFGHIJK".toList,
  "bcabdefghijklmnopqrstuvwxyzABCDEFGHIJKL".toList,
  "bcabdefghijklmnopqrstuvwxyzABCDEFGHIJKLM".toList,
  "bcabdefghijklmnopqrstuvwxyzABCDEFGHIJKLMN".toList,
  "bcabdefghijklmnopqrstuvwxyzABCDEFGHIJKLMNO".toList,
  "bcabdefghijklmnopqrstuvwxyzABCDEFGHIJKLMNOP".toList,
  "bcabdefghijklmnopqrstuvwxyzABCDEFGHIJKLMNOPQ".toList,
  "bcabdefghijklmnopqrstuvwxyzABCDEFGHIJKLMNOPQR".toList,
  "bcabdefghijklmnopqrstuvwxyzABCDEFGHIJKLMNOPQRS".toList,
  "bcabdefghijklmnopqrstuvwxyzABCDEFGHIJKLMNOPQRST".toList,
  "bcabdefghijklmnopqrstuvwxyzABCDEFGHIJKLMNOPQRSTU".toList,
  "bcabdefghijklmnopqrstuvwxyzABCDEFGHIJKLMNOPQRSTUV".toList,
  "bcabdefghijklmnopqrstuvwxyzABCDEFGHIJKLMNOPQRSTUVW".toList,
  "cab".toList,
  "cabd".toList,
  "cabde".toList,
  "cabdef".toList,
  "cabdefg".toList,
  "cabdefgh".toList,
  "cabdefghi".toList,
  "cabdefghij".toList,
  "cabdefghijk".toList,
  "cabdefghijkl".toList,
  "cabdefghijklm".toList,
  "cabdefghijklmn".toList,
  "cabdefghijklmno".toList,
  "cabdefghijklmnop".toList,
  "cabdefghijklmnopq".toList,
  "cabdefghijklmnopqr".toList,
  "cabdefghijklmnopqrs".toList,
  "cabdefghijklmnopqrst".toList,
  "cabdefghijklmnopqrstu".toList,
  "cabdefghijklmnopqrstuv".toList,
  "cabdefghijklmnopqrstuvw".toList,
  "cabdefghijklmnopqrstuvwx".toList,
  "cabdefghijklmnopqrstuvwxy".toList,
  "cabdefghijklmnopqrstuvwxyz".toList,
  "cabdefghijklmnopqrstuvwxyzA".toList,
  "cabdefghijklmnopqrstuvwxyzAB".toList,
  "cabdefghijklmnopqrstuvwxyzABC".toList,
  "cabdefghijklmnopqrstuvwxyzABCD".toList,
  "cabdefghijklmnopqrstuvwxyzABCDE".toList,
  "cabdefghijklmnopqrstuvwxyzABCDEF".toList,
  "cabdefghijklmnopqrstuvwxyzABCDEFG".toList,
  "cabdefghijklmnopqrstuvwxyzABCDEFGH".toList,
  "cabdefghijklmnopqrstuvwxyzABCDEFGHI".toList,
  "cabdefghijklmnopqrstuvwxyzABCDEFGHIJ".toList,
  "cabdefghijklmnopqrstuvwxyzABCDEFGHIJK".toList,
  "cabdefghijklmnopqrstuvwxyzABCDEFGHIJKL".toList,
  "cabdefghijklmnopqrstuvwxyzABCDEFGHIJKLM".toList,
  "cabdefghijklmnopqrstuvwxyzABCDEFGHIJKLMN".toList,
  "cabdefghijklmnopqrstuvwxyzABCDEFGHIJKLMNO".toList,
  "cabdefghijklmnopqrstuvwxyzABCDEFGHIJKLMNOP".toList,
  "cabdefghijklmnopqrstuvwxyzABCDEFGHIJKLMNOPQ".toList,
  "cabdefghijklmnopqrstuvwxyzABCDEFGHIJKLMNOPQR".toList,
  "cabdefghijklmnopqrstuvwxyzABCDEFGHIJKLMNOPQRS".toList,
  "cabdefghijklmnopqrstuvwxyzABCDEFGHIJKLMNOPQRST".toList,
  "cabdefghijklmnopqrstuvwxyzABCDEFGHIJKLMNOPQRSTU".toList,
  "cabdefghijklmnopqrstuvwxyzABCDEFGHIJKLMNOPQRSTUV".toList,
  "cabdefghijklmnopqrstuvwxyzABCDEFGHIJKLMNOPQRSTUVW".toList,
  "cabdefghijklmnopqrstuvwxyzABCDEFGHIJKLMNOPQRSTUVWX".toList,
  "abd".toList,
  "abde".toList,
  "abdef".toList,
  "abdefg".toList,
  "abdefgh".toList,
  "abdefghi".toList,
  "abdefghij".toList,
  "abdefghijk".toList,
  "abdefghijkl".toList,
  "abdefghijklm".toList,
  "abdefghijklmn".toList,
  "abdefghijklmno".toList,
  "abdefghijklmnop".toList,
  "abdefghijklmnopq".toList,
  "abdefghijklmnopqr".toList,
  "abdefghijklmnopqrs".toList,
  "abdefghijklmnopqrst".toList,
  "abdefghijklmnopqrstu".toList,
  "abdefghijklmnopqrstuv".toList,
  "abdefghijklmnopqrstuvw".toList,
  "abdefghijklmnopqrstuvwx".toList,
  "abdefghijklmnopqrstuvwxy".toList,
  "abdefghijklmnopqrstuvwxyz".toList,
  "abdefghijklmnopqrstuvwxyzA".toList,
  "abdefghijklmnopqrstuvwxyzAB".toList,
  "abdefghijklmnopqrstuvwxyzABC".toList,
  "abdefghijklmnopqrstuvwxyzABCD".toList,
  "abdefghijklmnopqrstuvwxyzABCDE".toList,
  "abdefghijklmnopqrstuvwxyzABCDEF".toList,
  "abdefghijklmnopqrstuvwxyzABCDEFG".toList,
  "abdefghijklmnopqrstuvwxyzABCDEFGH".toList,
  "abdefghijklmnopqrstuvwxyzABCDEFGHI".toList,
  "abdefghijklmnopqrstuvwxyzABCDEFGHIJ".toList,
  "abdefghijklmnopqrstuvwxyzABCDEFGHIJK".toList,
  "abdefghijklmnopqrstuvwxyzABCDEFGHIJKL".toList,
  "abdefghijklmnopqrstuvwxyzABCDEFGHIJKLM".toList,
  "abdefghijklmnopqrstuvwxyzABCDEFGHIJKLMN".toList,
  "abdefghijklmnopqrstuvwxyzABCDEFGHIJKLMNO".toList,
  "abdefghijklmnopqrstuvwxyzABCDEFGHIJKLMNOP".toList,
  "abdefghijklmnopqrstuvwxyzABCDEFGHIJKLMNOPQ".toList,
  "abdefghijklmnopqrstuvwxyzABCDEFGHIJKLMNOPQR".toList,
  "abdefghijklmnopqrstuvwxyzABCDEFGHIJKLMNOPQRS".toList,
  "abdefghijklmnopqrstuvwxyzABCDEFGHIJKLMNOPQRST".toList,
  "abdefghijklmnopqrstuvwxyzABCDEFGHIJKLMNOPQRSTU".toList,
  "abdefghijklmnopqrstuvwxyzABCDEFGHIJKLMNOPQRSTUV".toList,
  "abdefghijklmnopqrstuvwxyzABCDEFGHIJKLMNOPQRSTUVW".toList,
  "abdefghijklmnopqrstuvwxyzABCDEFGHIJKLMNOPQRSTUVWX".toList,
  "abdefghijklmnopqrstuvwxyzABCDEFGHIJKLMNOPQRSTUVWXY".toList,
  "bde".toList,
  "bdef".toList,
  "bdefg".toList,
  "bdefgh".toList,
  "bdefghi".toList,
  "bdefghij".toList,
  "bdefghijk".toList,
  "bdefghijkl".toList,
  "bdefghijklm".toList,
  "bdefghijklmn".toList,
  "bdefghijklmno".toList,
  "bdefghijklmnop".toList,
  "bdefghijklmnopq".toList,
  "bdefghijklmnopqr".toList,
  "bdefghijklmnopqrs".toList,
  "bdefghijklmnopqrst".toList,
  "bdefghijklmnopqrstu".toList,
  "bdefghijklmnopqrstuv".toList,
  "bdefghijklmnopqrstuvw".toList,
  "bdefghijklmnopqrstuvwx".toList,
  "bdefghijklmnopqrstuvwxy".toList,
  "bdefghijklmnopqrstuvwxyz".toList,
  "bdefghijklmnopqrstuvwxyzA".toList,
  "bdefghijklmnopqrstuvwxyzAB".toList,
  "bdefghijklmnopqrstuvwxyzABC".toList,
  "bdefghijklmnopqrstuvwxyzABCD".toList,
  "bdefghijklmnopqrstuvwxyzABCDE".toList,
  "bdefghijklmnopqrstuvwxyzABCDEF".toList]

/-- Substrings 220–439 of `C10line` in scan order (spelled out
so each evaluation step below stays small). -/
def C10chunkF1 : List Str :=
["bdefghijklmnopqrstuvwxyzABCDEFG".toList,
  "bdefghijklmnopqrstuvwxyzABCDEFGH".toList,
  "bdefghijklmnopqrstuvwxyzABCDEFGHI".toList,
  "bdefghijklmnopqrstuvwxyzABCDEFGHIJ".toList,
  "bdefghijklmnopqrstuvwxyzABCDEFGHIJK".toList,
  "bdefghijklmnopqrstuvwxyzABCDEFGHIJKL".toList,
  "bdefghijklmnopqrstuvwxyzABCDEFGHIJKLM".toList,
  "bdefghijklmnopqrstuvwxyzABCDEFGHIJKLMN".toList,
  "bdefghijklmnopqrstuvwxyzABCDEFGHIJKLMNO".toList,
  "bdefghijklmnopqrstuvwxyzABCDEFGHIJKLMNOP".toList,
  "bdefghijklmnopqrstuvwxyzABCDEFGHIJKLMNOPQ".toList,
  "bdefghijklmnopqrstuvwxyzABCDEFGHIJKLMNOPQR".toList,
  "bdefghijklmnopqrstuvwxyzABCDEFGHIJKLMNOPQRS".toList,
  "bdefghijklmnopqrstuvwxyzABCDEFGHIJKLMNOPQRST".toList,
  "bdefghijklmnopqrstuvwxyzABCDEFGHIJKLMNOPQRSTU".toList,
  "bdefghijklmnopqrstuvwxyzABCDEFGHIJKLMNOPQRSTUV".toList,
  "bdefghijklmnopqrstuvwxyzABCDEFGHIJKLMNOPQRSTUVW".toList,
  "bdefghijklmnopqrstuvwxyzABCDEFGHIJKLMNOPQRSTUVWX".toList,
  "bdefghijklmnopqrstuvwxyzABCDEFGHIJKLMNOPQRSTUVWXY".toList,
  "def".toList,
  "defg".toList,
  "defgh".toList,
  "defghi".toList,
  "defghij".toList,
  "defghijk".toList,
  "defghijkl".toList,
  "defghijklm".toList,
  "defghijklmn".toList,
  "defghijklmno".toList,
  "defghijklmnop".toList,
  "defghijklmnopq".toList,
  "defghijklmnopqr".toList,
  "defghijklmnopqrs".toList,
  "defghijklmnopqrst".toList,
  "defghijklmnopqrstu".toList,
  "defghijklmnopqrstuv".toList,
  "defghijklmnopqrstuvw".toList,
  "defghijklmnopqrstuvwx".toList,
  "defghijklmnopqrstuvwxy".toList,
  "defghijklmnopqrstuvwxyz".toList,
  "defghijklmnopqrstuvwxyzA".toList,
  "defghijklmnopqrstuvwxyzAB".toList,
  "defghijklmnopqrstuvwxyzABC".toList,
  "defghijklmnopqrstuvwxyzABCD".toList,
  "defghijklmnopqrstuvwxyzABCDE".toList,
  "defghijklmnopqrstuvwxyzABCDEF".toList,
  "defghijklmnopqrstuvwxyzABCDEFG".toList,
  "defghijklmnopqrstuvwxyzABCDEFGH".toList,
  "defghijklmnopqrstuvwxyzABCDEFGHI".toList,
  "defghijklmnopqrstuvwxyzABCDEFGHIJ".toList,
  "defghijklmnopqrstuvwxyzABCDEFGHIJK".toList,
  "defghijklmnopqrstuvwxyzABCDEFGHIJKL".toList,
  "defghijklmnopqrstuvwxyzABCDEFGHIJKLM".toList,
  "defghijklmnopqrstuvwxyzABCDEFGHIJKLMN".toList,
  "defghijklmnopqrstuvwxyzABCDEFGHIJKLMNO".toList,
  "defghijklmnopqrstuvwxyzABCDEFGHIJKLMNOP".toList,
  "defghijklmnopqrstuvwxyzABCDEFGHIJKLMNOPQ".toList,
  "defghijklmnopqrstuvwxyzABCDEFGHIJKLMNOPQR".toList,
  "defghijklmnopqrstuvwxyzABCDEFGHIJKLMNOPQRS".toList,
  "defghijklmnopqrstuvwxyzABCDEFGHIJKLMNOPQRST".toList,
  "defghijklmnopqrstuvwxyzABCDEFGHIJKLMNOPQRSTU".toList,
  "defghijklmnopqrstuvwxyzABCDEFGHIJKLMNOPQRSTUV".toList,
  "defghijklmnopqrstuvwxyzABCDEFGHIJKLMNOPQRSTUVW".toList,
  "defghijklmnopqrstuvwxyzABCDEFGHIJKLMNOPQRSTUVWX".toList,
  "defghijklmnopqrstuvwxyzABCDEFGHIJKLMNOPQRSTUVWXY".toList,
  "efg".toList,
  "efgh".toList,
  "efghi".toList,
  "efghij".toList,
  "efghijk".toList,
  "efghijkl".toList,
  "efghijklm".toList,
  "efghijklmn".toList,
  "efghijklmno".toList,
  "efghijklmnop".toList,
  "efghijklmnopq".toList,
  "efghijklmnopqr".toList,
  "efghijklmnopqrs".toList,
  "efghijklmnopqrst".toList,
  "efghijklmnopqrstu".toList,
  "efghijklmnopqrstuv".toList,
  "efghijklmnopqrstuvw".toList,
  "efghijklmnopqrstuvwx".toList,
  "efghijklmnopqrstuvwxy".toList,
  "efghijklmnopqrstuvwxyz".toList,
  "efghijklmnopqrstuvwxyzA".toList,
  "efghijklmnopqrstuvwxyzAB".toList,
  "efghijklmnopqrstuvwxyzABC".toList,
  "efghijklmnopqrstuvwxyzABCD".toList,
  "efghijklmnopqrstuvwxyzABCDE".toList,
  "efghijklmnopqrstuvwxyzABCDEF".toList,
  "efghijklmnopqrstuvwxyzABCDEFG".toList,
  "efghijklmnopqrstuvwxyzABCDEFGH".toList,
  "efghijklmnopqrstuvwxyzABCDEFGHI".toList,
  "efghijklmnopqrstuvwxyzABCDEFGHIJ".toList,
  "efghijklmnopqrstuvwxyzABCDEFGHIJK".toList,
  "efghijklmnopqrstuvwxyzABCDEFGHIJKL".toList,
  "efghijklmnopqrstuvwxyzABCDEFGHIJKLM".toList,
  "efghijklmnopqrstuvwxyzABCDEFGHIJKLMN".toList,
  "efghijklmnopqrstuvwxyzABCDEFGHIJKLMNO".toList,
  "efghijklmnopqrstuvwxyzABCDEFGHIJKLMNOP".toList,
  "efghijklmnopqrstuvwxyzABCDEFGHIJKLMNOPQ".toList,
  "efghijklmnopqrstuvwxyzABCDEFGHIJKLMNOPQR".toList,
  "efghijklmnopqrstuvwxyzABCDEFGHIJKLMNOPQRS".toList,
  "efghijklmnopqrstuvwxyzABCDEFGHIJKLMNOPQRST".toList,
  "efghijklmnopqrstuvwxyzABCDEFGHIJKLMNOPQRSTU".toList,
  "efghijklmnopqrstuvwxyzABCDEFGHIJKLMNOPQRSTUV".toList,
  "efghijklmnopqrstuvwxyzABCDEFGHIJKLMNOPQRSTUVW".toList,
  "efghijklmnopqrstuvwxyzABCDEFGHIJKLMNOPQRSTUVWX".toList,
  "efghijklmnopqrstuvwxyzABCDEFGHIJKLMNOPQRSTUVWXY".toList,
  "fgh".toList,
  "fghi".toList,
  "fghij".toList,
  "fghijk".toList,
  "fghijkl".toList,
  "fghijklm".toList,
  "fghijklmn".toList,
  "fghijklmno".toList,
  "fghijklmnop".toList,
  "fghijklmnopq".toList,
  "fghijklmnopqr".toList,
  "fghijklmnopqrs".toList,
  "fghijklmnopqrst".toList,
  "fghijklmnopqrstu".toList,
  "fghijklmnopqrstuv".toList,
  "fghijklmnopqrstuvw".toList,
  "fghijklmnopqrstuvwx".toList,
  "fghijklmnopqrstuvwxy".toList,
  "fghijklmnopqrstuvwxyz".toList,
  "fghijklmnopqrstuvwxyzA".toList,
  "fghijklmnopqrstuvwxyzAB".toList,
  "fghijklmnopqrstuvwxyzABC".toList,
  "fghijklmnopqrstuvwxyzABCD".toList,
  "fghijklmnopqrstuvwxyzABCDE".toList,
  "fghijklmnopqrstuvwxyzABCDEF".toList,
  "fghijklmnopqrstuvwxyzABCDEFG".toList,
  "fghijklmnopqrstuvwxyzABCDEFGH".toList,
  "fghijklmnopqrstuvwxyzABCDEFGHI".toList,
  "fghijklmnopqrstuvwxyzABCDEFGHIJ".toList,
  "fghijklmnopqrstuvwxyzABCDEFGHIJK".toList,
  "fghijklmnopqrstuvwxyzABCDEFGHIJKL".toList,
  "fghijklmnopqrstuvwxyzABCDEFGHIJKLM".toList,
  "fghijklmnopqrstuvwxyzABCDEFGHIJKLMN".toList,
  "fghijklmnopqrstuvwxyzABCDEFGHIJKLMNO".toList,
  "fghijklmnopqrstuvwxyzABCDEFGHIJKLMNOP".toList,
  "fghijklmnopqrstuvwxyzABCDEFGHIJKLMNOPQ".toList,
  "fghijklmnopqrstuvwxyzABCDEFGHIJKLMNOPQR".toList,
  "fghijklmnopqrstuvwxyzABCDEFGHIJKLMNOPQRS".toList,
  "fghijklmnopqrstuvwxyzABCDEFGHIJKLMNOPQRST".toList,
  "fghijklmnopqrstuvwxyzABCDEFGHIJKLMNOPQRSTU".toList,
  "fghijklmnopqrstuvwxyzABCDEFGHIJKLMNOPQRSTUV".toList,
  "fghijklmnopqrstuvwxyzABCDEFGHIJKLMNOPQRSTUVW".toList,
  "fghijklmnopqrstuvwxyzABCDEFGHIJKLMNOPQRSTUVWX".toList,
  "fghijklmnopqrstuvwxyzABCDEFGHIJKLMNOPQRSTUVWXY".toList,
  "ghi".toList,
  "ghij".toList,
  "ghijk".toList,
  "ghijkl".toList,
  "ghijklm".toList,
  "ghijklmn".toList,
  "ghijklmno".toList,
  "ghijklmnop".toList,
  "ghijklmnopq".toList,
  "ghijklmnopqr".toList,
  "ghijklmnopqrs".toList,
  "ghijklmnopqrst".toList,
  "ghijklmnopqrstu".toList,
  "ghijklmnopqrstuv".toList,
  "ghijklmnopqrstuvw".toList,
  "ghijklmnopqrstuvwx".toList,
  "ghijklmnopqrstuvwxy".toList,
  "ghijklmnopqrstuvwxyz".toList,
  "ghijklmnopqrstuvwxyzA".toList,
  "ghijklmnopqrstuvwxyzAB".toList,
  "ghijklmnopqrstuvwxyzABC".toList,
  "ghijklmnopqrstuvwxyzABCD".toList,
  "ghijklmnopqrstuvwxyzABCDE".toList,
  "ghijklmnopqrstuvwxyzABCDEF".toList,
  "ghijklmnopqrstuvwxyzABCDEFG".toList,
  "ghijklmnopqrstuvwxyzABCDEFGH".toList,
  "ghijklmnopqrstuvwxyzABCDEFGHI".toList,
  "ghijklmnopqrstuvwxyzABCDEFGHIJ".toList,
  "ghijklmnopqrstuvwxyzABCDEFGHIJK".toList,
  "ghijklmnopqrstuvwxyzABCDEFGHIJKL".toList,
  "ghijklmnopqrstuvwxyzABCDEFGHIJKLM".toList,
  "ghijklmnopqrstuvwxyzABCDEFGHIJKLMN".toList,
  "ghijklmnopqrstuvwxyzABCDEFGHIJKLMNO".toList,
  "ghijklmnopqrstuvwxyzABCDEFGHIJKLMNOP".toList,
  "ghijklmnopqrstuvwxyzABCDEFGHIJKLMNOPQ".toList,
  "ghijklmnopqrstuvwxyzABCDEFGHIJKLMNOPQR".toList,
  "ghijklmnopqrstuvwxyzABCDEFGHIJKLMNOPQRS".toList,
  "ghijklmnopqrstuvwxyzABCDEFGHIJKLMNOPQRST".toList,
  "ghijklmnopqrstuvwxyzABCDEFGHIJKLMNOPQRSTU".toList,
  "ghijklmnopqrstuvwxyzABCDEFGHIJKLMNOPQRSTUV".toList,
  "ghijklmnopqrstuvwxyzABCDEFGHIJKLMNOPQRSTUVW".toList,
  "ghijklmnopqrstuvwxyzABCDEFGHIJKLMNOPQRSTUVWX".toList,
  "ghijklmnopqrstuvwxyzABCDEFGHIJKLMNOPQRSTUVWXY".toList,
  "hij".toList,
  "hijk".toList,
  "hijkl".toList,
  "hijklm".toList,
  "hijklmn".toList,
  "hijklmno".toList,
  "hijklmnop".toList,
  "hijklmnopq".toList,
  "hijklmnopqr".toList,
  "hijklmnopqrs".toList,
  "hijklmnopqrst".toList,
  "hijklmnopqrstu".toList,
  "hijklmnopqrstuv".toList,
  "hijklmnopqrstuvw".toList,
  "hijklmnopqrstuvwx".toList,
  "hijklmnopqrstuvwxy".toList,
  "hijklmnopqrstuvwxyz".toList,
  "hijklmnopqrstuvwxyzA".toList,
  "hijklmnopqrstuvwxyzAB".toList,
  "hijklmnopqrstuvwxyzABC".toList,
  "hijklmnopqrstuvwxyzABCD".toList,
  "hijklmnopqrstuvwxyzABCDE".toList,
  "hijklmnopqrstuvwxyzABCDEF".toList]

/-- Substrings 440–659 of `C10line` in scan order (spelled out
so each evaluation step below stays small). -/
def C10chunkF2 : List Str :=
["hijklmnopqrstuvwxyzABCDEFG".toList,
  "hijklmnopqrstuvwxyzABCDEFGH".toList,
  "hijklmnopqrstuvwxyzABCDEFGHI".toList,
  "hijklmnopqrstuvwxyzABCDEFGHIJ".toList,
  "hijklmnopqrstuvwxyzABCDEFGHIJK".toList,
  "hijklmnopqrstuvwxyzABCDEFGHIJKL".toList,
  "hijklmnopqrstuvwxyzABCDEFGHIJKLM".toList,
  "hijklmnopqrstuvwxyzABCDEFGHIJKLMN".toList,
  "hijklmnopqrstuvwxyzABCDEFGHIJKLMNO".toList,
  "hijklmnopqrstuvwxyzABCDEFGHIJKLMNOP".toList,
  "hijklmnopqrstuvwxyzABCDEFGHIJKLMNOPQ".toList,
  "hijklmnopqrstuvwxyzABCDEFGHIJKLMNOPQR".toList,
  "hijklmnopqrstuvwxyzABCDEFGHIJKLMNOPQRS".toList,
  "hijklmnopqrstuvwxyzABCDEFGHIJKLMNOPQRST".toList,
  "hijklmnopqrstuvwxyzABCDEFGHIJKLMNOPQRSTU".toList,
  "hijklmnopqrstuvwxyzABCDEFGHIJKLMNOPQRSTUV".toList,
  "hijklmnopqrstuvwxyzABCDEFGHIJKLMNOPQRSTUVW".toList,
  "hijklmnopqrstuvwxyzABCDEFGHIJKLMNOPQRSTUVWX".toList,
  "hijklmnopqrstuvwxyzABCDEFGHIJKLMNOPQRSTUVWXY".toList,
  "ijk".toList,
  "ijkl".toList,
  "ijklm".toList,
  "ijklmn".toList,
  "ijklmno".toList,
  "ijklmnop".toList,
  "ijklmnopq".toList,
  "ijklmnopqr".toList,
  "ijklmnopqrs".toList,
  "ijklmnopqrst".toList,
  "ijklmnopqrstu".toList,
  "ijklmnopqrstuv".toList,
  "ijklmnopqrstuvw".toList,
  "ijklmnopqrstuvwx".toList,
  "ijklmnopqrstuvwxy".toList,
  "ijklmnopqrstuvwxyz".toList,
  "ijklmnopqrstuvwxyzA".toList,
  "ijklmnopqrstuvwxyzAB".toList,
  "ijklmnopqrstuvwxyzABC".toList,
  "ijklmnopqrstuvwxyzABCD".toList,
  "ijklmnopqrstuvwxyzABCDE".toList,
  "ijklmnopqrstuvwxyzABCDEF".toList,
  "ijklmnopqrstuvwxyzABCDEFG".toList,
  "ijklmnopqrstuvwxyzABCDEFGH".toList,
  "ijklmnopqrstuvwxyzABCDEFGHI".toList,
  "ijklmnopqrstuvwxyzABCDEFGHIJ".toList,
  "ijklmnopqrstuvwxyzABCDEFGHIJK".toList,
  "ijklmnopqrstuvwxyzABCDEFGHIJKL".toList,
  "ijklmnopqrstuvwxyzABCDEFGHIJKLM".toList,
  "ijklmnopqrstuvwxyzABCDEFGHIJKLMN".toList,
  "ijklmnopqrstuvwxyzABCDEFGHIJKLMNO".toList,
  "ijklmnopqrstuvwxyzABCDEFGHIJKLMNOP".toList,
  "ijklmnopqrstuvwxyzABCDEFGHIJKLMNOPQ".toList,
  "ijklmnopqrstuvwxyzABCDEFGHIJKLMNOPQR".toList,
  "ijklmnopqrstuvwxyzABCDEFGHIJKLMNOPQRS".toList,
  "ijklmnopqrstuvwxyzABCDEFGHIJKLMNOPQRST".toList,
  "ijklmnopqrstuvwxyzABCDEFGHIJKLMNOPQRSTU".toList,
  "ijklmnopqrstuvwxyzABCDEFGHIJKLMNOPQRSTUV".toList,
  "ijklmnopqrstuvwxyzABCDEFGHIJKLMNOPQRSTUVW".toList,
  "ijklmnopqrstuvwxyzABCDEFGHIJKLMNOPQRSTUVWX".toList,
  "ijklmnopqrstuvwxyzABCDEFGHIJKLMNOPQRSTUVWXY".toList,
  "jkl".toList,
  "jklm".toList,
  "jklmn".toList,
  "jklmno".toList,
  "jklmnop".toList,
  "jklmnopq".toList,
  "jklmnopqr".toList,
  "jklmnopqrs".toList,
  "jklmnopqrst".toList,
  "jklmnopqrstu".toList,
  "jklmnopqrstuv".toList,
  "jklmnopqrstuvw".toList,
  "jklmnopqrstuvwx".toList,
  "jklmnopqrstuvwxy".toList,
  "jklmnopqrstuvwxyz".toList,
  "jklmnopqrstuvwxyzA".toList,
  "jklmnopqrstuvwxyzAB".toList,
  "jklmnopqrstuvwxyzABC".toList,
  "jklmnopqrstuvwxyzABCD".toList,
  "jklmnopqrstuvwxyzABCDE".toList,
  "jklmnopqrstuvwxyzABCDEF".toList,
  "jklmnopqrstuvwxyzABCDEFG".toList,
  "jklmnopqrstuvwxyzABCDEFGH".toList,
  "jklmnopqrstuvwxyzABCDEFGHI".toList,
  "jklmnopqrstuvwxyzABCDEFGHIJ".toList,
  "jklmnopqrstuvwxyzABCDEFGHIJK".toList,
  "jklmnopqrstuvwxyzABCDEFGHIJKL".toList,
  "jklmnopqrstuvwxyzABCDEFGHIJKLM".toList,
  "jklmnopqrstuvwxyzABCDEFGHIJKLMN".toList,
  "jklmnopqrstuvwxyzABCDEFGHIJKLMNO".toList,
  "jklmnopqrstuvwxyzABCDEFGHIJKLMNOP".toList,
  "jklmnopqrstuvwxyzABCDEFGHIJKLMNOPQ".toList,
  "jklmnopqrstuvwxyzABCDEFGHIJKLMNOPQR".toList,
  "jklmnopqrstuvwxyzABCDEFGHIJKLMNOPQRS".toList,
  "jklmnopqrstuvwxyzABCDEFGHIJKLMNOPQRST".toList,
  "jklmnopqrstuvwxyzABCDEFGHIJKLMNOPQRSTU".toList,
  "jklmnopqrstuvwxyzABCDEFGHIJKLMNOPQRSTUV".toList,
  "jklmnopqrstuvwxyzABCDEFGHIJKLMNOPQRSTUVW".toList,
  "jklmnopqrstuvwxyzABCDEFGHIJKLMNOPQRSTUVWX".toList,
  "jklmnopqrstuvwxyzABCDEFGHIJKLMNOPQRSTUVWXY".toList,
  "klm".toList,
  "klmn".toList,
  "klmno".toList,
  "klmnop".toList,
  "klmnopq".toList,
  "klmnopqr".toList,
  "klmnopqrs".toList,
  "klmnopqrst".toList,
  "klmnopqrstu".toList,
  "klmnopqrstuv".toList,
  "klmnopqrstuvw".toList,
  "klmnopqrstuvwx".toList,
  "klmnopqrstuvwxy".toList,
  "klmnopqrstuvwxyz".toList,
  "klmnopqrstuvwxyzA".toList,
  "klmnopqrstuvwxyzAB".toList,
  "klmnopqrstuvwxyzABC".toList,
  "klmnopqrstuvwxyzABCD".toList,
  "klmnopqrstuvwxyzABCDE".toList,
  "klmnopqrstuvwxyzABCDEF".toList,
  "klmnopqrstuvwxyzABCDEFG".toList,
  "klmnopqrstuvwxyzABCDEFGH".toList,
  "klmnopqrstuvwxyzABCDEFGHI".toList,
  "klmnopqrstuvwxyzABCDEFGHIJ".toList,
  "klmnopqrstuvwxyzABCDEFGHIJK".toList,
  "klmnopqrstuvwxyzABCDEFGHIJKL".toList,
  "klmnopqrstuvwxyzABCDEFGHIJKLM".toList,
  "klmnopqrstuvwxyzABCDEFGHIJKLMN".toList,
  "klmnopqrstuvwxyzABCDEFGHIJKLMNO".toList,
  "klmnopqrstuvwxyzABCDEFGHIJKLMNOP".toList,
  "klmnopqrstuvwxyzABCDEFGHIJKLMNOPQ".toList,
  "klmnopqrstuvwxyzABCDEFGHIJKLMNOPQR".toList,
  "klmnopqrstuvwxyzABCDEFGHIJKLMNOPQRS".toList,
  "klmnopqrstuvwxyzABCDEFGHIJKLMNOPQRST".toList,
  "klmnopqrstuvwxyzABCDEFGHIJKLMNOPQRSTU".toList,
  "klmnopqrstuvwxyzABCDEFGHIJKLMNOPQRSTUV".toList,
  "klmnopqrstuvwxyzABCDEFGHIJKLMNOPQRSTUVW".toList,
  "klmnopqrstuvwxyzABCDEFGHIJKLMNOPQRSTUVWX".toList,
  "klmnopqrstuvwxyzABCDEFGHIJKLMNOPQRSTUVWXY".toList,
  "lmn".toList,
  "lmno".toList,
  "lmnop".toList,
  "lmnopq".toList,
  "lmnopqr".toList,
  "lmnopqrs".toList,
  "lmnopqrst".toList,
  "lmnopqrstu".toList,
  "lmnopqrstuv".toList,
  "lmnopqrstuvw".toList,
  "lmnopqrstuvwx".toList,
  "lmnopqrstuvwxy".toList,
  "lmnopqrstuvwxyz".toList,
  "lmnopqrstuvwxyzA".toList,
  "lmnopqrstuvwxyzAB".toList,
  "lmnopqrstuvwxyzABC".toList,
  "lmnopqrstuvwxyzABCD".toList,
  "lmnopqrstuvwxyzABCDE".toList,
  "lmnopqrstuvwxyzABCDEF".toList,
  "lmnopqrstuvwxyzABCDEFG".toList,
  "lmnopqrstuvwxyzABCDEFGH".toList,
  "lmnopqrstuvwxyzABCDEFGHI".toList,
  "lmnopqrstuvwxyzABCDEFGHIJ".toList,
  "lmnopqrstuvwxyzABCDEFGHIJK".toList,
  "lmnopqrstuvwxyzABCDEFGHIJKL".toList,
  "lmnopqrstuvwxyzABCDEFGHIJKLM".toList,
  "lmnopqrstuvwxyzABCDEFGHIJKLMN".toList,
  "lmnopqrstuvwxyzABCDEFGHIJKLMNO".toList,
  "lmnopqrstuvwxyzABCDEFGHIJKLMNOP".toList,
  "lmnopqrstuvwxyzABCDEFGHIJKLMNOPQ".toList,
  "lmnopqrstuvwxyzABCDEFGHIJKLMNOPQR".toList,
  "lmnopqrstuvwxyzABCDEFGHIJKLMNOPQRS".toList,
  "lmnopqrstuvwxyzABCDEFGHIJKLMNOPQRST".toList,
  "lmnopqrstuvwxyzABCDEFGHIJKLMNOPQRSTU".toList,
  "lmnopqrstuvwxyzABCDEFGHIJKLMNOPQRSTUV".toList,
  "lmnopqrstuvwxyzABCDEFGHIJKLMNOPQRSTUVW".toList,
  "lmnopqrstuvwxyzABCDEFGHIJKLMNOPQRSTUVWX".toList,
  "lmnopqrstuvwxyzABCDEFGHIJKLMNOPQRSTUVWXY".toList,
  "mno".toList,
  "mnop".toList,
  "mnopq".toList,
  "mnopqr".toList,
  "mnopqrs".toList,
  "mnopqrst".toList,
  "mnopqrstu".toList,
  "mnopqrstuv".toList,
  "mnopqrstuvw".toList,
  "mnopqrstuvwx".toList,
  "mnopqrstuvwxy".toList,
  "mnopqrstuvwxyz".toList,
  "mnopqrstuvwxyzA".toList,
  "mnopqrstuvwxyzAB".toList,
  "mnopqrstuvwxyzABC".toList,
  "mnopqrstuvwxyzABCD".toList,
  "mnopqrstuvwxyzABCDE".toList,
  "mnopqrstuvwxyzABCDEF".toList,
  "mnopqrstuvwxyzABCDEFG".toList,
  "mnopqrstuvwxyzABCDEFGH".toList,
  "mnopqrstuvwxyzABCDEFGHI".toList,
  "mnopqrstuvwxyzABCDEFGHIJ".toList,
  "mnopqrstuvwxyzABCDEFGHIJK".toList,
  "mnopqrstuvwxyzABCDEFGHIJKL".toList,
  "mnopqrstuvwxyzABCDEFGHIJKLM".toList,
  "mnopqrstuvwxyzABCDEFGHIJKLMN".toList,
  "mnopqrstuvwxyzABCDEFGHIJKLMNO".toList,
  "mnopqrstuvwxyzABCDEFGHIJKLMNOP".toList,
  "mnopqrstuvwxyzABCDEFGHIJKLMNOPQ".toList,
  "mnopqrstuvwxyzABCDEFGHIJKLMNOPQR".toList,
  "mnopqrstuvwxyzABCDEFGHIJKLMNOPQRS".toList,
  "mnopqrstuvwxyzABCDEFGHIJKLMNOPQRST".toList,
  "mnopqrstuvwxyzABCDEFGHIJKLMNOPQRSTU".toList,
  "mnopqrstuvwxyzABCDEFGHIJKLMNOPQRSTUV".toList,
  "mnopqrstuvwxyzABCDEFGHIJKLMNOPQRSTUVW".toList,
  "mnopqrstuvwxyzABCDEFGHIJKLMNOPQRSTUVWX".toList,
  "mnopqrstuvwxyzABCDEFGHIJKLMNOPQRSTUVWXY".toList,
  "nop".toList,
  "nopq".toList,
  "nopqr".toList,
  "nopqrs".toList,
  "nopqrst".toList,
  "nopqrstu".toList]

/-- Substrings 660–879 of `C10line` in scan order (spelled out
so each evaluation step below stays small). -/
def C10chunkF3 : List Str :=
["nopqrstuv".toList,
  "nopqrstuvw".toList,
  "nopqrstuvwx".toList,
  "nopqrstuvwxy".toList,
  "nopqrstuvwxyz".toList,
  "nopqrstuvwxyzA".toList,
  "nopqrstuvwxyzAB".toList,
  "nopqrstuvwxyzABC".toList,
  "nopqrstuvwxyzABCD".toList,
  "nopqrstuvwxyzABCDE".toList,
  "nopqrstuvwxyzABCDEF".toList,
  "nopqrstuvwxyzABCDEFG".toList,
  "nopqrstuvwxyzABCDEFGH".toList,
  "nopqrstuvwxyzABCDEFGHI".toList,
  "nopqrstuvwxyzABCDEFGHIJ".toList,
  "nopqrstuvwxyzABCDEFGHIJK".toList,
  "nopqrstuvwxyzABCDEFGHIJKL".toList,
  "nopqrstuvwxyzABCDEFGHIJKLM".toList,
  "nopqrstuvwxyzABCDEFGHIJKLMN".toList,
  "nopqrstuvwxyzABCDEFGHIJKLMNO".toList,
  "nopqrstuvwxyzABCDEFGHIJKLMNOP".toList,
  "nopqrstuvwxyzABCDEFGHIJKLMNOPQ".toList,
  "nopqrstuvwxyzABCDEFGHIJKLMNOPQR".toList,
  "nopqrstuvwxyzABCDEFGHIJKLMNOPQRS".toList,
  "nopqrstuvwxyzABCDEFGHIJKLMNOPQRST".toList,
  "nopqrstuvwxyzABCDEFGHIJKLMNOPQRSTU".toList,
  "nopqrstuvwxyzABCDEFGHIJKLMNOPQRSTUV".toList,
  "nopqrstuvwxyzABCDEFGHIJKLMNOPQRSTUVW".toList,
  "nopqrstuvwxyzABCDEFGHIJKLMNOPQRSTUVWX".toList,
  "nopqrstuvwxyzABCDEFGHIJKLMNOPQRSTUVWXY".toList,
  "opq".toList,
  "opqr".toList,
  "opqrs".toList,
  "opqrst".toList,
  "opqrstu".toList,
  "opqrstuv".toList,
  "opqrstuvw".toList,
  "opqrstuvwx".toList,
  "opqrstuvwxy".toList,
  "opqrstuvwxyz".toList,
  "opqrstuvwxyzA".toList,
  "opqrstuvwxyzAB".toList,
  "opqrstuvwxyzABC".toList,
  "opqrstuvwxyzABCD".toList,
  "opqrstuvwxyzABCDE".toList,
  "opqrstuvwxyzABCDEF".toList,
  "opqrstuvwxyzABCDEFG".toList,
  "opqrstuvwxyzABCDEFGH".toList,
  "opqrstuvwxyzABCDEFGHI".toList,
  "opqrstuvwxyzABCDEFGHIJ".toList,
  "opqrstuvwxyzABCDEFGHIJK".toList,
  "opqrstuvwxyzABCDEFGHIJKL".toList,
  "opqrstuvwxyzABCDEFGHIJKLM".toList,
  "opqrstuvwxyzABCDEFGHIJKLMN".toList,
  "opqrstuvwxyzABCDEFGHIJKLMNO".toList,
  "opqrstuvwxyzABCDEFGHIJKLMNOP".toList,
  "opqrstuvwxyzABCDEFGHIJKLMNOPQ".toList,
  "opqrstuvwxyzABCDEFGHIJKLMNOPQR".toList,
  "opqrstuvwxyzABCDEFGHIJKLMNOPQRS".toList,
  "opqrstuvwxyzABCDEFGHIJKLMNOPQRST".toList,
  "opqrstuvwxyzABCDEFGHIJKLMNOPQRSTU".toList,
  "opqrstuvwxyzABCDEFGHIJKLMNOPQRSTUV".toList,
  "opqrstuvwxyzABCDEFGHIJKLMNOPQRSTUVW".toList,
  "opqrstuvwxyzABCDEFGHIJKLMNOPQRSTUVWX".toList,
  "opqrstuvwxyzABCDEFGHIJKLMNOPQRSTUVWXY".toList,
  "pqr".toList,
  "pqrs".toList,
  "pqrst".toList,
  "pqrstu".toList,
  "pqrstuv".toList,
  "pqrstuvw".toList,
  "pqrstuvwx".toList,
  "pqrstuvwxy".toList,
  "pqrstuvwxyz".toList,
  "pqrstuvwxyzA".toList,
  "pqrstuvwxyzAB".toList,
  "pqrstuvwxyzABC".toList,
  "pqrstuvwxyzABCD".toList,
  "pqrstuvwxyzABCDE".toList,
  "pqrstuvwxyzABCDEF".toList,
  "pqrstuvwxyzABCDEFG".toList,
  "pqrstuvwxyzABCDEFGH".toList,
  "pqrstuvwxyzABCDEFGHI".toList,
  "pqrstuvwxyzABCDEFGHIJ".toList,
  "pqrstuvwxyzABCDEFGHIJK".toList,
  "pqrstuvwxyzABCDEFGHIJKL".toList,
  "pqrstuvwxyzABCDEFGHIJKLM".toList,
  "pqrstuvwxyzABCDEFGHIJKLMN".toList,
  "pqrstuvwxyzABCDEFGHIJKLMNO".toList,
  "pqrstuvwxyzABCDEFGHIJKLMNOP".toList,
  "pqrstuvwxyzABCDEFGHIJKLMNOPQ".toList,
  "pqrstuvwxyzABCDEFGHIJKLMNOPQR".toList,
  "pqrstuvwxyzABCDEFGHIJKLMNOPQRS".toList,
  "pqrstuvwxyzABCDEFGHIJKLMNOPQRST".toList,
  "pqrstuvwxyzABCDEFGHIJKLMNOPQRSTU".toList,
  "pqrstuvwxyzABCDEFGHIJKLMNOPQRSTUV".toList,
  "pqrstuvwxyzABCDEFGHIJKLMNOPQRSTUVW".toList,
  "pqrstuvwxyzABCDEFGHIJKLMNOPQRSTUVWX".toList,
  "pqrstuvwxyzABCDEFGHIJKLMNOPQRSTUVWXY".toList,
  "qrs".toList,
  "qrst".toList,
  "qrstu".toList,
  "qrstuv".toList,
  "qrstuvw".toList,
  "qrstuvwx".toList,
  "qrstuvwxy".toList,
  "qrstuvwxyz".toList,
  "qrstuvwxyzA".toList,
  "qrstuvwxyzAB".toList,
  "qrstuvwxyzABC".toList,
  "qrstuvwxyzABCD".toList,
  "qrstuvwxyzABCDE".toList,
  "qrstuvwxyzABCDEF".toList,
  "qrstuvwxyzABCDEFG".toList,
  "qrstuvwxyzABCDEFGH".toList,
  "qrstuvwxyzABCDEFGHI".toList,
  "qrstuvwxyzABCDEFGHIJ".toList,
  "qrstuvwxyzABCDEFGHIJK".toList,
  "qrstuvwxyzABCDEFGHIJKL".toList,
  "qrstuvwxyzABCDEFGHIJKLM".toList,
  "qrstuvwxyzABCDEFGHIJKLMN".toList,
  "qrstuvwxyzABCDEFGHIJKLMNO".toList,
  "qrstuvwxyzABCDEFGHIJKLMNOP".toList,
  "qrstuvwxyzABCDEFGHIJKLMNOPQ".toList,
  "qrstuvwxyzABCDEFGHIJKLMNOPQR".toList,
  "qrstuvwxyzABCDEFGHIJKLMNOPQRS".toList,
  "qrstuvwxyzABCDEFGHIJKLMNOPQRST".toList,
  "qrstuvwxyzABCDEFGHIJKLMNOPQRSTU".toList,
  "qrstuvwxyzABCDEFGHIJKLMNOPQRSTUV".toList,
  "qrstuvwxyzABCDEFGHIJKLMNOPQRSTUVW".toList,
  "qrstuvwxyzABCDEFGHIJKLMNOPQRSTUVWX".toList,
  "qrstuvwxyzABCDEFGHIJKLMNOPQRSTUVWXY".toList,
  "rst".toList,
  "rstu".toList,
  "rstuv".toList,
  "rstuvw".toList,
  "rstuvwx".toList,
  "rstuvwxy".toList,
  "rstuvwxyz".toList,
  "rstuvwxyzA".toList,
  "rstuvwxyzAB".toList,
  "rstuvwxyzABC".toList,
  "rstuvwxyzABCD".toList,
  "rstuvwxyzABCDE".toList,
  "rstuvwxyzABCDEF".toList,
  "rstuvwxyzABCDEFG".toList,
  "rstuvwxyzABCDEFGH".toList,
  "rstuvwxyzABCDEFGHI".toList,
  "rstuvwxyzABCDEFGHIJ".toList,
  "rstuvwxyzABCDEFGHIJK".toList,
  "rstuvwxyzABCDEFGHIJKL".toList,
  "rstuvwxyzABCDEFGHIJKLM".toList,
  "rstuvwxyzABCDEFGHIJKLMN".toList,
  "rstuvwxyzABCDEFGHIJKLMNO".toList,
  "rstuvwxyzABCDEFGHIJKLMNOP".toList,
  "rstuvwxyzABCDEFGHIJKLMNOPQ".toList,
  "rstuvwxyzABCDEFGHIJKLMNOPQR".toList,
  "rstuvwxyzABCDEFGHIJKLMNOPQRS".toList,
  "rstuvwxyzABCDEFGHIJKLMNOPQRST".toList,
  "rstuvwxyzABCDEFGHIJKLMNOPQRSTU".toList,
  "rstuvwxyzABCDEFGHIJKLMNOPQRSTUV".toList,
  "rstuvwxyzABCDEFGHIJKLMNOPQRSTUVW".toList,
  "rstuvwxyzABCDEFGHIJKLMNOPQRSTUVWX".toList,
  "rstuvwxyzABCDEFGHIJKLMNOPQRSTUVWXY".toList,
  "stu".toList,
  "stuv".toList,
  "stuvw".toList,
  "stuvwx".toList,
  "stuvwxy".toList,
  "stuvwxyz".toList,
  "stuvwxyzA".toList,
  "stuvwxyzAB".toList,
  "stuvwxyzABC".toList,
  "stuvwxyzABCD".toList,
  "stuvwxyzABCDE".toList,
  "stuvwxyzABCDEF".toList,
  "stuvwxyzABCDEFG".toList,
  "stuvwxyzABCDEFGH".toList,
  "stuvwxyzABCDEFGHI".toList,
  "stuvwxyzABCDEFGHIJ".toList,
  "stuvwxyzABCDEFGHIJK".toList,
  "stuvwxyzABCDEFGHIJKL".toList,
  "stuvwxyzABCDEFGHIJKLM".toList,
  "stuvwxyzABCDEFGHIJKLMN".toList,
  "stuvwxyzABCDEFGHIJKLMNO".toList,
  "stuvwxyzABCDEFGHIJKLMNOP".toList,
  "stuvwxyzABCDEFGHIJKLMNOPQ".toList,
  "stuvwxyzABCDEFGHIJKLMNOPQR".toList,
  "stuvwxyzABCDEFGHIJKLMNOPQRS".toList,
  "stuvwxyzABCDEFGHIJKLMNOPQRST".toList,
  "stuvwxyzABCDEFGHIJKLMNOPQRSTU".toList,
  "stuvwxyzABCDEFGHIJKLMNOPQRSTUV".toList,
  "stuvwxyzABCDEFGHIJKLMNOPQRSTUVW".toList,
  "stuvwxyzABCDEFGHIJKLMNOPQRSTUVWX".toList,
  "stuvwxyzABCDEFGHIJKLMNOPQRSTUVWXY".toList,
  "tuv".toList,
  "tuvw".toList,
  "tuvwx".toList,
  "tuvwxy".toList,
  "tuvwxyz".toList,
  "tuvwxyzA".toList,
  "tuvwxyzAB".toList,
  "tuvwxyzABC".toList,
  "tuvwxyzABCD".toList,
  "tuvwxyzABCDE".toList,
  "tuvwxyzABCDEF".toList,
  "tuvwxyzABCDEFG".toList,
  "tuvwxyzABCDEFGH".toList,
  "tuvwxyzABCDEFGHI".toList,
  "tuvwxyzABCDEFGHIJ".toList,
  "tuvwxyzABCDEFGHIJK".toList,
  "tuvwxyzABCDEFGHIJKL".toList,
  "tuvwxyzABCDEFGHIJKLM".toList,
  "tuvwxyzABCDEFGHIJKLMN".toList,
  "tuvwxyzABCDEFGHIJKLMNO".toList,
  "tuvwxyzABCDEFGHIJKLMNOP".toList,
  "tuvwxyzABCDEFGHIJKLMNOPQ".toList,
  "tuvwxyzABCDEFGHIJKLMNOPQR".toList,
  "tuvwxyzABCDEFGHIJKLMNOPQRS".toList,
  "tuvwxyzABCDEFGHIJKLMNOPQRST".toList]

/-- Substrings 880–1099 of `C10line` in scan order (spelled out
so each evaluation step below stays small). -/
def C10chunkF4 : List Str :=
["tuvwxyzABCDEFGHIJKLMNOPQRSTU".toList,
  "tuvwxyzABCDEFGHIJKLMNOPQRSTUV".toList,
  "tuvwxyzABCDEFGHIJKLMNOPQRSTUVW".toList,
  "tuvwxyzABCDEFGHIJKLMNOPQRSTUVWX".toList,
  "tuvwxyzABCDEFGHIJKLMNOPQRSTUVWXY".toList,
  "uvw".toList,
  "uvwx".toList,
  "uvwxy".toList,
  "uvwxyz".toList,
  "uvwxyzA".toList,
  "uvwxyzAB".toList,
  "uvwxyzABC".toList,
  "uvwxyzABCD".toList,
  "uvwxyzABCDE".toList,
  "uvwxyzABCDEF".toList,
  "uvwxyzABCDEFG".toList,
  "uvwxyzABCDEFGH".toList,
  "uvwxyzABCDEFGHI".toList,
  "uvwxyzABCDEFGHIJ".toList,
  "uvwxyzABCDEFGHIJK".toList,
  "uvwxyzABCDEFGHIJKL".toList,
  "uvwxyzABCDEFGHIJKLM".toList,
  "uvwxyzABCDEFGHIJKLMN".toList,
  "uvwxyzABCDEFGHIJKLMNO".toList,
  "uvwxyzABCDEFGHIJKLMNOP".toList,
  "uvwxyzABCDEFGHIJKLMNOPQ".toList,
  "uvwxyzABCDEFGHIJKLMNOPQR".toList,
  "uvwxyzABCDEFGHIJKLMNOPQRS".toList,
  "uvwxyzABCDEFGHIJKLMNOPQRST".toList,
  "uvwxyzABCDEFGHIJKLMNOPQRSTU".toList,
  "uvwxyzABCDEFGHIJKLMNOPQRSTUV".toList,
  "uvwxyzABCDEFGHIJKLMNOPQRSTUVW".toList,
  "uvwxyzABCDEFGHIJKLMNOPQRSTUVWX".toList,
  "uvwxyzABCDEFGHIJKLMNOPQRSTUVWXY".toList,
  "vwx".toList,
  "vwxy".toList,
  "vwxyz".toList,
  "vwxyzA".toList,
  "vwxyzAB".toList,
  "vwxyzABC".toList,
  "vwxyzABCD".toList,
  "vwxyzABCDE".toList,
  "vwxyzABCDEF".toList,
  "vwxyzABCDEFG".toList,
  "vwxyzABCDEFGH".toList,
  "vwxyzABCDEFGHI".toList,
  "vwxyzABCDEFGHIJ".toList,
  "vwxyzABCDEFGHIJK".toList,
  "vwxyzABCDEFGHIJKL".toList,
  "vwxyzABCDEFGHIJKLM".toList,
  "vwxyzABCDEFGHIJKLMN".toList,
  "vwxyzABCDEFGHIJKLMNO".toList,
  "vwxyzABCDEFGHIJKLMNOP".toList,
  "vwxyzABCDEFGHIJKLMNOPQ".toList,
  "vwxyzABCDEFGHIJKLMNOPQR".toList,
  "vwxyzABCDEFGHIJKLMNOPQRS".toList,
  "vwxyzABCDEFGHIJKLMNOPQRST".toList,
  "vwxyzABCDEFGHIJKLMNOPQRSTU".toList,
  "vwxyzABCDEFGHIJKLMNOPQRSTUV".toList,
  "vwxyzABCDEFGHIJKLMNOPQRSTUVW".toList,
  "vwxyzABCDEFGHIJKLMNOPQRSTUVWX".toList,
  "vwxyzABCDEFGHIJKLMNOPQRSTUVWXY".toList,
  "wxy".toList,
  "wxyz".toList,
  "wxyzA".toList,
  "wxyzAB".toList,
  "wxyzABC".toList,
  "wxyzABCD".toList,
  "wxyzABCDE".toList,
  "wxyzABCDEF".toList,
  "wxyzABCDEFG".toList,
  "wxyzABCDEFGH".toList,
  "wxyzABCDEFGHI".toList,
  "wxyzABCDEFGHIJ".toList,
  "wxyzABCDEFGHIJK".toList,
  "wxyzABCDEFGHIJKL".toList,
  "wxyzABCDEFGHIJKLM".toList,
  "wxyzABCDEFGHIJKLMN".toList,
  "wxyzABCDEFGHIJKLMNO".toList,
  "wxyzABCDEFGHIJKLMNOP".toList,
  "wxyzABCDEFGHIJKLMNOPQ".toList,
  "wxyzABCDEFGHIJKLMNOPQR".toList,
  "wxyzABCDEFGHIJKLMNOPQRS".toList,
  "wxyzABCDEFGHIJKLMNOPQRST".toList,
  "wxyzABCDEFGHIJKLMNOPQRSTU".toList,
  "wxyzABCDEFGHIJKLMNOPQRSTUV".toList,
  "wxyzABCDEFGHIJKLMNOPQRSTUVW".toList,
  "wxyzABCDEFGHIJKLMNOPQRSTUVWX".toList,
  "wxyzABCDEFGHIJKLMNOPQRSTUVWXY".toList,
  "xyz".toList,
  "xyzA".toList,
  "xyzAB".toList,
  "xyzABC".toList,
  "xyzABCD".toList,
  "xyzABCDE".toList,
  "xyzABCDEF".toList,
  "xyzABCDEFG".toList,
  "xyzABCDEFGH".toList,
  "xyzABCDEFGHI".toList,
  "xyzABCDEFGHIJ".toList,
  "xyzABCDEFGHIJK".toList,
  "xyzABCDEFGHIJKL".toList,
  "xyzABCDEFGHIJKLM".toList,
  "xyzABCDEFGHIJKLMN".toList,
  "xyzABCDEFGHIJKLMNO".toList,
  "xyzABCDEFGHIJKLMNOP".toList,
  "xyzABCDEFGHIJKLMNOPQ".toList,
  "xyzABCDEFGHIJKLMNOPQR".toList,
  "xyzABCDEFGHIJKLMNOPQRS".toList,
  "xyzABCDEFGHIJKLMNOPQRST".toList,
  "xyzABCDEFGHIJKLMNOPQRSTU".toList,
  "xyzABCDEFGHIJKLMNOPQRSTUV".toList,
  "xyzABCDEFGHIJKLMNOPQRSTUVW".toList,
  "xyzABCDEFGHIJKLMNOPQRSTUVWX".toList,
  "xyzABCDEFGHIJKLMNOPQRSTUVWXY".toList,
  "yzA".toList,
  "yzAB".toList,
  "yzABC".toList,
  "yzABCD".toList,
  "yzABCDE".toList,
  "yzABCDEF".toList,
  "yzABCDEFG".toList,
  "yzABCDEFGH".toList,
  "yzABCDEFGHI".toList,
  "yzABCDEFGHIJ".toList,
  "yzABCDEFGHIJK".toList,
  "yzABCDEFGHIJKL".toList,
  "yzABCDEFGHIJKLM".toList,
  "yzABCDEFGHIJKLMN".toList,
  "yzABCDEFGHIJKLMNO".toList,
  "yzABCDEFGHIJKLMNOP".toList,
  "yzABCDEFGHIJKLMNOPQ".toList,
  "yzABCDEFGHIJKLMNOPQR".toList,
  "yzABCDEFGHIJKLMNOPQRS".toList,
  "yzABCDEFGHIJKLMNOPQRST".toList,
  "yzABCDEFGHIJKLMNOPQRSTU".toList,
  "yzABCDEFGHIJKLMNOPQRSTUV".toList,
  "yzABCDEFGHIJKLMNOPQRSTUVW".toList,
  "yzABCDEFGHIJKLMNOPQRSTUVWX".toList,
  "yzABCDEFGHIJKLMNOPQRSTUVWXY".toList,
  "zAB".toList,
  "zABC".toList,
  "zABCD".toList,
  "zABCDE".toList,
  "zABCDEF".toList,
  "zABCDEFG".toList,
  "zABCDEFGH".toList,
  "zABCDEFGHI".toList,
  "zABCDEFGHIJ".toList,
  "zABCDEFGHIJK".toList,
  "zABCDEFGHIJKL".toList,
  "zABCDEFGHIJKLM".toList,
  "zABCDEFGHIJKLMN".toList,
  "zABCDEFGHIJKLMNO".toList,
  "zABCDEFGHIJKLMNOP".toList,
  "zABCDEFGHIJKLMNOPQ".toList,
  "zABCDEFGHIJKLMNOPQR".toList,
  "zABCDEFGHIJKLMNOPQRS".toList,
  "zABCDEFGHIJKLMNOPQRST".toList,
  "zABCDEFGHIJKLMNOPQRSTU".toList,
  "zABCDEFGHIJKLMNOPQRSTUV".toList,
  "zABCDEFGHIJKLMNOPQRSTUVW".toList,
  "zABCDEFGHIJKLMNOPQRSTUVWX".toList,
  "zABCDEFGHIJKLMNOPQRSTUVWXY".toList,
  "ABC".toList,
  "ABCD".toList,
  "ABCDE".toList,
  "ABCDEF".toList,
  "ABCDEFG".toList,
  "ABCDEFGH".toList,
  "ABCDEFGHI".toList,
  "ABCDEFGHIJ".toList,
  "ABCDEFGHIJK".toList,
  "ABCDEFGHIJKL".toList,
  "ABCDEFGHIJKLM".toList,
  "ABCDEFGHIJKLMN".toList,
  "ABCDEFGHIJKLMNO".toList,
  "ABCDEFGHIJKLMNOP".toList,
  "ABCDEFGHIJKLMNOPQ".toList,
  "ABCDEFGHIJKLMNOPQR".toList,
  "ABCDEFGHIJKLMNOPQRS".toList,
  "ABCDEFGHIJKLMNOPQRST".toList,
  "ABCDEFGHIJKLMNOPQRSTU".toList,
  "ABCDEFGHIJKLMNOPQRSTUV".toList,
  "ABCDEFGHIJKLMNOPQRSTUVW".toList,
  "ABCDEFGHIJKLMNOPQRSTUVWX".toList,
  "ABCDEFGHIJKLMNOPQRSTUVWXY".toList,
  "BCD".toList,
  "BCDE".toList,
  "BCDEF".toList,
  "BCDEFG".toList,
  "BCDEFGH".toList,
  "BCDEFGHI".toList,
  "BCDEFGHIJ".toList,
  "BCDEFGHIJK".toList,
  "BCDEFGHIJKL".toList,
  "BCDEFGHIJKLM".toList,
  "BCDEFGHIJKLMN".toList,
  "BCDEFGHIJKLMNO".toList,
  "BCDEFGHIJKLMNOP".toList,
  "BCDEFGHIJKLMNOPQ".toList,
  "BCDEFGHIJKLMNOPQR".toList,
  "BCDEFGHIJKLMNOPQRS".toList,
  "BCDEFGHIJKLMNOPQRST".toList,
  "BCDEFGHIJKLMNOPQRSTU".toList,
  "BCDEFGHIJKLMNOPQRSTUV".toList,
  "BCDEFGHIJKLMNOPQRSTUVW".toList,
  "BCDEFGHIJKLMNOPQRSTUVWX".toList,
  "BCDEFGHIJKLMNOPQRSTUVWXY".toList,
  "CDE".toList,
  "CDEF".toList,
  "CDEFG".toList,
  "CDEFGH".toList,
  "CDEFGHI".toList,
  "CDEFGHIJ".toList,
  "CDEFGHIJK".toList,
  "CDEFGHIJKL".toList,
  "CDEFGHIJKLM".toList,
  "CDEFGHIJKLMN".toList,
  "CDEFGHIJKLMNO".toList]

/-- Substrings 1100–1319 of `C10line` in scan order (spelled out
so each evaluation step below stays small). -/
def C10chunkF5 : List Str :=
["CDEFGHIJKLMNOP".toList,
  "CDEFGHIJKLMNOPQ".toList,
  "CDEFGHIJKLMNOPQR".toList,
  "CDEFGHIJKLMNOPQRS".toList,
  "CDEFGHIJKLMNOPQRST".toList,
  "CDEFGHIJKLMNOPQRSTU".toList,
  "CDEFGHIJKLMNOPQRSTUV".toList,
  "CDEFGHIJKLMNOPQRSTUVW".toList,
  "CDEFGHIJKLMNOPQRSTUVWX".toList,
  "CDEFGHIJKLMNOPQRSTUVWXY".toList,
  "DEF".toList,
  "DEFG".toList,
  "DEFGH".toList,
  "DEFGHI".toList,
  "DEFGHIJ".toList,
  "DEFGHIJK".toList,
  "DEFGHIJKL".toList,
  "DEFGHIJKLM".toList,
  "DEFGHIJKLMN".toList,
  "DEFGHIJKLMNO".toList,
  "DEFGHIJKLMNOP".toList,
  "DEFGHIJKLMNOPQ".toList,
  "DEFGHIJKLMNOPQR".toList,
  "DEFGHIJKLMNOPQRS".toList,
  "DEFGHIJKLMNOPQRST".toList,
  "DEFGHIJKLMNOPQRSTU".toList,
  "DEFGHIJKLMNOPQRSTUV".toList,
  "DEFGHIJKLMNOPQRSTUVW".toList,
  "DEFGHIJKLMNOPQRSTUVWX".toList,
  "DEFGHIJKLMNOPQRSTUVWXY".toList,
  "EFG".toList,
  "EFGH".toList,
  "EFGHI".toList,
  "EFGHIJ".toList,
  "EFGHIJK".toList,
  "EFGHIJKL".toList,
  "EFGHIJKLM".toList,
  "EFGHIJKLMN".toList,
  "EFGHIJKLMNO".toList,
  "EFGHIJKLMNOP".toList,
  "EFGHIJKLMNOPQ".toList,
  "EFGHIJKLMNOPQR".toList,
  "EFGHIJKLMNOPQRS".toList,
  "EFGHIJKLMNOPQRST".toList,
  "EFGHIJKLMNOPQRSTU".toList,
  "EFGHIJKLMNOPQRSTUV".toList,
  "EFGHIJKLMNOPQRSTUVW".toList,
  "EFGHIJKLMNOPQRSTUVWX".toList,
  "EFGHIJKLMNOPQRSTUVWXY".toList,
  "FGH".toList,
  "FGHI".toList,
  "FGHIJ".toList,
  "FGHIJK".toList,
  "FGHIJKL".toList,
  "FGHIJKLM".toList,
  "FGHIJKLMN".toList,
  "FGHIJKLMNO".toList,
  "FGHIJKLMNOP".toList,
  "FGHIJKLMNOPQ".toList,
  "FGHIJKLMNOPQR".toList,
  "FGHIJKLMNOPQRS".toList,
  "FGHIJKLMNOPQRST".toList,
  "FGHIJKLMNOPQRSTU".toList,
  "FGHIJKLMNOPQRSTUV".toList,
  "FGHIJKLMNOPQRSTUVW".toList,
  "FGHIJKLMNOPQRSTUVWX".toList,
  "FGHIJKLMNOPQRSTUVWXY".toList,
  "GHI".toList,
  "GHIJ".toList,
  "GHIJK".toList,
  "GHIJKL".toList,
  "GHIJKLM".toList,
  "GHIJKLMN".toList,
  "GHIJKLMNO".toList,
  "GHIJKLMNOP".toList,
  "GHIJKLMNOPQ".toList,
  "GHIJKLMNOPQR".toList,
  "GHIJKLMNOPQRS".toList,
  "GHIJKLMNOPQRST".toList,
  "GHIJKLMNOPQRSTU".toList,
  "GHIJKLMNOPQRSTUV".toList,
  "GHIJKLMNOPQRSTUVW".toList,
  "GHIJKLMNOPQRSTUVWX".toList,
  "GHIJKLMNOPQRSTUVWXY".toList,
  "HIJ".toList,
  "HIJK".toList,
  "HIJKL".toList,
  "HIJKLM".toList,
  "HIJKLMN".toList,
  "HIJKLMNO".toList,
  "HIJKLMNOP".toList,
  "HIJKLMNOPQ".toList,
  "HIJKLMNOPQR".toList,
  "HIJKLMNOPQRS".toList,
  "HIJKLMNOPQRST".toList,
  "HIJKLMNOPQRSTU".toList,
  "HIJKLMNOPQRSTUV".toList,
  "HIJKLMNOPQRSTUVW".toList,
  "HIJKLMNOPQRSTUVWX".toList,
  "HIJKLMNOPQRSTUVWXY".toList,
  "IJK".toList,
  "IJKL".toList,
  "IJKLM".toList,
  "IJKLMN".toList,
  "IJKLMNO".toList,
  "IJKLMNOP".toList,
  "IJKLMNOPQ".toList,
  "IJKLMNOPQR".toList,
  "IJKLMNOPQRS".toList,
  "IJKLMNOPQRST".toList,
  "IJKLMNOPQRSTU".toList,
  "IJKLMNOPQRSTUV".toList,
  "IJKLMNOPQRSTUVW".toList,
  "IJKLMNOPQRSTUVWX".toList,
  "IJKLMNOPQRSTUVWXY".toList,
  "JKL".toList,
  "JKLM".toList,
  "JKLMN".toList,
  "JKLMNO".toList,
  "JKLMNOP".toList,
  "JKLMNOPQ".toList,
  "JKLMNOPQR".toList,
  "JKLMNOPQRS".toList,
  "JKLMNOPQRST".toList,
  "JKLMNOPQRSTU".toList,
  "JKLMNOPQRSTUV".toList,
  "JKLMNOPQRSTUVW".toList,
  "JKLMNOPQRSTUVWX".toList,
  "JKLMNOPQRSTUVWXY".toList,
  "KLM".toList,
  "KLMN".toList,
  "KLMNO".toList,
  "KLMNOP".toList,
  "KLMNOPQ".toList,
  "KLMNOPQR".toList,
  "KLMNOPQRS".toList,
  "KLMNOPQRST".toList,
  "KLMNOPQRSTU".toList,
  "KLMNOPQRSTUV".toList,
  "KLMNOPQRSTUVW".toList,
  "KLMNOPQRSTUVWX".toList,
  "KLMNOPQRSTUVWXY".toList,
  "LMN".toList,
  "LMNO".toList,
  "LMNOP".toList,
  "LMNOPQ".toList,
  "LMNOPQR".toList,
  "LMNOPQRS".toList,
  "LMNOPQRST".toList,
  "LMNOPQRSTU".toList,
  "LMNOPQRSTUV".toList,
  "LMNOPQRSTUVW".toList,
  "LMNOPQRSTUVWX".toList,
  "LMNOPQRSTUVWXY".toList,
  "MNO".toList,
  "MNOP".toList,
  "MNOPQ".toList,
  "MNOPQR".toList,
  "MNOPQRS".toList,
  "MNOPQRST".toList,
  "MNOPQRSTU".toList,
  "MNOPQRSTUV".toList,
  "MNOPQRSTUVW".toList,
  "MNOPQRSTUVWX".toList,
  "MNOPQRSTUVWXY".toList,
  "NOP".toList,
  "NOPQ".toList,
  "NOPQR".toList,
  "NOPQRS".toList,
  "NOPQRST".toList,
  "NOPQRSTU".toList,
  "NOPQRSTUV".toList,
  "NOPQRSTUVW".toList,
  "NOPQRSTUVWX".toList,
  "NOPQRSTUVWXY".toList,
  "OPQ".toList,
  "OPQR".toList,
  "OPQRS".toList,
  "OPQRST".toList,
  "OPQRSTU".toList,
  "OPQRSTUV".toList,
  "OPQRSTUVW".toList,
  "OPQRSTUVWX".toList,
  "OPQRSTUVWXY".toList,
  "PQR".toList,
  "PQRS".toList,
  "PQRST".toList,
  "PQRSTU".toList,
  "PQRSTUV".toList,
  "PQRSTUVW".toList,
  "PQRSTUVWX".toList,
  "PQRSTUVWXY".toList,
  "QRS".toList,
  "QRST".toList,
  "QRSTU".toList,
  "QRSTUV".toList,
  "QRSTUVW".toList,
  "QRSTUVWX".toList,
  "QRSTUVWXY".toList,
  "RST".toList,
  "RSTU".toList,
  "RSTUV".toList,
  "RSTUVW".toList,
  "RSTUVWX".toList,
  "RSTUVWXY".toList,
  "STU".toList,
  "STUV".toList,
  "STUVW".toList,
  "STUVWX".toList,
  "STUVWXY".toList,
  "TUV".toList,
  "TUVW".toList,
  "TUVWX".toList,
  "TUVWXY".toList,
  "UVW".toList,
  "UVWX".toList,
  "UVWXY".toList,
  "VWX".toList,
  "VWXY".toList,
  "WXY".toList]

/-- Substrings 0–219 of `C10line` in reversed order (spelled out
so each evaluation step below stays small). -/
def C10chunkR0 : List Str :=
["WXY".toList,
  "VWXY".toList,
  "VWX".toList,
  "UVWXY".toList,
  "UVWX".toList,
  "UVW".toList,
  "TUVWXY".toList,
  "TUVWX".toList,
  "TUVW".toList,
  "TUV".toList,
  "STUVWXY".toList,
  "STUVWX".toList,
  "STUVW".toList,
  "STUV".toList,
  "STU".toList,
  "RSTUVWXY".toList,
  "RSTUVWX".toList,
  "RSTUVW".toList,
  "RSTUV".toList,
  "RSTU".toList,
  "RST".toList,
  "QRSTUVWXY".toList,
  "QRSTUVWX".toList,
  "QRSTUVW".toList,
  "QRSTUV".toList,
  "QRSTU".toList,
  "QRST".toList,
  "QRS".toList,
  "PQRSTUVWXY".toList,
  "PQRSTUVWX".toList,
  "PQRSTUVW".toList,
  "PQRSTUV".toList,
  "PQRSTU".toList,
  "PQRST".toList,
  "PQRS".toList,
  "PQR".toList,
  "OPQRSTUVWXY".toList,
  "OPQRSTUVWX".toList,
  "OPQRSTUVW".toList,
  "OPQRSTUV".toList,
  "OPQRSTU".toList,
  "OPQRST".toList,
  "OPQRS".toList,
  "OPQR".toList,
  "OPQ".toList,
  "NOPQRSTUVWXY".toList,
  "NOPQRSTUVWX".toList,
  "NOPQRSTUVW".toList,
  "NOPQRSTUV".toList,
  "NOPQRSTU".toList,
  "NOPQRST".toList,
  "NOPQRS".toList,
  "NOPQR".toList,
  "NOPQ".toList,
  "NOP".toList,
  "MNOPQRSTUVWXY".toList,
  "MNOPQRSTUVWX".toList,
  "MNOPQRSTUVW".toList,
  "MNOPQRSTUV".toList,
  "MNOPQRSTU".toList,
  "MNOPQRST".toList,
  "MNOPQRS".toList,
  "MNOPQR".toList,
  "MNOPQ".toList,
  "MNOP".toList,
  "MNO".toList,
  "LMNOPQRSTUVWXY".toList,
  "LMNOPQRSTUVWX".toList,
  "LMNOPQRSTUVW".toList,
  "LMNOPQRSTUV".toList,
  "LMNOPQRSTU".toList,
  "LMNOPQRST".toList,
  "LMNOPQRS".toList,
  "LMNOPQR".toList,
  "LMNOPQ".toList,
  "LMNOP".toList,
  "LMNO".toList,
  "LMN".toList,
  "KLMNOPQRSTUVWXY".toList,
  "KLMNOPQRSTUVWX".toList,
  "KLMNOPQRSTUVW".toList,
  "KLMNOPQRSTUV".toList,
  "KLMNOPQRSTU".toList,
  "KLMNOPQRST".toList,
  "KLMNOPQRS".toList,
  "KLMNOPQR".toList,
  "KLMNOPQ".toList,
  "KLMNOP".toList,
  "KLMNO".toList,
  "KLMN".toList,
  "KLM".toList,
  "JKLMNOPQRSTUVWXY".toList,
  "JKLMNOPQRSTUVWX".toList,
  "JKLMNOPQRSTUVW".toList,
  "JKLMNOPQRSTUV".toList,
  "JKLMNOPQRSTU".toList,
  "JKLMNOPQRST".toList,
  "JKLMNOPQRS".toList,
  "JKLMNOPQR".toList,
  "JKLMNOPQ".toList,
  "JKLMNOP".toList,
  "JKLMNO".toList,
  "JKLMN".toList,
  "JKLM".toList,
  "JKL".toList,
  "IJKLMNOPQRSTUVWXY".toList,
  "IJKLMNOPQRSTUVWX".toList,
  "IJKLMNOPQRSTUVW".toList,
  "IJKLMNOPQRSTUV".toList,
  "IJKLMNOPQRSTU".toList,
  "IJKLMNOPQRST".toList,
  "IJKLMNOPQRS".toList,
  "IJKLMNOPQR".toList,
  "IJKLMNOPQ".toList,
  "IJKLMNOP".toList,
  "IJKLMNO".toList,
  "IJKLMN".toList,
  "IJKLM".toList,
  "IJKL".toList,
  "IJK".toList,
  "HIJKLMNOPQRSTUVWXY".toList,
  "HIJKLMNOPQRSTUVWX".toList,
  "HIJKLMNOPQRSTUVW".toList,
  "HIJKLMNOPQRSTUV".toList,
  "HIJKLMNOPQRSTU".toList,
  "HIJKLMNOPQRST".toList,
  "HIJKLMNOPQRS".toList,
  "HIJKLMNOPQR".toList,
  "HIJKLMNOPQ".toList,
  "HIJKLMNOP".toList,
  "HIJKLMNO".toList,
  "HIJKLMN".toList,
  "HIJKLM".toList,
  "HIJKL".toList,
  "HIJK".toList,
  "HIJ".toList,
  "GHIJKLMNOPQRSTUVWXY".toList,
  "GHIJKLMNOPQRSTUVWX".toList,
  "GHIJKLMNOPQRSTUVW".toList,
  "GHIJKLMNOPQRSTUV".toList,
  "GHIJKLMNOPQRSTU".toList,
  "GHIJKLMNOPQRST".toList,
  "GHIJKLMNOPQRS".toList,
  "GHIJKLMNOPQR".toList,
  "GHIJKLMNOPQ".toList,
  "GHIJKLMNOP".toList,
  "GHIJKLMNO".toList,
  "GHIJKLMN".toList,
  "GHIJKLM".toList,
  "GHIJKL".toList,
  "GHIJK".toList,
  "GHIJ".toList,
  "GHI".toList,
  "FGHIJKLMNOPQRSTUVWXY".toList,
  "FGHIJKLMNOPQRSTUVWX".toList,
  "FGHIJKLMNOPQRSTUVW".toList,
  "FGHIJKLMNOPQRSTUV".toList,
  "FGHIJKLMNOPQRSTU".toList,
  "FGHIJKLMNOPQRST".toList,
  "FGHIJKLMNOPQRS".toList,
  "FGHIJKLMNOPQR".toList,
  "FGHIJKLMNOPQ".toList,
  "FGHIJKLMNOP".toList,
  "FGHIJKLMNO".toList,
  "FGHIJKLMN".toList,
  "FGHIJKLM".toList,
  "FGHIJKL".toList,
  "FGHIJK".toList,
  "FGHIJ".toList,
  "FGHI".toList,
  "FGH".toList,
  "EFGHIJKLMNOPQRSTUVWXY".toList,
  "EFGHIJKLMNOPQRSTUVWX".toList,
  "EFGHIJKLMNOPQRSTUVW".toList,
  "EFGHIJKLMNOPQRSTUV".toList,
  "EFGHIJKLMNOPQRSTU".toList,
  "EFGHIJKLMNOPQRST".toList,
  "EFGHIJKLMNOPQRS".toList,
  "EFGHIJKLMNOPQR".toList,
  "EFGHIJKLMNOPQ".toList,
  "EFGHIJKLMNOP".toList,
  "EFGHIJKLMNO".toList,
  "EFGHIJKLMN".toList,
  "EFGHIJKLM".toList,
  "EFGHIJKL".toList,
  "EFGHIJK".toList,
  "EFGHIJ".toList,
  "EFGHI".toList,
  "EFGH".toList,
  "EFG".toList,
  "DEFGHIJKLMNOPQRSTUVWXY".toList,
  "DEFGHIJKLMNOPQRSTUVWX".toList,
  "DEFGHIJKLMNOPQRSTUVW".toList,
  "DEFGHIJKLMNOPQRSTUV".toList,
  "DEFGHIJKLMNOPQRSTU".toList,
  "DEFGHIJKLMNOPQRST".toList,
  "DEFGHIJKLMNOPQRS".toList,
  "DEFGHIJKLMNOPQR".toList,
  "DEFGHIJKLMNOPQ".toList,
  "DEFGHIJKLMNOP".toList,
  "DEFGHIJKLMNO".toList,
  "DEFGHIJKLMN".toList,
  "DEFGHIJKLM".toList,
  "DEFGHIJKL".toList,
  "DEFGHIJK".toList,
  "DEFGHIJ".toList,
  "DEFGHI".toList,
  "DEFGH".toList,
  "DEFG".toList,
  "DEF".toList,
  "CDEFGHIJKLMNOPQRSTUVWXY".toList,
  "CDEFGHIJKLMNOPQRSTUVWX".toList,
  "CDEFGHIJKLMNOPQRSTUVW".toList,
  "CDEFGHIJKLMNOPQRSTUV".toList,
  "CDEFGHIJKLMNOPQRSTU".toList,
  "CDEFGHIJKLMNOPQRST".toList,
  "CDEFGHIJKLMNOPQRS".toList,
  "CDEFGHIJKLMNOPQR".toList,
  "CDEFGHIJKLMNOPQ".toList,
  "CDEFGHIJKLMNOP".toList]

/-- Substrings 220–439 of `C10line` in reversed order (spelled out
so each evaluation step below stays small). -/
def C10chunkR1 : List Str :=
["CDEFGHIJKLMNO".toList,
  "CDEFGHIJKLMN".toList,
  "CDEFGHIJKLM".toList,
  "CDEFGHIJKL".toList,
  "CDEFGHIJK".toList,
  "CDEFGHIJ".toList,
  "CDEFGHI".toList,
  "CDEFGH".toList,
  "CDEFG".toList,
  "CDEF".toList,
  "CDE".toList,
  "BCDEFGHIJKLMNOPQRSTUVWXY".toList,
  "BCDEFGHIJKLMNOPQRSTUVWX".toList,
  "BCDEFGHIJKLMNOPQRSTUVW".toList,
  "BCDEFGHIJKLMNOPQRSTUV".toList,
  "BCDEFGHIJKLMNOPQRSTU".toList,
  "BCDEFGHIJKLMNOPQRST".toList,
  "BCDEFGHIJKLMNOPQRS".toList,
  "BCDEFGHIJKLMNOPQR".toList,
  "BCDEFGHIJKLMNOPQ".toList,
  "BCDEFGHIJKLMNOP".toList,
  "BCDEFGHIJKLMNO".toList,
  "BCDEFGHIJKLMN".toList,
  "BCDEFGHIJKLM".toList,
  "BCDEFGHIJKL".toList,
  "BCDEFGHIJK".toList,
  "BCDEFGHIJ".toList,
  "BCDEFGHI".toList,
  "BCDEFGH".toList,
  "BCDEFG".toList,
  "BCDEF".toList,
  "BCDE".toList,
  "BCD".toList,
  "ABCDEFGHIJKLMNOPQRSTUVWXY".toList,
  "ABCDEFGHIJKLMNOPQRSTUVWX".toList,
  "ABCDEFGHIJKLMNOPQRSTUVW".toList,
  "ABCDEFGHIJKLMNOPQRSTUV".toList,
  "ABCDEFGHIJKLMNOPQRSTU".toList,
  "ABCDEFGHIJKLMNOPQRST".toList,
  "ABCDEFGHIJKLMNOPQRS".toList,
  "ABCDEFGHIJKLMNOPQR".toList,
  "ABCDEFGHIJKLMNOPQ".toList,
  "ABCDEFGHIJKLMNOP".toList,
  "ABCDEFGHIJKLMNO".toList,
  "ABCDEFGHIJKLMN".toList,
  "ABCDEFGHIJKLM".toList,
  "ABCDEFGHIJKL".toList,
  "ABCDEFGHIJK".toList,
  "ABCDEFGHIJ".toList,
  "ABCDEFGHI".toList,
  "ABCDEFGH".toList,
  "ABCDEFG".toList,
  "ABCDEF".toList,
  "ABCDE".toList,
  "ABCD".toList,
  "ABC".toList,
  "zABCDEFGHIJKLMNOPQRSTUVWXY".toList,
  "zABCDEFGHIJKLMNOPQRSTUVWX".toList,
  "zABCDEFGHIJKLMNOPQRSTUVW".toList,
  "zABCDEFGHIJKLMNOPQRSTUV".toList,
  "zABCDEFGHIJKLMNOPQRSTU".toList,
  "zABCDEFGHIJKLMNOPQRST".toList,
  "zABCDEFGHIJKLMNOPQRS".toList,
  "zABCDEFGHIJKLMNOPQR".toList,
  "zABCDEFGHIJKLMNOPQ".toList,
  "zABCDEFGHIJKLMNOP".toList,
  "zABCDEFGHIJKLMNO".toList,
  "zABCDEFGHIJKLMN".toList,
  "zABCDEFGHIJKLM".toList,
  "zABCDEFGHIJKL".toList,
  "zABCDEFGHIJK".toList,
  "zABCDEFGHIJ".toList,
  "zABCDEFGHI".toList,
  "zABCDEFGH".toList,
  "zABCDEFG".toList,
  "zABCDEF".toList,
  "zABCDE".toList,
  "zABCD".toList,
  "zABC".toList,
  "zAB".toList,
  "yzABCDEFGHIJKLMNOPQRSTUVWXY".toList,
  "yzABCDEFGHIJKLMNOPQRSTUVWX".toList,
  "yzABCDEFGHIJKLMNOPQRSTUVW".toList,
  "yzABCDEFGHIJKLMNOPQRSTUV".toList,
  "yzABCDEFGHIJKLMNOPQRSTU".toList,
  "yzABCDEFGHIJKLMNOPQRST".toList,
  "yzABCDEFGHIJKLMNOPQRS".toList,
  "yzABCDEFGHIJKLMNOPQR".toList,
  "yzABCDEFGHIJKLMNOPQ".toList,
  "yzABCDEFGHIJKLMNOP".toList,
  "yzABCDEFGHIJKLMNO".toList,
  "yzABCDEFGHIJKLMN".toList,
  "yzABCDEFGHIJKLM".toList,
  "yzABCDEFGHIJKL".toList,
  "yzABCDEFGHIJK".toList,
  "yzABCDEFGHIJ".toList,
  "yzABCDEFGHI".toList,
  "yzABCDEFGH".toList,
  "yzABCDEFG".toList,
  "yzABCDEF".toList,
  "yzABCDE".toList,
  "yzABCD".toList,
  "yzABC".toList,
  "yzAB".toList,
  "yzA".toList,
  "xyzABCDEFGHIJKLMNOPQRSTUVWXY".toList,
  "xyzABCDEFGHIJKLMNOPQRSTUVWX".toList,
  "xyzABCDEFGHIJKLMNOPQRSTUVW".toList,
  "xyzABCDEFGHIJKLMNOPQRSTUV".toList,
  "xyzABCDEFGHIJKLMNOPQRSTU".toList,
  "xyzABCDEFGHIJKLMNOPQRST".toList,
  "xyzABCDEFGHIJKLMNOPQRS".toList,
  "xyzABCDEFGHIJKLMNOPQR".toList,
  "xyzABCDEFGHIJKLMNOPQ".toList,
  "xyzABCDEFGHIJKLMNOP".toList,
  "xyzABCDEFGHIJKLMNO".toList,
  "xyzABCDEFGHIJKLMN".toList,
  "xyzABCDEFGHIJKLM".toList,
  "xyzABCDEFGHIJKL".toList,
  "xyzABCDEFGHIJK".toList,
  "xyzABCDEFGHIJ".toList,
  "xyzABCDEFGHI".toList,
  "xyzABCDEFGH".toList,
  "xyzABCDEFG".toList,
  "xyzABCDEF".toList,
  "xyzABCDE".toList,
  "xyzABCD".toList,
  "xyzABC".toList,
  "xyzAB".toList,
  "xyzA".toList,
  "xyz".toList,
  "wxyzABCDEFGHIJKLMNOPQRSTUVWXY".toList,
  "wxyzABCDEFGHIJKLMNOPQRSTUVWX".toList,
  "wxyzABCDEFGHIJKLMNOPQRSTUVW".toList,
  "wxyzABCDEFGHIJKLMNOPQRSTUV".toList,
  "wxyzABCDEFGHIJKLMNOPQRSTU".toList,
  "wxyzABCDEFGHIJKLMNOPQRST".toList,
  "wxyzABCDEFGHIJKLMNOPQRS".toList,
  "wxyzABCDEFGHIJKLMNOPQR".toList,
  "wxyzABCDEFGHIJKLMNOPQ".toList,
  "wxyzABCDEFGHIJKLMNOP".toList,
  "wxyzABCDEFGHIJKLMNO".toList,
  "wxyzABCDEFGHIJKLMN".toList,
  "wxyzABCDEFGHIJKLM".toList,
  "wxyzABCDEFGHIJKL".toList,
  "wxyzABCDEFGHIJK".toList,
  "wxyzABCDEFGHIJ".toList,
  "wxyzABCDEFGHI".toList,
  "wxyzABCDEFGH".toList,
  "wxyzABCDEFG".toList,
  "wxyzABCDEF".toList,
  "wxyzABCDE".toList,
  "wxyzABCD".toList,
  "wxyzABC".toList,
  "wxyzAB".toList,
  "wxyzA".toList,
  "wxyz".toList,
  "wxy".toList,
  "vwxyzABCDEFGHIJKLMNOPQRSTUVWXY".toList,
  "vwxyzABCDEFGHIJKLMNOPQRSTUVWX".toList,
  "vwxyzABCDEFGHIJKLMNOPQRSTUVW".toList,
  "vwxyzABCDEFGHIJKLMNOPQRSTUV".toList,
  "vwxyzABCDEFGHIJKLMNOPQRSTU".toList,
  "vwxyzABCDEFGHIJKLMNOPQRST".toList,
  "vwxyzABCDEFGHIJKLMNOPQRS".toList,
  "vwxyzABCDEFGHIJKLMNOPQR".toList,
  "vwxyzABCDEFGHIJKLMNOPQ".toList,
  "vwxyzABCDEFGHIJKLMNOP".toList,
  "vwxyzABCDEFGHIJKLMNO".toList,
  "vwxyzABCDEFGHIJKLMN".toList,
  "vwxyzABCDEFGHIJKLM".toList,
  "vwxyzABCDEFGHIJKL".toList,
  "vwxyzABCDEFGHIJK".toList,
  "vwxyzABCDEFGHIJ".toList,
  "vwxyzABCDEFGHI".toList,
  "vwxyzABCDEFGH".toList,
  "vwxyzABCDEFG".toList,
  "vwxyzABCDEF".toList,
  "vwxyzABCDE".toList,
  "vwxyzABCD".toList,
  "vwxyzABC".toList,
  "vwxyzAB".toList,
  "vwxyzA".toList,
  "vwxyz".toList,
  "vwxy".toList,
  "vwx".toList,
  "uvwxyzABCDEFGHIJKLMNOPQRSTUVWXY".toList,
  "uvwxyzABCDEFGHIJKLMNOPQRSTUVWX".toList,
  "uvwxyzABCDEFGHIJKLMNOPQRSTUVW".toList,
  "uvwxyzABCDEFGHIJKLMNOPQRSTUV".toList,
  "uvwxyzABCDEFGHIJKLMNOPQRSTU".toList,
  "uvwxyzABCDEFGHIJKLMNOPQRST".toList,
  "uvwxyzABCDEFGHIJKLMNOPQRS".toList,
  "uvwxyzABCDEFGHIJKLMNOPQR".toList,
  "uvwxyzABCDEFGHIJKLMNOPQ".toList,
  "uvwxyzABCDEFGHIJKLMNOP".toList,
  "uvwxyzABCDEFGHIJKLMNO".toList,
  "uvwxyzABCDEFGHIJKLMN".toList,
  "uvwxyzABCDEFGHIJKLM".toList,
  "uvwxyzABCDEFGHIJKL".toList,
  "uvwxyzABCDEFGHIJK".toList,
  "uvwxyzABCDEFGHIJ".toList,
  "uvwxyzABCDEFGHI".toList,
  "uvwxyzABCDEFGH".toList,
  "uvwxyzABCDEFG".toList,
  "uvwxyzABCDEF".toList,
  "uvwxyzABCDE".toList,
  "uvwxyzABCD".toList,
  "uvwxyzABC".toList,
  "uvwxyzAB".toList,
  "uvwxyzA".toList,
  "uvwxyz".toList,
  "uvwxy".toList,
  "uvwx".toList,
  "uvw".toList,
  "tuvwxyzABCDEFGHIJKLMNOPQRSTUVWXY".toList,
  "tuvwxyzABCDEFGHIJKLMNOPQRSTUVWX".toList,
  "tuvwxyzABCDEFGHIJKLMNOPQRSTUVW".toList,
  "tuvwxyzABCDEFGHIJKLMNOPQRSTUV".toList,
  "tuvwxyzABCDEFGHIJKLMNOPQRSTU".toList]

/-- Substrings 440–659 of `C10line` in reversed order (spelled out
so each evaluation step below stays small). -/
def C10chunkR2 : List Str :=
["tuvwxyzABCDEFGHIJKLMNOPQRST".toList,
  "tuvwxyzABCDEFGHIJKLMNOPQRS".toList,
  "tuvwxyzABCDEFGHIJKLMNOPQR".toList,
  "tuvwxyzABCDEFGHIJKLMNOPQ".toList,
  "tuvwxyzABCDEFGHIJKLMNOP".toList,
  "tuvwxyzABCDEFGHIJKLMNO".toList,
  "tuvwxyzABCDEFGHIJKLMN".toList,
  "tuvwxyzABCDEFGHIJKLM".toList,
  "tuvwxyzABCDEFGHIJKL".toList,
  "tuvwxyzABCDEFGHIJK".toList,
  "tuvwxyzABCDEFGHIJ".toList,
  "tuvwxyzABCDEFGHI".toList,
  "tuvwxyzABCDEFGH".toList,
  "tuvwxyzABCDEFG".toList,
  "tuvwxyzABCDEF".toList,
  "tuvwxyzABCDE".toList,
  "tuvwxyzABCD".toList,
  "tuvwxyzABC".toList,
  "tuvwxyzAB".toList,
  "tuvwxyzA".toList,
  "tuvwxyz".toList,
  "tuvwxy".toList,
  "tuvwx".toList,
  "tuvw".toList,
  "tuv".toList,
  "stuvwxyzABCDEFGHIJKLMNOPQRSTUVWXY".toList,
  "stuvwxyzABCDEFGHIJKLMNOPQRSTUVWX".toList,
  "stuvwxyzABCDEFGHIJKLMNOPQRSTUVW".toList,
  "stuvwxyzABCDEFGHIJKLMNOPQRSTUV".toList,
  "stuvwxyzABCDEFGHIJKLMNOPQRSTU".toList,
  "stuvwxyzABCDEFGHIJKLMNOPQRST".toList,
  "stuvwxyzABCDEFGHIJKLMNOPQRS".toList,
  "stuvwxyzABCDEFGHIJKLMNOPQR".toList,
  "stuvwxyzABCDEFGHIJKLMNOPQ".toList,
  "stuvwxyzABCDEFGHIJKLMNOP".toList,
  "stuvwxyzABCDEFGHIJKLMNO".toList,
  "stuvwxyzABCDEFGHIJKLMN".toList,
  "stuvwxyzABCDEFGHIJKLM".toList,
  "stuvwxyzABCDEFGHIJKL".toList,
  "stuvwxyzABCDEFGHIJK".toList,
  "stuvwxyzABCDEFGHIJ".toList,
  "stuvwxyzABCDEFGHI".toList,
  "stuvwxyzABCDEFGH".toList,
  "stuvwxyzABCDEFG".toList,
  "stuvwxyzABCDEF".toList,
  "stuvwxyzABCDE".toList,
  "stuvwxyzABCD".toList,
  "stuvwxyzABC".toList,
  "stuvwxyzAB".toList,
  "stuvwxyzA".toList,
  "stuvwxyz".toList,
  "stuvwxy".toList,
  "stuvwx".toList,
  "stuvw".toList,
  "stuv".toList,
  "stu".toList,
  "rstuvwxyzABCDEFGHIJKLMNOPQRSTUVWXY".toList,
  "rstuvwxyzABCDEFGHIJKLMNOPQRSTUVWX".toList,
  "rstuvwxyzABCDEFGHIJKLMNOPQRSTUVW".toList,
  "rstuvwxyzABCDEFGHIJKLMNOPQRSTUV".toList,
  "rstuvwxyzABCDEFGHIJKLMNOPQRSTU".toList,
  "rstuvwxyzABCDEFGHIJKLMNOPQRST".toList,
  "rstuvwxyzABCDEFGHIJKLMNOPQRS".toList,
  "rstuvwxyzABCDEFGHIJKLMNOPQR".toList,
  "rstuvwxyzABCDEFGHIJKLMNOPQ".toList,
  "rstuvwxyzABCDEFGHIJKLMNOP".toList,
  "rstuvwxyzABCDEFGHIJKLMNO".toList,
  "rstuvwxyzABCDEFGHIJKLMN".toList,
  "rstuvwxyzABCDEFGHIJKLM".toList,
  "rstuvwxyzABCDEFGHIJKL".toList,
  "rstuvwxyzABCDEFGHIJK".toList,
  "rstuvwxyzABCDEFGHIJ".toList,
  "rstuvwxyzABCDEFGHI".toList,
  "rstuvwxyzABCDEFGH".toList,
  "rstuvwxyzABCDEFG".toList,
  "rstuvwxyzABCDEF".toList,
  "rstuvwxyzABCDE".toList,
  "rstuvwxyzABCD".toList,
  "rstuvwxyzABC".toList,
  "rstuvwxyzAB".toList,
  "rstuvwxyzA".toList,
  "rstuvwxyz".toList,
  "rstuvwxy".toList,
  "rstuvwx".toList,
  "rstuvw".toList,
  "rstuv".toList,
  "rstu".toList,
  "rst".toList,
  "qrstuvwxyzABCDEFGHIJKLMNOPQRSTUVWXY".toList,
  "qrstuvwxyzABCDEFGHIJKLMNOPQRSTUVWX".toList,
  "qrstuvwxyzABCDEFGHIJKLMNOPQRSTUVW".toList,
  "qrstuvwxyzABCDEFGHIJKLMNOPQRSTUV".toList,
  "qrstuvwxyzABCDEFGHIJKLMNOPQRSTU".toList,
  "qrstuvwxyzABCDEFGHIJKLMNOPQRST".toList,
  "qrstuvwxyzABCDEFGHIJKLMNOPQRS".toList,
  "qrstuvwxyzABCDEFGHIJKLMNOPQR".toList,
  "qrstuvwxyzABCDEFGHIJKLMNOPQ".toList,
  "qrstuvwxyzABCDEFGHIJKLMNOP".toList,
  "qrstuvwxyzABCDEFGHIJKLMNO".toList,
  "qrstuvwxyzABCDEFGHIJKLMN".toList,
  "qrstuvwxyzABCDEFGHIJKLM".toList,
  "qrstuvwxyzABCDEFGHIJKL".toList,
  "qrstuvwxyzABCDEFGHIJK".toList,
  "qrstuvwxyzABCDEFGHIJ".toList,
  "qrstuvwxyzABCDEFGHI".toList,
  "qrstuvwxyzABCDEFGH".toList,
  "qrstuvwxyzABCDEFG".toList,
  "qrstuvwxyzABCDEF".toList,
  "qrstuvwxyzABCDE".toList,
  "qrstuvwxyzABCD".toList,
  "qrstuvwxyzABC".toList,
  "qrstuvwxyzAB".toList,
  "qrstuvwxyzA".toList,
  "qrstuvwxyz".toList,
  "qrstuvwxy".toList,
  "qrstuvwx".toList,
  "qrstuvw".toList,
  "qrstuv".toList,
  "qrstu".toList,
  "qrst".toList,
  "qrs".toList,
  "pqrstuvwxyzABCDEFGHIJKLMNOPQRSTUVWXY".toList,
  "pqrstuvwxyzABCDEFGHIJKLMNOPQRSTUVWX".toList,
  "pqrstuvwxyzABCDEFGHIJKLMNOPQRSTUVW".toList,
  "pqrstuvwxyzABCDEFGHIJKLMNOPQRSTUV".toList,
  "pqrstuvwxyzABCDEFGHIJKLMNOPQRSTU".toList,
  "pqrstuvwxyzABCDEFGHIJKLMNOPQRST".toList,
  "pqrstuvwxyzABCDEFGHIJKLMNOPQRS".toList,
  "pqrstuvwxyzABCDEFGHIJKLMNOPQR".toList,
  "pqrstuvwxyzABCDEFGHIJKLMNOPQ".toList,
  "pqrstuvwxyzABCDEFGHIJKLMNOP".toList,
  "pqrstuvwxyzABCDEFGHIJKLMNO".toList,
  "pqrstuvwxyzABCDEFGHIJKLMN".toList,
  "pqrstuvwxyzABCDEFGHIJKLM".toList,
  "pqrstuvwxyzABCDEFGHIJKL".toList,
  "pqrstuvwxyzABCDEFGHIJK".toList,
  "pqrstuvwxyzABCDEFGHIJ".toList,
  "pqrstuvwxyzABCDEFGHI".toList,
  "pqrstuvwxyzABCDEFGH".toList,
  "pqrstuvwxyzABCDEFG".toList,
  "pqrstuvwxyzABCDEF".toList,
  "pqrstuvwxyzABCDE".toList,
  "pqrstuvwxyzABCD".toList,
  "pqrstuvwxyzABC".toList,
  "pqrstuvwxyzAB".toList,
  "pqrstuvwxyzA".toList,
  "pqrstuvwxyz".toList,
  "pqrstuvwxy".toList,
  "pqrstuvwx".toList,
  "pqrstuvw".toList,
  "pqrstuv".toList,
  "pqrstu".toList,
  "pqrst".toList,
  "pqrs".toList,
  "pqr".toList,
  "opqrstuvwxyzABCDEFGHIJKLMNOPQRSTUVWXY".toList,
  "opqrstuvwxyzABCDEFGHIJKLMNOPQRSTUVWX".toList,
  "opqrstuvwxyzABCDEFGHIJKLMNOPQRSTUVW".toList,
  "opqrstuvwxyzABCDEFGHIJKLMNOPQRSTUV".toList,
  "opqrstuvwxyzABCDEFGHIJKLMNOPQRSTU".toList,
  "opqrstuvwxyzABCDEFGHIJKLMNOPQRST".toList,
  "opqrstuvwxyzABCDEFGHIJKLMNOPQRS".toList,
  "opqrstuvwxyzABCDEFGHIJKLMNOPQR".toList,
  "opqrstuvwxyzABCDEFGHIJKLMNOPQ".toList,
  "opqrstuvwxyzABCDEFGHIJKLMNOP".toList,
  "opqrstuvwxyzABCDEFGHIJKLMNO".toList,
  "opqrstuvwxyzABCDEFGHIJKLMN".toList,
  "opqrstuvwxyzABCDEFGHIJKLM".toList,
  "opqrstuvwxyzABCDEFGHIJKL".toList,
  "opqrstuvwxyzABCDEFGHIJK".toList,
  "opqrstuvwxyzABCDEFGHIJ".toList,
  "opqrstuvwxyzABCDEFGHI".toList,
  "opqrstuvwxyzABCDEFGH".toList,
  "opqrstuvwxyzABCDEFG".toList,
  "opqrstuvwxyzABCDEF".toList,
  "opqrstuvwxyzABCDE".toList,
  "opqrstuvwxyzABCD".toList,
  "opqrstuvwxyzABC".toList,
  "opqrstuvwxyzAB".toList,
  "opqrstuvwxyzA".toList,
  "opqrstuvwxyz".toList,
  "opqrstuvwxy".toList,
  "opqrstuvwx".toList,
  "opqrstuvw".toList,
  "opqrstuv".toList,
  "opqrstu".toList,
  "opqrst".toList,
  "opqrs".toList,
  "opqr".toList,
  "opq".toList,
  "nopqrstuvwxyzABCDEFGHIJKLMNOPQRSTUVWXY".toList,
  "nopqrstuvwxyzABCDEFGHIJKLMNOPQRSTUVWX".toList,
  "nopqrstuvwxyzABCDEFGHIJKLMNOPQRSTUVW".toList,
  "nopqrstuvwxyzABCDEFGHIJKLMNOPQRSTUV".toList,
  "nopqrstuvwxyzABCDEFGHIJKLMNOPQRSTU".toList,
  "nopqrstuvwxyzABCDEFGHIJKLMNOPQRST".toList,
  "nopqrstuvwxyzABCDEFGHIJKLMNOPQRS".toList,
  "nopqrstuvwxyzABCDEFGHIJKLMNOPQR".toList,
  "nopqrstuvwxyzABCDEFGHIJKLMNOPQ".toList,
  "nopqrstuvwxyzABCDEFGHIJKLMNOP".toList,
  "nopqrstuvwxyzABCDEFGHIJKLMNO".toList,
  "nopqrstuvwxyzABCDEFGHIJKLMN".toList,
  "nopqrstuvwxyzABCDEFGHIJKLM".toList,
  "nopqrstuvwxyzABCDEFGHIJKL".toList,
  "nopqrstuvwxyzABCDEFGHIJK".toList,
  "nopqrstuvwxyzABCDEFGHIJ".toList,
  "nopqrstuvwxyzABCDEFGHI".toList,
  "nopqrstuvwxyzABCDEFGH".toList,
  "nopqrstuvwxyzABCDEFG".toList,
  "nopqrstuvwxyzABCDEF".toList,
  "nopqrstuvwxyzABCDE".toList,
  "nopqrstuvwxyzABCD".toList,
  "nopqrstuvwxyzABC".toList,
  "nopqrstuvwxyzAB".toList,
  "nopqrstuvwxyzA".toList,
  "nopqrstuvwxyz".toList,
  "nopqrstuvwxy".toList,
  "nopqrstuvwx".toList,
  "nopqrstuvw".toList,
  "nopqrstuv".toList]

/-- Substrings 660–879 of `C10line` in reversed order (spelled out
so each evaluation step below stays small). -/
def C10chunkR3 : List Str :=
["nopqrstu".toList,
  "nopqrst".toList,
  "nopqrs".toList,
  "nopqr".toList,
  "nopq".toList,
  "nop".toList,
  "mnopqrstuvwxyzABCDEFGHIJKLMNOPQRSTUVWXY".toList,
  "mnopqrstuvwxyzABCDEFGHIJKLMNOPQRSTUVWX".toList,
  "mnopqrstuvwxyzABCDEFGHIJKLMNOPQRSTUVW".toList,
  "mnopqrstuvwxyzABCDEFGHIJKLMNOPQRSTUV".toList,
  "mnopqrstuvwxyzABCDEFGHIJKLMNOPQRSTU".toList,
  "mnopqrstuvwxyzABCDEFGHIJKLMNOPQRST".toList,
  "mnopqrstuvwxyzABCDEFGHIJKLMNOPQRS".toList,
  "mnopqrstuvwxyzABCDEFGHIJKLMNOPQR".toList,
  "mnopqrstuvwxyzABCDEFGHIJKLMNOPQ".toList,
  "mnopqrstuvwxyzABCDEFGHIJKLMNOP".toList,
  "mnopqrstuvwxyzABCDEFGHIJKLMNO".toList,
  "mnopqrstuvwxyzABCDEFGHIJKLMN".toList,
  "mnopqrstuvwxyzABCDEFGHIJKLM".toList,
  "mnopqrstuvwxyzABCDEFGHIJKL".toList,
  "mnopqrstuvwxyzABCDEFGHIJK".toList,
  "mnopqrstuvwxyzABCDEFGHIJ".toList,
  "mnopqrstuvwxyzABCDEFGHI".toList,
  "mnopqrstuvwxyzABCDEFGH".toList,
  "mnopqrstuvwxyzABCDEFG".toList,
  "mnopqrstuvwxyzABCDEF".toList,
  "mnopqrstuvwxyzABCDE".toList,
  "mnopqrstuvwxyzABCD".toList,
  "mnopqrstuvwxyzABC".toList,
  "mnopqrstuvwxyzAB".toList,
  "mnopqrstuvwxyzA".toList,
  "mnopqrstuvwxyz".toList,
  "mnopqrstuvwxy".toList,
  "mnopqrstuvwx".toList,
  "mnopqrstuvw".toList,
  "mnopqrstuv".toList,
  "mnopqrstu".toList,
  "mnopqrst".toList,
  "mnopqrs".toList,
  "mnopqr".toList,
  "mnopq".toList,
  "mnop".toList,
  "mno".toList,
  "lmnopqrstuvwxyzABCDEFGHIJKLMNOPQRSTUVWXY".toList,
  "lmnopqrstuvwxyzABCDEFGHIJKLMNOPQRSTUVWX".toList,
  "lmnopqrstuvwxyzABCDEFGHIJKLMNOPQRSTUVW".toList,
  "lmnopqrstuvwxyzABCDEFGHIJKLMNOPQRSTUV".toList,
  "lmnopqrstuvwxyzABCDEFGHIJKLMNOPQRSTU".toList,
  "lmnopqrstuvwxyzABCDEFGHIJKLMNOPQRST".toList,
  "lmnopqrstuvwxyzABCDEFGHIJKLMNOPQRS".toList,
  "lmnopqrstuvwxyzABCDEFGHIJKLMNOPQR".toList,
  "lmnopqrstuvwxyzABCDEFGHIJKLMNOPQ".toList,
  "lmnopqrstuvwxyzABCDEFGHIJKLMNOP".toList,
  "lmnopqrstuvwxyzABCDEFGHIJKLMNO".toList,
  "lmnopqrstuvwxyzABCDEFGHIJKLMN".toList,
  "lmnopqrstuvwxyzABCDEFGHIJKLM".toList,
  "lmnopqrstuvwxyzABCDEFGHIJKL".toList,
  "lmnopqrstuvwxyzABCDEFGHIJK".toList,
  "lmnopqrstuvwxyzABCDEFGHIJ".toList,
  "lmnopqrstuvwxyzABCDEFGHI".toList,
  "lmnopqrstuvwxyzABCDEFGH".toList,
  "lmnopqrstuvwxyzABCDEFG".toList,
  "lmnopqrstuvwxyzABCDEF".toList,
  "lmnopqrstuvwxyzABCDE".toList,
  "lmnopqrstuvwxyzABCD".toList,
  "lmnopqrstuvwxyzABC".toList,
  "lmnopqrstuvwxyzAB".toList,
  "lmnopqrstuvwxyzA".toList,
  "lmnopqrstuvwxyz".toList,
  "lmnopqrstuvwxy".toList,
  "lmnopqrstuvwx".toList,
  "lmnopqrstuvw".toList,
  "lmnopqrstuv".toList,
  "lmnopqrstu".toList,
  "lmnopqrst".toList,
  "lmnopqrs".toList,
  "lmnopqr".toList,
  "lmnopq".toList,
  "lmnop".toList,
  "lmno".toList,
  "lmn".toList,
  "klmnopqrstuvwxyzABCDEFGHIJKLMNOPQRSTUVWXY".toList,
  "klmnopqrstuvwxyzABCDEFGHIJKLMNOPQRSTUVWX".toList,
  "klmnopqrstuvwxyzABCDEFGHIJKLMNOPQRSTUVW".toList,
  "klmnopqrstuvwxyzABCDEFGHIJKLMNOPQRSTUV".toList,
  "klmnopqrstuvwxyzABCDEFGHIJKLMNOPQRSTU".toList,
  "klmnopqrstuvwxyzABCDEFGHIJKLMNOPQRST".toList,
  "klmnopqrstuvwxyzABCDEFGHIJKLMNOPQRS".toList,
  "klmnopqrstuvwxyzABCDEFGHIJKLMNOPQR".toList,
  "klmnopqrstuvwxyzABCDEFGHIJKLMNOPQ".toList,
  "klmnopqrstuvwxyzABCDEFGHIJKLMNOP".toList,
  "klmnopqrstuvwxyzABCDEFGHIJKLMNO".toList,
  "klmnopqrstuvwxyzABCDEFGHIJKLMN".toList,
  "klmnopqrstuvwxyzABCDEFGHIJKLM".toList,
  "klmnopqrstuvwxyzABCDEFGHIJKL".toList,
  "klmnopqrstuvwxyzABCDEFGHIJK".toList,
  "klmnopqrstuvwxyzABCDEFGHIJ".toList,
  "klmnopqrstuvwxyzABCDEFGHI".toList,
  "klmnopqrstuvwxyzABCDEFGH".toList,
  "klmnopqrstuvwxyzABCDEFG".toList,
  "klmnopqrstuvwxyzABCDEF".toList,
  "klmnopqrstuvwxyzABCDE".toList,
  "klmnopqrstuvwxyzABCD".toList,
  "klmnopqrstuvwxyzABC".toList,
  "klmnopqrstuvwxyzAB".toList,
  "klmnopqrstuvwxyzA".toList,
  "klmnopqrstuvwxyz".toList,
  "klmnopqrstuvwxy".toList,
  "klmnopqrstuvwx".toList,
  "klmnopqrstuvw".toList,
  "klmnopqrstuv".toList,
  "klmnopqrstu".toList,
  "klmnopqrst".toList,
  "klmnopqrs".toList,
  "klmnopqr".toList,
  "klmnopq".toList,
  "klmnop".toList,
  "klmno".toList,
  "klmn".toList,
  "klm".toList,
  "jklmnopqrstuvwxyzABCDEFGHIJKLMNOPQRSTUVWXY".toList,
  "jklmnopqrstuvwxyzABCDEFGHIJKLMNOPQRSTUVWX".toList,
  "jklmnopqrstuvwxyzABCDEFGHIJKLMNOPQRSTUVW".toList,
  "jklmnopqrstuvwxyzABCDEFGHIJKLMNOPQRSTUV".toList,
  "jklmnopqrstuvwxyzABCDEFGHIJKLMNOPQRSTU".toList,
  "jklmnopqrstuvwxyzABCDEFGHIJKLMNOPQRST".toList,
  "jklmnopqrstuvwxyzABCDEFGHIJKLMNOPQRS".toList,
  "jklmnopqrstuvwxyzABCDEFGHIJKLMNOPQR".toList,
  "jklmnopqrstuvwxyzABCDEFGHIJKLMNOPQ".toList,
  "jklmnopqrstuvwxyzABCDEFGHIJKLMNOP".toList,
  "jklmnopqrstuvwxyzABCDEFGHIJKLMNO".toList,
  "jklmnopqrstuvwxyzABCDEFGHIJKLMN".toList,
  "jklmnopqrstuvwxyzABCDEFGHIJKLM".toList,
  "jklmnopqrstuvwxyzABCDEFGHIJKL".toList,
  "jklmnopqrstuvwxyzABCDEFGHIJK".toList,
  "jklmnopqrstuvwxyzABCDEFGHIJ".toList,
  "jklmnopqrstuvwxyzABCDEFGHI".toList,
  "jklmnopqrstuvwxyzABCDEFGH".toList,
  "jklmnopqrstuvwxyzABCDEFG".toList,
  "jklmnopqrstuvwxyzABCDEF".toList,
  "jklmnopqrstuvwxyzABCDE".toList,
  "jklmnopqrstuvwxyzABCD".toList,
  "jklmnopqrstuvwxyzABC".toList,
  "jklmnopqrstuvwxyzAB".toList,
  "jklmnopqrstuvwxyzA".toList,
  "jklmnopqrstuvwxyz".toList,
  "jklmnopqrstuvwxy".toList,
  "jklmnopqrstuvwx".toList,
  "jklmnopqrstuvw".toList,
  "jklmnopqrstuv".toList,
  "jklmnopqrstu".toList,
  "jklmnopqrst".toList,
  "jklmnopqrs".toList,
  "jklmnopqr".toList,
  "jklmnopq".toList,
  "jklmnop".toList,
  "jklmno".toList,
  "jklmn".toList,
  "jklm".toList,
  "jkl".toList,
  "ijklmnopqrstuvwxyzABCDEFGHIJKLMNOPQRSTUVWXY".toList,
  "ijklmnopqrstuvwxyzABCDEFGHIJKLMNOPQRSTUVWX".toList,
  "ijklmnopqrstuvwxyzABCDEFGHIJKLMNOPQRSTUVW".toList,
  "ijklmnopqrstuvwxyzABCDEFGHIJKLMNOPQRSTUV".toList,
  "ijklmnopqrstuvwxyzABCDEFGHIJKLMNOPQRSTU".toList,
  "ijklmnopqrstuvwxyzABCDEFGHIJKLMNOPQRST".toList,
  "ijklmnopqrstuvwxyzABCDEFGHIJKLMNOPQRS".toList,
  "ijklmnopqrstuvwxyzABCDEFGHIJKLMNOPQR".toList,
  "ijklmnopqrstuvwxyzABCDEFGHIJKLMNOPQ".toList,
  "ijklmnopqrstuvwxyzABCDEFGHIJKLMNOP".toList,
  "ijklmnopqrstuvwxyzABCDEFGHIJKLMNO".toList,
  "ijklmnopqrstuvwxyzABCDEFGHIJKLMN".toList,
  "ijklmnopqrstuvwxyzABCDEFGHIJKLM".toList,
  "ijklmnopqrstuvwxyzABCDEFGHIJKL".toList,
  "ijklmnopqrstuvwxyzABCDEFGHIJK".toList,
  "ijklmnopqrstuvwxyzABCDEFGHIJ".toList,
  "ijklmnopqrstuvwxyzABCDEFGHI".toList,
  "ijklmnopqrstuvwxyzABCDEFGH".toList,
  "ijklmnopqrstuvwxyzABCDEFG".toList,
  "ijklmnopqrstuvwxyzABCDEF".toList,
  "ijklmnopqrstuvwxyzABCDE".toList,
  "ijklmnopqrstuvwxyzABCD".toList,
  "ijklmnopqrstuvwxyzABC".toList,
  "ijklmnopqrstuvwxyzAB".toList,
  "ijklmnopqrstuvwxyzA".toList,
  "ijklmnopqrstuvwxyz".toList,
  "ijklmnopqrstuvwxy".toList,
  "ijklmnopqrstuvwx".toList,
  "ijklmnopqrstuvw".toList,
  "ijklmnopqrstuv".toList,
  "ijklmnopqrstu".toList,
  "ijklmnopqrst".toList,
  "ijklmnopqrs".toList,
  "ijklmnopqr".toList,
  "ijklmnopq".toList,
  "ijklmnop".toList,
  "ijklmno".toList,
  "ijklmn".toList,
  "ijklm".toList,
  "ijkl".toList,
  "ijk".toList,
  "hijklmnopqrstuvwxyzABCDEFGHIJKLMNOPQRSTUVWXY".toList,
  "hijklmnopqrstuvwxyzABCDEFGHIJKLMNOPQRSTUVWX".toList,
  "hijklmnopqrstuvwxyzABCDEFGHIJKLMNOPQRSTUVW".toList,
  "hijklmnopqrstuvwxyzABCDEFGHIJKLMNOPQRSTUV".toList,
  "hijklmnopqrstuvwxyzABCDEFGHIJKLMNOPQRSTU".toList,
  "hijklmnopqrstuvwxyzABCDEFGHIJKLMNOPQRST".toList,
  "hijklmnopqrstuvwxyzABCDEFGHIJKLMNOPQRS".toList,
  "hijklmnopqrstuvwxyzABCDEFGHIJKLMNOPQR".toList,
  "hijklmnopqrstuvwxyzABCDEFGHIJKLMNOPQ".toList,
  "hijklmnopqrstuvwxyzABCDEFGHIJKLMNOP".toList,
  "hijklmnopqrstuvwxyzABCDEFGHIJKLMNO".toList,
  "hijklmnopqrstuvwxyzABCDEFGHIJKLMN".toList,
  "hijklmnopqrstuvwxyzABCDEFGHIJKLM".toList,
  "hijklmnopqrstuvwxyzABCDEFGHIJKL".toList,
  "hijklmnopqrstuvwxyzABCDEFGHIJK".toList,
  "hijklmnopqrstuvwxyzABCDEFGHIJ".toList,
  "hijklmnopqrstuvwxyzABCDEFGHI".toList,
  "hijklmnopqrstuvwxyzABCDEFGH".toList,
  "hijklmnopqrstuvwxyzABCDEFG".toList]

/-- Substrings 880–1099 of `C10line` in reversed order (spelled out
so each evaluation step below stays small). -/
def C10chunkR4 : List Str :=
["hijklmnopqrstuvwxyzABCDEF".toList,
  "hijklmnopqrstuvwxyzABCDE".toList,
  "hijklmnopqrstuvwxyzABCD".toList,
  "hijklmnopqrstuvwxyzABC".toList,
  "hijklmnopqrstuvwxyzAB".toList,
  "hijklmnopqrstuvwxyzA".toList,
  "hijklmnopqrstuvwxyz".toList,
  "hijklmnopqrstuvwxy".toList,
  "hijklmnopqrstuvwx".toList,
  "hijklmnopqrstuvw".toList,
  "hijklmnopqrstuv".toList,
  "hijklmnopqrstu".toList,
  "hijklmnopqrst".toList,
  "hijklmnopqrs".toList,
  "hijklmnopqr".toList,
  "hijklmnopq".toList,
  "hijklmnop".toList,
  "hijklmno".toList,
  "hijklmn".toList,
  "hijklm".toList,
  "hijkl".toList,
  "hijk".toList,
  "hij".toList,
  "ghijklmnopqrstuvwxyzABCDEFGHIJKLMNOPQRSTUVWXY".toList,
  "ghijklmnopqrstuvwxyzABCDEFGHIJKLMNOPQRSTUVWX".toList,
  "ghijklmnopqrstuvwxyzABCDEFGHIJKLMNOPQRSTUVW".toList,
  "ghijklmnopqrstuvwxyzABCDEFGHIJKLMNOPQRSTUV".toList,
  "ghijklmnopqrstuvwxyzABCDEFGHIJKLMNOPQRSTU".toList,
  "ghijklmnopqrstuvwxyzABCDEFGHIJKLMNOPQRST".toList,
  "ghijklmnopqrstuvwxyzABCDEFGHIJKLMNOPQRS".toList,
  "ghijklmnopqrstuvwxyzABCDEFGHIJKLMNOPQR".toList,
  "ghijklmnopqrstuvwxyzABCDEFGHIJKLMNOPQ".toList,
  "ghijklmnopqrstuvwxyzABCDEFGHIJKLMNOP".toList,
  "ghijklmnopqrstuvwxyzABCDEFGHIJKLMNO".toList,
  "ghijklmnopqrstuvwxyzABCDEFGHIJKLMN".toList,
  "ghijklmnopqrstuvwxyzABCDEFGHIJKLM".toList,
  "ghijklmnopqrstuvwxyzABCDEFGHIJKL".toList,
  "ghijklmnopqrstuvwxyzABCDEFGHIJK".toList,
  "ghijklmnopqrstuvwxyzABCDEFGHIJ".toList,
  "ghijklmnopqrstuvwxyzABCDEFGHI".toList,
  "ghijklmnopqrstuvwxyzABCDEFGH".toList,
  "ghijklmnopqrstuvwxyzABCDEFG".toList,
  "ghijklmnopqrstuvwxyzABCDEF".toList,
  "ghijklmnopqrstuvwxyzABCDE".toList,
  "ghijklmnopqrstuvwxyzABCD".toList,
  "ghijklmnopqrstuvwxyzABC".toList,
  "ghijklmnopqrstuvwxyzAB".toList,
  "ghijklmnopqrstuvwxyzA".toList,
  "ghijklmnopqrstuvwxyz".toList,
  "ghijklmnopqrstuvwxy".toList,
  "ghijklmnopqrstuvwx".toList,
  "ghijklmnopqrstuvw".toList,
  "ghijklmnopqrstuv".toList,
  "ghijklmnopqrstu".toList,
  "ghijklmnopqrst".toList,
  "ghijklmnopqrs".toList,
  "ghijklmnopqr".toList,
  "ghijklmnopq".toList,
  "ghijklmnop".toList,
  "ghijklmno".toList,
  "ghijklmn".toList,
  "ghijklm".toList,
  "ghijkl".toList,
  "ghijk".toList,
  "ghij".toList,
  "ghi".toList,
  "fghijklmnopqrstuvwxyzABCDEFGHIJKLMNOPQRSTUVWXY".toList,
  "fghijklmnopqrstuvwxyzABCDEFGHIJKLMNOPQRSTUVWX".toList,
  "fghijklmnopqrstuvwxyzABCDEFGHIJKLMNOPQRSTUVW".toList,
  "fghijklmnopqrstuvwxyzABCDEFGHIJKLMNOPQRSTUV".toList,
  "fghijklmnopqrstuvwxyzABCDEFGHIJKLMNOPQRSTU".toList,
  "fghijklmnopqrstuvwxyzABCDEFGHIJKLMNOPQRST".toList,
  "fghijklmnopqrstuvwxyzABCDEFGHIJKLMNOPQRS".toList,
  "fghijklmnopqrstuvwxyzABCDEFGHIJKLMNOPQR".toList,
  "fghijklmnopqrstuvwxyzABCDEFGHIJKLMNOPQ".toList,
  "fghijklmnopqrstuvwxyzABCDEFGHIJKLMNOP".toList,
  "fghijklmnopqrstuvwxyzABCDEFGHIJKLMNO".toList,
  "fghijklmnopqrstuvwxyzABCDEFGHIJKLMN".toList,
  "fghijklmnopqrstuvwxyzABCDEFGHIJKLM".toList,
  "fghijklmnopqrstuvwxyzABCDEFGHIJKL".toList,
  "fghijklmnopqrstuvwxyzABCDEFGHIJK".toList,
  "fghijklmnopqrstuvwxyzABCDEFGHIJ".toList,
  "fghijklmnopqrstuvwxyzABCDEFGHI".toList,
  "fghijklmnopqrstuvwxyzABCDEFGH".toList,
  "fghijklmnopqrstuvwxyzABCDEFG".toList,
  "fghijklmnopqrstuvwxyzABCDEF".toList,
  "fghijklmnopqrstuvwxyzABCDE".toList,
  "fghijklmnopqrstuvwxyzABCD".toList,
  "fghijklmnopqrstuvwxyzABC".toList,
  "fghijklmnopqrstuvwxyzAB".toList,
  "fghijklmnopqrstuvwxyzA".toList,
  "fghijklmnopqrstuvwxyz".toList,
  "fghijklmnopqrstuvwxy".toList,
  "fghijklmnopqrstuvwx".toList,
  "fghijklmnopqrstuvw".toList,
  "fghijklmnopqrstuv".toList,
  "fghijklmnopqrstu".toList,
  "fghijklmnopqrst".toList,
  "fghijklmnopqrs".toList,
  "fghijklmnopqr".toList,
  "fghijklmnopq".toList,
  "fghijklmnop".toList,
  "fghijklmno".toList,
  "fghijklmn".toList,
  "fghijklm".toList,
  "fghijkl".toList,
  "fghijk".toList,
  "fghij".toList,
  "fghi".toList,
  "fgh".toList,
  "efghijklmnopqrstuvwxyzABCDEFGHIJKLMNOPQRSTUVWXY".toList,
  "efghijklmnopqrstuvwxyzABCDEFGHIJKLMNOPQRSTUVWX".toList,
  "efghijklmnopqrstuvwxyzABCDEFGHIJKLMNOPQRSTUVW".toList,
  "efghijklmnopqrstuvwxyzABCDEFGHIJKLMNOPQRSTUV".toList,
  "efghijklmnopqrstuvwxyzABCDEFGHIJKLMNOPQRSTU".toList,
  "efghijklmnopqrstuvwxyzABCDEFGHIJKLMNOPQRST".toList,
  "efghijklmnopqrstuvwxyzABCDEFGHIJKLMNOPQRS".toList,
  "efghijklmnopqrstuvwxyzABCDEFGHIJKLMNOPQR".toList,
  "efghijklmnopqrstuvwxyzABCDEFGHIJKLMNOPQ".toList,
  "efghijklmnopqrstuvwxyzABCDEFGHIJKLMNOP".toList,
  "efghijklmnopqrstuvwxyzABCDEFGHIJKLMNO".toList,
  "efghijklmnopqrstuvwxyzABCDEFGHIJKLMN".toList,
  "efghijklmnopqrstuvwxyzABCDEFGHIJKLM".toList,
  "efghijklmnopqrstuvwxyzABCDEFGHIJKL".toList,
  "efghijklmnopqrstuvwxyzABCDEFGHIJK".toList,
  "efghijklmnopqrstuvwxyzABCDEFGHIJ".toList,
  "efghijklmnopqrstuvwxyzABCDEFGHI".toList,
  "efghijklmnopqrstuvwxyzABCDEFGH".toList,
  "efghijklmnopqrstuvwxyzABCDEFG".toList,
  "efghijklmnopqrstuvwxyzABCDEF".toList,
  "efghijklmnopqrstuvwxyzABCDE".toList,
  "efghijklmnopqrstuvwxyzABCD".toList,
  "efghijklmnopqrstuvwxyzABC".toList,
  "efghijklmnopqrstuvwxyzAB".toList,
  "efghijklmnopqrstuvwxyzA".toList,
  "efghijklmnopqrstuvwxyz".toList,
  "efghijklmnopqrstuvwxy".toList,
  "efghijklmnopqrstuvwx".toList,
  "efghijklmnopqrstuvw".toList,
  "efghijklmnopqrstuv".toList,
  "efghijklmnopqrstu".toList,
  "efghijklmnopqrst".toList,
  "efghijklmnopqrs".toList,
  "efghijklmnopqr".toList,
  "efghijklmnopq".toList,
  "efghijklmnop".toList,
  "efghijklmno".toList,
  "efghijklmn".toList,
  "efghijklm".toList,
  "efghijkl".toList,
  "efghijk".toList,
  "efghij".toList,
  "efghi".toList,
  "efgh".toList,
  "efg".toList,
  "defghijklmnopqrstuvwxyzABCDEFGHIJKLMNOPQRSTUVWXY".toList,
  "defghijklmnopqrstuvwxyzABCDEFGHIJKLMNOPQRSTUVWX".toList,
  "defghijklmnopqrstuvwxyzABCDEFGHIJKLMNOPQRSTUVW".toList,
  "defghijklmnopqrstuvwxyzABCDEFGHIJKLMNOPQRSTUV".toList,
  "defghijklmnopqrstuvwxyzABCDEFGHIJKLMNOPQRSTU".toList,
  "defghijklmnopqrstuvwxyzABCDEFGHIJKLMNOPQRST".toList,
  "defghijklmnopqrstuvwxyzABCDEFGHIJKLMNOPQRS".toList,
  "defghijklmnopqrstuvwxyzABCDEFGHIJKLMNOPQR".toList,
  "defghijklmnopqrstuvwxyzABCDEFGHIJKLMNOPQ".toList,
  "defghijklmnopqrstuvwxyzABCDEFGHIJKLMNOP".toList,
  "defghijklmnopqrstuvwxyzABCDEFGHIJKLMNO".toList,
  "defghijklmnopqrstuvwxyzABCDEFGHIJKLMN".toList,
  "defghijklmnopqrstuvwxyzABCDEFGHIJKLM".toList,
  "defghijklmnopqrstuvwxyzABCDEFGHIJKL".toList,
  "defghijklmnopqrstuvwxyzABCDEFGHIJK".toList,
  "defghijklmnopqrstuvwxyzABCDEFGHIJ".toList,
  "defghijklmnopqrstuvwxyzABCDEFGHI".toList,
  "defghijklmnopqrstuvwxyzABCDEFGH".toList,
  "defghijklmnopqrstuvwxyzABCDEFG".toList,
  "defghijklmnopqrstuvwxyzABCDEF".toList,
  "defghijklmnopqrstuvwxyzABCDE".toList,
  "defghijklmnopqrstuvwxyzABCD".toList,
  "defghijklmnopqrstuvwxyzABC".toList,
  "defghijklmnopqrstuvwxyzAB".toList,
  "defghijklmnopqrstuvwxyzA".toList,
  "defghijklmnopqrstuvwxyz".toList,
  "defghijklmnopqrstuvwxy".toList,
  "defghijklmnopqrstuvwx".toList,
  "defghijklmnopqrstuvw".toList,
  "defghijklmnopqrstuv".toList,
  "defghijklmnopqrstu".toList,
  "defghijklmnopqrst".toList,
  "defghijklmnopqrs".toList,
  "defghijklmnopqr".toList,
  "defghijklmnopq".toList,
  "defghijklmnop".toList,
  "defghijklmno".toList,
  "defghijklmn".toList,
  "defghijklm".toList,
  "defghijkl".toList,
  "defghijk".toList,
  "defghij".toList,
  "defghi".toList,
  "defgh".toList,
  "defg".toList,
  "def".toList,
  "bdefghijklmnopqrstuvwxyzABCDEFGHIJKLMNOPQRSTUVWXY".toList,
  "bdefghijklmnopqrstuvwxyzABCDEFGHIJKLMNOPQRSTUVWX".toList,
  "bdefghijklmnopqrstuvwxyzABCDEFGHIJKLMNOPQRSTUVW".toList,
  "bdefghijklmnopqrstuvwxyzABCDEFGHIJKLMNOPQRSTUV".toList,
  "bdefghijklmnopqrstuvwxyzABCDEFGHIJKLMNOPQRSTU".toList,
  "bdefghijklmnopqrstuvwxyzABCDEFGHIJKLMNOPQRST".toList,
  "bdefghijklmnopqrstuvwxyzABCDEFGHIJKLMNOPQRS".toList,
  "bdefghijklmnopqrstuvwxyzABCDEFGHIJKLMNOPQR".toList,
  "bdefghijklmnopqrstuvwxyzABCDEFGHIJKLMNOPQ".toList,
  "bdefghijklmnopqrstuvwxyzABCDEFGHIJKLMNOP".toList,
  "bdefghijklmnopqrstuvwxyzABCDEFGHIJKLMNO".toList,
  "bdefghijklmnopqrstuvwxyzABCDEFGHIJKLMN".toList,
  "bdefghijklmnopqrstuvwxyzABCDEFGHIJKLM".toList,
  "bdefghijklmnopqrstuvwxyzABCDEFGHIJKL".toList,
  "bdefghijklmnopqrstuvwxyzABCDEFGHIJK".toList,
  "bdefghijklmnopqrstuvwxyzABCDEFGHIJ".toList,
  "bdefghijklmnopqrstuvwxyzABCDEFGHI".toList,
  "bdefghijklmnopqrstuvwxyzABCDEFGH".toList,
  "bdefghijklmnopqrstuvwxyzABCDEFG".toList]

/-- Substrings 1100–1319 of `C10line` in reversed order (spelled out
so each evaluation step below stays small). -/
def C10chunkR5 : List Str :=
["bdefghijklmnopqrstuvwxyzABCDEF".toList,
  "bdefghijklmnopqrstuvwxyzABCDE".toList,
  "bdefghijklmnopqrstuvwxyzABCD".toList,
  "bdefghijklmnopqrstuvwxyzABC".toList,
  "bdefghijklmnopqrstuvwxyzAB".toList,
  "bdefghijklmnopqrstuvwxyzA".toList,
  "bdefghijklmnopqrstuvwxyz".toList,
  "bdefghijklmnopqrstuvwxy".toList,
  "bdefghijklmnopqrstuvwx".toList,
  "bdefghijklmnopqrstuvw".toList,
  "bdefghijklmnopqrstuv".toList,
  "bdefghijklmnopqrstu".toList,
  "bdefghijklmnopqrst".toList,
  "bdefghijklmnopqrs".toList,
  "bdefghijklmnopqr".toList,
  "bdefghijklmnopq".toList,
  "bdefghijklmnop".toList,
  "bdefghijklmno".toList,
  "bdefghijklmn".toList,
  "bdefghijklm".toList,
  "bdefghijkl".toList,
  "bdefghijk".toList,
  "bdefghij".toList,
  "bdefghi".toList,
  "bdefgh".toList,
  "bdefg".toList,
  "bdef".toList,
  "bde".toList,
  "abdefghijklmnopqrstuvwxyzABCDEFGHIJKLMNOPQRSTUVWXY".toList,
  "abdefghijklmnopqrstuvwxyzABCDEFGHIJKLMNOPQRSTUVWX".toList,
  "abdefghijklmnopqrstuvwxyzABCDEFGHIJKLMNOPQRSTUVW".toList,
  "abdefghijklmnopqrstuvwxyzABCDEFGHIJKLMNOPQRSTUV".toList,
  "abdefghijklmnopqrstuvwxyzABCDEFGHIJKLMNOPQRSTU".toList,
  "abdefghijklmnopqrstuvwxyzABCDEFGHIJKLMNOPQRST".toList,
  "abdefghijklmnopqrstuvwxyzABCDEFGHIJKLMNOPQRS".toList,
  "abdefghijklmnopqrstuvwxyzABCDEFGHIJKLMNOPQR".toList,
  "abdefghijklmnopqrstuvwxyzABCDEFGHIJKLMNOPQ".toList,
  "abdefghijklmnopqrstuvwxyzABCDEFGHIJKLMNOP".toList,
  "abdefghijklmnopqrstuvwxyzABCDEFGHIJKLMNO".toList,
  "abdefghijklmnopqrstuvwxyzABCDEFGHIJKLMN".toList,
  "abdefghijklmnopqrstuvwxyzABCDEFGHIJKLM".toList,
  "abdefghijklmnopqrstuvwxyzABCDEFGHIJKL".toList,
  "abdefghijklmnopqrstuvwxyzABCDEFGHIJK".toList,
  "abdefghijklmnopqrstuvwxyzABCDEFGHIJ".toList,
  "abdefghijklmnopqrstuvwxyzABCDEFGHI".toList,
  "abdefghijklmnopqrstuvwxyzABCDEFGH".toList,
  "abdefghijklmnopqrstuvwxyzABCDEFG".toList,
  "abdefghijklmnopqrstuvwxyzABCDEF".toList,
  "abdefghijklmnopqrstuvwxyzABCDE".toList,
  "abdefghijklmnopqrstuvwxyzABCD".toList,
  "abdefghijklmnopqrstuvwxyzABC".toList,
  "abdefghijklmnopqrstuvwxyzAB".toList,
  "abdefghijklmnopqrstuvwxyzA".toList,
  "abdefghijklmnopqrstuvwxyz".toList,
  "abdefghijklmnopqrstuvwxy".toList,
  "abdefghijklmnopqrstuvwx".toList,
  "abdefghijklmnopqrstuvw".toList,
  "abdefghijklmnopqrstuv".toList,
  "abdefghijklmnopqrstu".toList,
  "abdefghijklmnopqrst".toList,
  "abdefghijklmnopqrs".toList,
  "abdefghijklmnopqr".toList,
  "abdefghijklmnopq".toList,
  "abdefghijklmnop".toList,
  "abdefghijklmno".toList,
  "abdefghijklmn".toList,
  "abdefghijklm".toList,
  "abdefghijkl".toList,
  "abdefghijk".toList,
  "abdefghij".toList,
  "abdefghi".toList,
  "abdefgh".toList,
  "abdefg".toList,
  "abdef".toList,
  "abde".toList,
  "abd".toList,
  "cabdefghijklmnopqrstuvwxyzABCDEFGHIJKLMNOPQRSTUVWX".toList,
  "cabdefghijklmnopqrstuvwxyzABCDEFGHIJKLMNOPQRSTUVW".toList,
  "cabdefghijklmnopqrstuvwxyzABCDEFGHIJKLMNOPQRSTUV".toList,
  "cabdefghijklmnopqrstuvwxyzABCDEFGHIJKLMNOPQRSTU".toList,
  "cabdefghijklmnopqrstuvwxyzABCDEFGHIJKLMNOPQRST".toList,
  "cabdefghijklmnopqrstuvwxyzABCDEFGHIJKLMNOPQRS".toList,
  "cabdefghijklmnopqrstuvwxyzABCDEFGHIJKLMNOPQR".toList,
  "cabdefghijklmnopqrstuvwxyzABCDEFGHIJKLMNOPQ".toList,
  "cabdefghijklmnopqrstuvwxyzABCDEFGHIJKLMNOP".toList,
  "cabdefghijklmnopqrstuvwxyzABCDEFGHIJKLMNO".toList,
  "cabdefghijklmnopqrstuvwxyzABCDEFGHIJKLMN".toList,
  "cabdefghijklmnopqrstuvwxyzABCDEFGHIJKLM".toList,
  "cabdefghijklmnopqrstuvwxyzABCDEFGHIJKL".toList,
  "cabdefghijklmnopqrstuvwxyzABCDEFGHIJK".toList,
  "cabdefghijklmnopqrstuvwxyzABCDEFGHIJ".toList,
  "cabdefghijklmnopqrstuvwxyzABCDEFGHI".toList,
  "cabdefghijklmnopqrstuvwxyzABCDEFGH".toList,
  "cabdefghijklmnopqrstuvwxyzABCDEFG".toList,
  "cabdefghijklmnopqrstuvwxyzABCDEF".toList,
  "cabdefghijklmnopqrstuvwxyzABCDE".toList,
  "cabdefghijklmnopqrstuvwxyzABCD".toList,
  "cabdefghijklmnopqrstuvwxyzABC".toList,
  "cabdefghijklmnopqrstuvwxyzAB".toList,
  "cabdefghijklmnopqrstuvwxyzA".toList,
  "cabdefghijklmnopqrstuvwxyz".toList,
  "cabdefghijklmnopqrstuvwxy".toList,
  "cabdefghijklmnopqrstuvwx".toList,
  "cabdefghijklmnopqrstuvw".toList,
  "cabdefghijklmnopqrstuv".toList,
  "cabdefghijklmnopqrstu".toList,
  "cabdefghijklmnopqrst".toList,
  "cabdefghijklmnopqrs".toList,
  "cabdefghijklmnopqr".toList,
  "cabdefghijklmnopq".toList,
  "cabdefghijklmnop".toList,
  "cabdefghijklmno".toList,
  "cabdefghijklmn".toList,
  "cabdefghijklm".toList,
  "cabdefghijkl".toList,
  "cabdefghijk".toList,
  "cabdefghij".toList,
  "cabdefghi".toList,
  "cabdefgh".toList,
  "cabdefg".toList,
  "cabdef".toList,
  "cabde".toList,
  "cabd".toList,
  "cab".toList,
  "bcabdefghijklmnopqrstuvwxyzABCDEFGHIJKLMNOPQRSTUVW".toList,
  "bcabdefghijklmnopqrstuvwxyzABCDEFGHIJKLMNOPQRSTUV".toList,
  "bcabdefghijklmnopqrstuvwxyzABCDEFGHIJKLMNOPQRSTU".toList,
  "bcabdefghijklmnopqrstuvwxyzABCDEFGHIJKLMNOPQRST".toList,
  "bcabdefghijklmnopqrstuvwxyzABCDEFGHIJKLMNOPQRS".toList,
  "bcabdefghijklmnopqrstuvwxyzABCDEFGHIJKLMNOPQR".toList,
  "bcabdefghijklmnopqrstuvwxyzABCDEFGHIJKLMNOPQ".toList,
  "bcabdefghijklmnopqrstuvwxyzABCDEFGHIJKLMNOP".toList,
  "bcabdefghijklmnopqrstuvwxyzABCDEFGHIJKLMNO".toList,
  "bcabdefghijklmnopqrstuvwxyzABCDEFGHIJKLMN".toList,
  "bcabdefghijklmnopqrstuvwxyzABCDEFGHIJKLM".toList,
  "bcabdefghijklmnopqrstuvwxyzABCDEFGHIJKL".toList,
  "bcabdefghijklmnopqrstuvwxyzABCDEFGHIJK".toList,
  "bcabdefghijklmnopqrstuvwxyzABCDEFGHIJ".toList,
  "bcabdefghijklmnopqrstuvwxyzABCDEFGHI".toList,
  "bcabdefghijklmnopqrstuvwxyzABCDEFGH".toList,
  "bcabdefghijklmnopqrstuvwxyzABCDEFG".toList,
  "bcabdefghijklmnopqrstuvwxyzABCDEF".toList,
  "bcabdefghijklmnopqrstuvwxyzABCDE".toList,
  "bcabdefghijklmnopqrstuvwxyzABCD".toList,
  "bcabdefghijklmnopqrstuvwxyzABC".toList,
  "bcabdefghijklmnopqrstuvwxyzAB".toList,
  "bcabdefghijklmnopqrstuvwxyzA".toList,
  "bcabdefghijklmnopqrstuvwxyz".toList,
  "bcabdefghijklmnopqrstuvwxy".toList,
  "bcabdefghijklmnopqrstuvwx".toList,
  "bcabdefghijklmnopqrstuvw".toList,
  "bcabdefghijklmnopqrstuv".toList,
  "bcabdefghijklmnopqrstu".toList,
  "bcabdefghijklmnopqrst".toList,
  "bcabdefghijklmnopqrs".toList,
  "bcabdefghijklmnopqr".toList,
  "bcabdefghijklmnopq".toList,
  "bcabdefghijklmnop".toList,
  "bcabdefghijklmno".toList,
  "bcabdefghijklmn".toList,
  "bcabdefghijklm".toList,
  "bcabdefghijkl".toList,
  "bcabdefghijk".toList,
  "bcabdefghij".toList,
  "bcabdefghi".toList,
  "bcabdefgh".toList,
  "bcabdefg".toList,
  "bcabdef".toList,
  "bcabde".toList,
  "bcabd".toList,
  "bcab".toList,
  "bca".toList,
  "abcabdefghijklmnopqrstuvwxyzABCDEFGHIJKLMNOPQRSTUV".toList,
  "abcabdefghijklmnopqrstuvwxyzABCDEFGHIJKLMNOPQRSTU".toList,
  "abcabdefghijklmnopqrstuvwxyzABCDEFGHIJKLMNOPQRST".toList,
  "abcabdefghijklmnopqrstuvwxyzABCDEFGHIJKLMNOPQRS".toList,
  "abcabdefghijklmnopqrstuvwxyzABCDEFGHIJKLMNOPQR".toList,
  "abcabdefghijklmnopqrstuvwxyzABCDEFGHIJKLMNOPQ".toList,
  "abcabdefghijklmnopqrstuvwxyzABCDEFGHIJKLMNOP".toList,
  "abcabdefghijklmnopqrstuvwxyzABCDEFGHIJKLMNO".toList,
  "abcabdefghijklmnopqrstuvwxyzABCDEFGHIJKLMN".toList,
  "abcabdefghijklmnopqrstuvwxyzABCDEFGHIJKLM".toList,
  "abcabdefghijklmnopqrstuvwxyzABCDEFGHIJKL".toList,
  "abcabdefghijklmnopqrstuvwxyzABCDEFGHIJK".toList,
  "abcabdefghijklmnopqrstuvwxyzABCDEFGHIJ".toList,
  "abcabdefghijklmnopqrstuvwxyzABCDEFGHI".toList,
  "abcabdefghijklmnopqrstuvwxyzABCDEFGH".toList,
  "abcabdefghijklmnopqrstuvwxyzABCDEFG".toList,
  "abcabdefghijklmnopqrstuvwxyzABCDEF".toList,
  "abcabdefghijklmnopqrstuvwxyzABCDE".toList,
  "abcabdefghijklmnopqrstuvwxyzABCD".toList,
  "abcabdefghijklmnopqrstuvwxyzABC".toList,
  "abcabdefghijklmnopqrstuvwxyzAB".toList,
  "abcabdefghijklmnopqrstuvwxyzA".toList,
  "abcabdefghijklmnopqrstuvwxyz".toList,
  "abcabdefghijklmnopqrstuvwxy".toList,
  "abcabdefghijklmnopqrstuvwx".toList,
  "abcabdefghijklmnopqrstuvw".toList,
  "abcabdefghijklmnopqrstuv".toList,
  "abcabdefghijklmnopqrstu".toList,
  "abcabdefghijklmnopqrst".toList,
  "abcabdefghijklmnopqrs".toList,
  "abcabdefghijklmnopqr".toList,
  "abcabdefghijklmnopq".toList,
  "abcabdefghijklmnop".toList,
  "abcabdefghijklmno".toList,
  "abcabdefghijklmn".toList,
  "abcabdefghijklm".toList,
  "abcabdefghijkl".toList,
  "abcabdefghijk".toList,
  "abcabdefghij".toList,
  "abcabdefghi".toList,
  "abcabdefgh".toList,
  "abcabdefg".toList,
  "abcabdef".toList,
  "abcabde".toList,
  "abcabd".toList,
  "abcab".toList,
  "abca".toList,
  "abc".toList]

/-- The `longest_substrings` table after the first 220 scan-order
substrings. -/
def C10M220 : List (Str × Str) :=
[("ab".toList, "abcabdefghijklmnopqrstuvwxyzABCDEFGHIJKLMNOPQRSTUV".toList),
  ("bc".toList, "bcabdefghijklmnopqrstuvwxyzABCDEFGHIJKLMNOPQRSTUVW".toList),
  ("ca".toList, "cabdefghijklmnopqrstuvwxyzABCDEFGHIJKLMNOPQRSTUVWX".toList),
  ("bd".toList, "bdefghijklmnopqrstuvwxyzABCDEF".toList)]

/-- The `longest_substrings` table after the first 440 scan-order
substrings. -/
def C10M440 : List (Str × Str) :=
[("ab".toList, "abcabdefghijklmnopqrstuvwxyzABCDEFGHIJKLMNOPQRSTUV".toList),
  ("bc".toList, "bcabdefghijklmnopqrstuvwxyzABCDEFGHIJKLMNOPQRSTUVW".toList),
  ("ca".toList, "cabdefghijklmnopqrstuvwxyzABCDEFGHIJKLMNOPQRSTUVWX".toList),
  ("bd".toList, "bdefghijklmnopqrstuvwxyzABCDEFGHIJKLMNOPQRSTUVWXY".toList),
  ("de".toList, "defghijklmnopqrstuvwxyzABCDEFGHIJKLMNOPQRSTUVWXY".toList),
  ("ef".toList, "efghijklmnopqrstuvwxyzABCDEFGHIJKLMNOPQRSTUVWXY".toList),
  ("fg".toList, "fghijklmnopqrstuvwxyzABCDEFGHIJKLMNOPQRSTUVWXY".toList),
  ("gh".toList, "ghijklmnopqrstuvwxyzABCDEFGHIJKLMNOPQRSTUVWXY".toList),
  ("hi".toList, "hijklmnopqrstuvwxyzABCDEF".toList)]

/-- The `longest_substrings` table after the first 660 scan-order
substrings. -/
def C10M660 : List (Str × Str) :=
[("ab".toList, "abcabdefghijklmnopqrstuvwxyzABCDEFGHIJKLMNOPQRSTUV".toList),
  ("bc".toList, "bcabdefghijklmnopqrstuvwxyzABCDEFGHIJKLMNOPQRSTUVW".toList),
  ("ca".toList, "cabdefghijklmnopqrstuvwxyzABCDEFGHIJKLMNOPQRSTUVWX".toList),
  ("bd".toList, "bdefghijklmnopqrstuvwxyzABCDEFGHIJKLMNOPQRSTUVWXY".toList),
  ("de".toList, "defghijklmnopqrstuvwxyzABCDEFGHIJKLMNOPQRSTUVWXY".toList),
  ("ef".toList, "efghijklmnopqrstuvwxyzABCDEFGHIJKLMNOPQRSTUVWXY".toList),
  ("fg".toList, "fghijklmnopqrstuvwxyzABCDEFGHIJKLMNOPQRSTUVWXY".toList),
  ("gh".toList, "ghijklmnopqrstuvwxyzABCDEFGHIJKLMNOPQRSTUVWXY".toList),
  ("hi".toList, "hijklmnopqrstuvwxyzABCDEFGHIJKLMNOPQRSTUVWXY".toList),
  ("ij".toList, "ijklmnopqrstuvwxyzABCDEFGHIJKLMNOPQRSTUVWXY".toList),
  ("jk".toList, "jklmnopqrstuvwxyzABCDEFGHIJKLMNOPQRSTUVWXY".toList),
  ("kl".toList, "klmnopqrstuvwxyzABCDEFGHIJKLMNOPQRSTUVWXY".toList),
  ("lm".toList, "lmnopqrstuvwxyzABCDEFGHIJKLMNOPQRSTUVWXY".toList),
  ("mn".toList, "mnopqrstuvwxyzABCDEFGHIJKLMNOPQRSTUVWXY".toList),
  ("no".toList, "nopqrstu".toList)]

/-- The `longest_substrings` table after the first 880 scan-order
substrings. -/
def C10M880 : List (Str × Str) :=
[("ab".toList, "abcabdefghijklmnopqrstuvwxyzABCDEFGHIJKLMNOPQRSTUV".toList),
  ("bc".toList, "bcabdefghijklmnopqrstuvwxyzABCDEFGHIJKLMNOPQRSTUVW".toList),
  ("ca".toList, "cabdefghijklmnopqrstuvwxyzABCDEFGHIJKLMNOPQRSTUVWX".toList),
  ("bd".toList, "bdefghijklmnopqrstuvwxyzABCDEFGHIJKLMNOPQRSTUVWXY".toList),
  ("de".toList, "defghijklmnopqrstuvwxyzABCDEFGHIJKLMNOPQRSTUVWXY".toList),
  ("ef".toList, "efghijklmnopqrstuvwxyzABCDEFGHIJKLMNOPQRSTUVWXY".toList),
  ("fg".toList, "fghijklmnopqrstuvwxyzABCDEFGHIJKLMNOPQRSTUVWXY".toList),
  ("gh".toList, "ghijklmnopqrstuvwxyzABCDEFGHIJKLMNOPQRSTUVWXY".toList),
  ("hi".toList, "hijklmnopqrstuvwxyzABCDEFGHIJKLMNOPQRSTUVWXY".toList),
  ("ij".toList, "ijklmnopqrstuvwxyzABCDEFGHIJKLMNOPQRSTUVWXY".toList),
  ("jk".toList, "jklmnopqrstuvwxyzABCDEFGHIJKLMNOPQRSTUVWXY".toList),
  ("kl".toList, "klmnopqrstuvwxyzABCDEFGHIJKLMNOPQRSTUVWXY".toList),
  ("lm".toList, "lmnopqrstuvwxyzABCDEFGHIJKLMNOPQRSTUVWXY".toList),
  ("mn".toList, "mnopqrstuvwxyzABCDEFGHIJKLMNOPQRSTUVWXY".toList),
  ("no".toList, "nopqrstuvwxyzABCDEFGHIJKLMNOPQRSTUVWXY".toList),
  ("op".toList, "opqrstuvwxyzABCDEFGHIJKLMNOPQRSTUVWXY".toList),
  ("pq".toList, "pqrstuvwxyzABCDEFGHIJKLMNOPQRSTUVWXY".toList),
  ("qr".toList, "qrstuvwxyzABCDEFGHIJKLMNOPQRSTUVWXY".toList),
  ("rs".toList, "rstuvwxyzABCDEFGHIJKLMNOPQRSTUVWXY".toList),
  ("st".toList, "stuvwxyzABCDEFGHIJKLMNOPQRSTUVWXY".toList),
  ("tu".toList, "tuvwxyzABCDEFGHIJKLMNOPQRST".toList)]

/-- The `longest_substrings` table after the first 1100 scan-order
substrings. -/
def C10M1100 : List (Str × Str) :=
[("ab".toList, "abcabdefghijklmnopqrstuvwxyzABCDEFGHIJKLMNOPQRSTUV".toList),
  ("bc".toList, "bcabdefghijklmnopqrstuvwxyzABCDEFGHIJKLMNOPQRSTUVW".toList),
  ("ca".toList, "cabdefghijklmnopqrstuvwxyzABCDEFGHIJKLMNOPQRSTUVWX".toList),
  ("bd".toList, "bdefghijklmnopqrstuvwxyzABCDEFGHIJKLMNOPQRSTUVWXY".toList),
  ("de".toList, "defghijklmnopqrstuvwxyzABCDEFGHIJKLMNOPQRSTUVWXY".toList),
  ("ef".toList, "efghijklmnopqrstuvwxyzABCDEFGHIJKLMNOPQRSTUVWXY".toList),
  ("fg".toList, "fghijklmnopqrstuvwxyzABCDEFGHIJKLMNOPQRSTUVWXY".toList),
  ("gh".toList, "ghijklmnopqrstuvwxyzABCDEFGHIJKLMNOPQRSTUVWXY".toList),
  ("hi".toList, "hijklmnopqrstuvwxyzABCDEFGHIJKLMNOPQRSTUVWXY".toList),
  ("ij".toList, "ijklmnopqrstuvwxyzABCDEFGHIJKLMNOPQRSTUVWXY".toList),
  ("jk".toList, "jklmnopqrstuvwxyzABCDEFGHIJKLMNOPQRSTUVWXY".toList),
  ("kl".toList, "klmnopqrstuvwxyzABCDEFGHIJKLMNOPQRSTUVWXY".toList),
  ("lm".toList, "lmnopqrstuvwxyzABCDEFGHIJKLMNOPQRSTUVWXY".toList),
  ("mn".toList, "mnopqrstuvwxyzABCDEFGHIJKLMNOPQRSTUVWXY".toList),
  ("no".toList, "nopqrstuvwxyzABCDEFGHIJKLMNOPQRSTUVWXY".toList),
  ("op".toList, "opqrstuvwxyzABCDEFGHIJKLMNOPQRSTUVWXY".toList),
  ("pq".toList, "pqrstuvwxyzABCDEFGHIJKLMNOPQRSTUVWXY".toList),
  ("qr".toList, "qrstuvwxyzABCDEFGHIJKLMNOPQRSTUVWXY".toList),
  ("rs".toList, "rstuvwxyzABCDEFGHIJKLMNOPQRSTUVWXY".toList),
  ("st".toList, "stuvwxyzABCDEFGHIJKLMNOPQRSTUVWXY".toList),
  ("tu".toList, "tuvwxyzABCDEFGHIJKLMNOPQRSTUVWXY".toList),
  ("uv".toList, "uvwxyzABCDEFGHIJKLMNOPQRSTUVWXY".toList),
  ("vw".toList, "vwxyzABCDEFGHIJKLMNOPQRSTUVWXY".toList),
  ("wx".toList, "wxyzABCDEFGHIJKLMNOPQRSTUVWXY".toList),
  ("xy".toList, "xyzABCDEFGHIJKLMNOPQRSTUVWXY".toList),
  ("yz".toList, "yzABCDEFGHIJKLMNOPQRSTUVWXY".toList),
  ("zA".toList, "zABCDEFGHIJKLMNOPQRSTUVWXY".toList),
  ("AB".toList, "ABCDEFGHIJKLMNOPQRSTUVWXY".toList),
  ("BC".toList, "BCDEFGHIJKLMNOPQRSTUVWXY".toList),
  ("CD".toList, "CDEFGHIJKLMNO".toList)]

/-- The `longest_substrings` table after the first 1320 scan-order
substrings. -/
def C10M1320 : List (Str × Str) :=
[("ab".toList, "abcabdefghijklmnopqrstuvwxyzABCDEFGHIJKLMNOPQRSTUV".toList),
  ("bc".toList, "bcabdefghijklmnopqrstuvwxyzABCDEFGHIJKLMNOPQRSTUVW".toList),
  ("ca".toList, "cabdefghijklmnopqrstuvwxyzABCDEFGHIJKLMNOPQRSTUVWX".toList),
  ("bd".toList, "bdefghijklmnopqrstuvwxyzABCDEFGHIJKLMNOPQRSTUVWXY".toList),
  ("de".toList, "defghijklmnopqrstuvwxyzABCDEFGHIJKLMNOPQRSTUVWXY".toList),
  ("ef".toList, "efghijklmnopqrstuvwxyzABCDEFGHIJKLMNOPQRSTUVWXY".toList),
  ("fg".toList, "fghijklmnopqrstuvwxyzABCDEFGHIJKLMNOPQRSTUVWXY".toList),
  ("gh".toList, "ghijklmnopqrstuvwxyzABCDEFGHIJKLMNOPQRSTUVWXY".toList),
  ("hi".toList, "hijklmnopqrstuvwxyzABCDEFGHIJKLMNOPQRSTUVWXY".toList),
  ("ij".toList, "ijklmnopqrstuvwxyzABCDEFGHIJKLMNOPQRSTUVWXY".toList),
  ("jk".toList, "jklmnopqrstuvwxyzABCDEFGHIJKLMNOPQRSTUVWXY".toList),
  ("kl".toList, "klmnopqrstuvwxyzABCDEFGHIJKLMNOPQRSTUVWXY".toList),
  ("lm".toList, "lmnopqrstuvwxyzABCDEFGHIJKLMNOPQRSTUVWXY".toList),
  ("mn".toList, "mnopqrstuvwxyzABCDEFGHIJKLMNOPQRSTUVWXY".toList),
  ("no".toList, "nopqrstuvwxyzABCDEFGHIJKLMNOPQRSTUVWXY".toList),
  ("op".toList, "opqrstuvwxyzABCDEFGHIJKLMNOPQRSTUVWXY".toList),
  ("pq".toList, "pqrstuvwxyzABCDEFGHIJKLMNOPQRSTUVWXY".toList),
  ("qr".toList, "qrstuvwxyzABCDEFGHIJKLMNOPQRSTUVWXY".toList),
  ("rs".toList, "rstuvwxyzABCDEFGHIJKLMNOPQRSTUVWXY".toList),
  ("st".toList, "stuvwxyzABCDEFGHIJKLMNOPQRSTUVWXY".toList),
  ("tu".toList, "tuvwxyzABCDEFGHIJKLMNOPQRSTUVWXY".toList),
  ("uv".toList, "uvwxyzABCDEFGHIJKLMNOPQRSTUVWXY".toList),
  ("vw".toList, "vwxyzABCDEFGHIJKLMNOPQRSTUVWXY".toList),
  ("wx".toList, "wxyzABCDEFGHIJKLMNOPQRSTUVWXY".toList),
  ("xy".toList, "xyzABCDEFGHIJKLMNOPQRSTUVWXY".toList),
  ("yz".toList, "yzABCDEFGHIJKLMNOPQRSTUVWXY".toList),
  ("zA".toList, "zABCDEFGHIJKLMNOPQRSTUVWXY".toList),
  ("AB".toList, "ABCDEFGHIJKLMNOPQRSTUVWXY".toList),
  ("BC".toList, "BCDEFGHIJKLMNOPQRSTUVWXY".toList),
  ("CD".toList, "CDEFGHIJKLMNOPQRSTUVWXY".toList),
  ("DE".toList, "DEFGHIJKLMNOPQRSTUVWXY".toList),
  ("EF".toList, "EFGHIJKLMNOPQRSTUVWXY".toList),
  ("FG".toList, "FGHIJKLMNOPQRSTUVWXY".toList),
  ("GH".toList, "GHIJKLMNOPQRSTUVWXY".toList),
  ("HI".toList, "HIJKLMNOPQRSTUVWXY".toList),
  ("IJ".toList, "IJKLMNOPQRSTUVWXY".toList),
  ("JK".toList, "JKLMNOPQRSTUVWXY".toList),
  ("KL".toList, "KLMNOPQRSTUVWXY".toList),
  ("LM".toList, "LMNOPQRSTUVWXY".toList),
  ("MN".toList, "MNOPQRSTUVWXY".toList),
  ("NO".toList, "NOPQRSTUVWXY".toList),
  ("OP".toList, "OPQRSTUVWXY".toList),
  ("PQ".toList, "PQRSTUVWXY".toList),
  ("QR".toList, "QRSTUVWXY".toList),
  ("RS".toList, "RSTUVWXY".toList),
  ("ST".toList, "STUVWXY".toList),
  ("TU".toList, "TUVWXY".toList),
  ("UV".toList, "UVWXY".toList),
  ("VW".toList, "VWXY".toList),
  ("WX".toList, "WXY".toList)]

/-- The `longest_substrings` table after the first 220 reversed-order
substrings. -/
def C10N220 : List (Str × Str) :=
[("WX".toList, "WXY".toList),
  ("VW".toList, "VWXY".toList),
  ("UV".toList, "UVWXY".toList),
  ("TU".toList, "TUVWXY".toList),
  ("ST".toList, "STUVWXY".toList),
  ("RS".toList, "RSTUVWXY".toList),
  ("QR".toList, "QRSTUVWXY".toList),
  ("PQ".toList, "PQRSTUVWXY".toList),
  ("OP".toList, "OPQRSTUVWXY".toList),
  ("NO".toList, "NOPQRSTUVWXY".toList),
  ("MN".toList, "MNOPQRSTUVWXY".toList),
  ("LM".toList, "LMNOPQRSTUVWXY".toList),
  ("KL".toList, "KLMNOPQRSTUVWXY".toList),
  ("JK".toList, "JKLMNOPQRSTUVWXY".toList),
  ("IJ".toList, "IJKLMNOPQRSTUVWXY".toList),
  ("HI".toList, "HIJKLMNOPQRSTUVWXY".toList),
  ("GH".toList, "GHIJKLMNOPQRSTUVWXY".toList),
  ("FG".toList, "FGHIJKLMNOPQRSTUVWXY".toList),
  ("EF".toList, "EFGHIJKLMNOPQRSTUVWXY".toList),
  ("DE".toList, "DEFGHIJKLMNOPQRSTUVWXY".toList),
  ("CD".toList, "CDEFGHIJKLMNOPQRSTUVWXY".toList)]

/-- The `longest_substrings` table after the first 440 reversed-order
substrings. -/
def C10N440 : List (Str × Str) :=
[("WX".toList, "WXY".toList),
  ("VW".toList, "VWXY".toList),
  ("UV".toList, "UVWXY".toList),
  ("TU".toList, "TUVWXY".toList),
  ("ST".toList, "STUVWXY".toList),
  ("RS".toList, "RSTUVWXY".toList),
  ("QR".toList, "QRSTUVWXY".toList),
  ("PQ".toList, "PQRSTUVWXY".toList),
  ("OP".toList, "OPQRSTUVWXY".toList),
  ("NO".toList, "NOPQRSTUVWXY".toList),
  ("MN".toList, "MNOPQRSTUVWXY".toList),
  ("LM".toList, "LMNOPQRSTUVWXY".toList),
  ("KL".toList, "KLMNOPQRSTUVWXY".toList),
  ("JK".toList, "JKLMNOPQRSTUVWXY".toList),
  ("IJ".toList, "IJKLMNOPQRSTUVWXY".toList),
  ("HI".toList, "HIJKLMNOPQRSTUVWXY".toList),
  ("GH".toList, "GHIJKLMNOPQRSTUVWXY".toList),
  ("FG".toList, "FGHIJKLMNOPQRSTUVWXY".toList),
  ("EF".toList, "EFGHIJKLMNOPQRSTUVWXY".toList),
  ("DE".toList, "DEFGHIJKLMNOPQRSTUVWXY".toList),
  ("CD".toList, "CDEFGHIJKLMNOPQRSTUVWXY".toList),
  ("BC".toList, "BCDEFGHIJKLMNOPQRSTUVWXY".toList),
  ("AB".toList, "ABCDEFGHIJKLMNOPQRSTUVWXY".toList),
  ("zA".toList, "zABCDEFGHIJKLMNOPQRSTUVWXY".toList),
  ("yz".toList, "yzABCDEFGHIJKLMNOPQRSTUVWXY".toList),
  ("xy".toList, "xyzABCDEFGHIJKLMNOPQRSTUVWXY".toList),
  ("wx".toList, "wxyzABCDEFGHIJKLMNOPQRSTUVWXY".toList),
  ("vw".toList, "vwxyzABCDEFGHIJKLMNOPQRSTUVWXY".toList),
  ("uv".toList, "uvwxyzABCDEFGHIJKLMNOPQRSTUVWXY".toList),
  ("tu".toList, "tuvwxyzABCDEFGHIJKLMNOPQRSTUVWXY".toList)]

/-- The `longest_substrings` table after the first 660 reversed-order
substrings. -/
def C10N660 : List (Str × Str) :=
[("WX".toList, "WXY".toList),
  ("VW".toList, "VWXY".toList),
  ("UV".toList, "UVWXY".toList),
  ("TU".toList, "TUVWXY".toList),
  ("ST".toList, "STUVWXY".toList),
  ("RS".toList, "RSTUVWXY".toList),
  ("QR".toList, "QRSTUVWXY".toList),
  ("PQ".toList, "PQRSTUVWXY".toList),
  ("OP".toList, "OPQRSTUVWXY".toList),
  ("NO".toList, "NOPQRSTUVWXY".toList),
  ("MN".toList, "MNOPQRSTUVWXY".toList),
  ("LM".toList, "LMNOPQRSTUVWXY".toList),
  ("KL".toList, "KLMNOPQRSTUVWXY".toList),
  ("JK".toList, "JKLMNOPQRSTUVWXY".toList),
  ("IJ".toList, "IJKLMNOPQRSTUVWXY".toList),
  ("HI".toList, "HIJKLMNOPQRSTUVWXY".toList),
  ("GH".toList, "GHIJKLMNOPQRSTUVWXY".toList),
  ("FG".toList, "FGHIJKLMNOPQRSTUVWXY".toList),
  ("EF".toList, "EFGHIJKLMNOPQRSTUVWXY".toList),
  ("DE".toList, "DEFGHIJKLMNOPQRSTUVWXY".toList),
  ("CD".toList, "CDEFGHIJKLMNOPQRSTUVWXY".toList),
  ("BC".toList, "BCDEFGHIJKLMNOPQRSTUVWXY".toList),
  ("AB".toList, "ABCDEFGHIJKLMNOPQRSTUVWXY".toList),
  ("zA".toList, "zABCDEFGHIJKLMNOPQRSTUVWXY".toList),
  ("yz".toList, "yzABCDEFGHIJKLMNOPQRSTUVWXY".toList),
  ("xy".toList, "xyzABCDEFGHIJKLMNOPQRSTUVWXY".toList),
  ("wx".toList, "wxyzABCDEFGHIJKLMNOPQRSTUVWXY".toList),
  ("vw".toList, "vwxyzABCDEFGHIJKLMNOPQRSTUVWXY".toList),
  ("uv".toList, "uvwxyzABCDEFGHIJKLMNOPQRSTUVWXY".toList),
  ("tu".toList, "tuvwxyzABCDEFGHIJKLMNOPQRSTUVWXY".toList),
  ("st".toList, "stuvwxyzABCDEFGHIJKLMNOPQRSTUVWXY".toList),
  ("rs".toList, "rstuvwxyzABCDEFGHIJKLMNOPQRSTUVWXY".toList),
  ("qr".toList, "qrstuvwxyzABCDEFGHIJKLMNOPQRSTUVWXY".toList),
  ("pq".toList, "pqrstuvwxyzABCDEFGHIJKLMNOPQRSTUVWXY".toList),
  ("op".toList, "opqrstuvwxyzABCDEFGHIJKLMNOPQRSTUVWXY".toList),
  ("no".toList, "nopqrstuvwxyzABCDEFGHIJKLMNOPQRSTUVWXY".toList)]

/-- The `longest_substrings` table after the first 880 reversed-order
substrings. -/
def C10N880 : List (Str × Str) :=
[("WX".toList, "WXY".toList),
  ("VW".toList, "VWXY".toList),
  ("UV".toList, "UVWXY".toList),
  ("TU".toList, "TUVWXY".toList),
  ("ST".toList, "STUVWXY".toList),
  ("RS".toList, "RSTUVWXY".toList),
  ("QR".toList, "QRSTUVWXY".toList),
  ("PQ".toList, "PQRSTUVWXY".toList),
  ("OP".toList, "OPQRSTUVWXY".toList),
  ("NO".toList, "NOPQRSTUVWXY".toList),
  ("MN".toList, "MNOPQRSTUVWXY".toList),
  ("LM".toList, "LMNOPQRSTUVWXY".toList),
  ("KL".toList, "KLMNOPQRSTUVWXY".toList),
  ("JK".toList, "JKLMNOPQRSTUVWXY".toList),
  ("IJ".toList, "IJKLMNOPQRSTUVWXY".toList),
  ("HI".toList, "HIJKLMNOPQRSTUVWXY".toList),
  ("GH".toList, "GHIJKLMNOPQRSTUVWXY".toList),
  ("FG".toList, "FGHIJKLMNOPQRSTUVWXY".toList),
  ("EF".toList, "EFGHIJKLMNOPQRSTUVWXY".toList),
  ("DE".toList, "DEFGHIJKLMNOPQRSTUVWXY".toList),
  ("CD".toList, "CDEFGHIJKLMNOPQRSTUVWXY".toList),
  ("BC".toList, "BCDEFGHIJKLMNOPQRSTUVWXY".toList),
  ("AB".toList, "ABCDEFGHIJKLMNOPQRSTUVWXY".toList),
  ("zA".toList, "zABCDEFGHIJKLMNOPQRSTUVWXY".toList),
  ("yz".toList, "yzABCDEFGHIJKLMNOPQRSTUVWXY".toList),
  ("xy".toList, "xyzABCDEFGHIJKLMNOPQRSTUVWXY".toList),
  ("wx".toList, "wxyzABCDEFGHIJKLMNOPQRSTUVWXY".toList),
  ("vw".toList, "vwxyzABCDEFGHIJKLMNOPQRSTUVWXY".toList),
  ("uv".toList, "uvwxyzABCDEFGHIJKLMNOPQRSTUVWXY".toList),
  ("tu".toList, "tuvwxyzABCDEFGHIJKLMNOPQRSTUVWXY".toList),
  ("st".toList, "stuvwxyzABCDEFGHIJKLMNOPQRSTUVWXY".toList),
  ("rs".toList, "rstuvwxyzABCDEFGHIJKLMNOPQRSTUVWXY".toList),
  ("qr".toList, "qrstuvwxyzABCDEFGHIJKLMNOPQRSTUVWXY".toList),
  ("pq".toList, "pqrstuvwxyzABCDEFGHIJKLMNOPQRSTUVWXY".toList),
  ("op".toList, "opqrstuvwxyzABCDEFGHIJKLMNOPQRSTUVWXY".toList),
  ("no".toList, "nopqrstuvwxyzABCDEFGHIJKLMNOPQRSTUVWXY".toList),
  ("mn".toList, "mnopqrstuvwxyzABCDEFGHIJKLMNOPQRSTUVWXY".toList),
  ("lm".toList, "lmnopqrstuvwxyzABCDEFGHIJKLMNOPQRSTUVWXY".toList),
  ("kl".toList, "klmnopqrstuvwxyzABCDEFGHIJKLMNOPQRSTUVWXY".toList),
  ("jk".toList, "jklmnopqrstuvwxyzABCDEFGHIJKLMNOPQRSTUVWXY".toList),
  ("ij".toList, "ijklmnopqrstuvwxyzABCDEFGHIJKLMNOPQRSTUVWXY".toList),
  ("hi".toList, "hijklmnopqrstuvwxyzABCDEFGHIJKLMNOPQRSTUVWXY".toList)]

/-- The `longest_substrings` table after the first 1100 reversed-order
substrings. -/
def C10N1100 : List (Str × Str) :=
[("WX".toList, "WXY".toList),
  ("VW".toList, "VWXY".toList),
  ("UV".toList, "UVWXY".toList),
  ("TU".toList, "TUVWXY".toList),
  ("ST".toList, "STUVWXY".toList),
  ("RS".toList, "RSTUVWXY".toList),
  ("QR".toList, "QRSTUVWXY".toList),
  ("PQ".toList, "PQRSTUVWXY".toList),
  ("OP".toList, "OPQRSTUVWXY".toList),
  ("NO".toList, "NOPQRSTUVWXY".toList),
  ("MN".toList, "MNOPQRSTUVWXY".toList),
  ("LM".toList, "LMNOPQRSTUVWXY".toList),
  ("KL".toList, "KLMNOPQRSTUVWXY".toList),
  ("JK".toList, "JKLMNOPQRSTUVWXY".toList),
  ("IJ".toList, "IJKLMNOPQRSTUVWXY".toList),
  ("HI".toList, "HIJKLMNOPQRSTUVWXY".toList),
  ("GH".toList, "GHIJKLMNOPQRSTUVWXY".toList),
  ("FG".toList, "FGHIJKLMNOPQRSTUVWXY".toList),
  ("EF".toList, "EFGHIJKLMNOPQRSTUVWXY".toList),
  ("DE".toList, "DEFGHIJKLMNOPQRSTUVWXY".toList),
  ("CD".toList, "CDEFGHIJKLMNOPQRSTUVWXY".toList),
  ("BC".toList, "BCDEFGHIJKLMNOPQRSTUVWXY".toList),
  ("AB".toList, "ABCDEFGHIJKLMNOPQRSTUVWXY".toList),
  ("zA".toList, "zABCDEFGHIJKLMNOPQRSTUVWXY".toList),
  ("yz".toList, "yzABCDEFGHIJKLMNOPQRSTUVWXY".toList),
  ("xy".toList, "xyzABCDEFGHIJKLMNOPQRSTUVWXY".toList),
  ("wx".toList, "wxyzABCDEFGHIJKLMNOPQRSTUVWXY".toList),
  ("vw".toList, "vwxyzABCDEFGHIJKLMNOPQRSTUVWXY".toList),
  ("uv".toList, "uvwxyzABCDEFGHIJKLMNOPQRSTUVWXY".toList),
  ("tu".toList, "tuvwxyzABCDEFGHIJKLMNOPQRSTUVWXY".toList),
  ("st".toList, "stuvwxyzABCDEFGHIJKLMNOPQRSTUVWXY".toList),
  ("rs".toList, "rstuvwxyzABCDEFGHIJKLMNOPQRSTUVWXY".toList),
  ("qr".toList, "qrstuvwxyzABCDEFGHIJKLMNOPQRSTUVWXY".toList),
  ("pq".toList, "pqrstuvwxyzABCDEFGHIJKLMNOPQRSTUVWXY".toList),
  ("op".toList, "opqrstuvwxyzABCDEFGHIJKLMNOPQRSTUVWXY".toList),
  ("no".toList, "nopqrstuvwxyzABCDEFGHIJKLMNOPQRSTUVWXY".toList),
  ("mn".toList, "mnopqrstuvwxyzABCDEFGHIJKLMNOPQRSTUVWXY".toList),
  ("lm".toList, "lmnopqrstuvwxyzABCDEFGHIJKLMNOPQRSTUVWXY".toList),
  ("kl".toList, "klmnopqrstuvwxyzABCDEFGHIJKLMNOPQRSTUVWXY".toList),
  ("jk".toList, "jklmnopqrstuvwxyzABCDEFGHIJKLMNOPQRSTUVWXY".toList),
  ("ij".toList, "ijklmnopqrstuvwxyzABCDEFGHIJKLMNOPQRSTUVWXY".toList),
  ("hi".toList, "hijklmnopqrstuvwxyzABCDEFGHIJKLMNOPQRSTUVWXY".toList),
  ("gh".toList, "ghijklmnopqrstuvwxyzABCDEFGHIJKLMNOPQRSTUVWXY".toList),
  ("fg".toList, "fghijklmnopqrstuvwxyzABCDEFGHIJKLMNOPQRSTUVWXY".toList),
  ("ef".toList, "efghijklmnopqrstuvwxyzABCDEFGHIJKLMNOPQRSTUVWXY".toList),
  ("de".toList, "defghijklmnopqrstuvwxyzABCDEFGHIJKLMNOPQRSTUVWXY".toList),
  ("bd".toList, "bdefghijklmnopqrstuvwxyzABCDEFGHIJKLMNOPQRSTUVWXY".toList)]

/-- The `longest_substrings` table after the first 1320 reversed-order
substrings. -/
def C10N1320 : List (Str × Str) :=
[("WX".toList, "WXY".toList),
  ("VW".toList, "VWXY".toList),
  ("UV".toList, "UVWXY".toList),
  ("TU".toList, "TUVWXY".toList),
  ("ST".toList, "STUVWXY".toList),
  ("RS".toList, "RSTUVWXY".toList),
  ("QR".toList, "QRSTUVWXY".toList),
  ("PQ".toList, "PQRSTUVWXY".toList),
  ("OP".toList, "OPQRSTUVWXY".toList),
  ("NO".toList, "NOPQRSTUVWXY".toList),
  ("MN".toList, "MNOPQRSTUVWXY".toList),
  ("LM".toList, "LMNOPQRSTUVWXY".toList),
  ("KL".toList, "KLMNOPQRSTUVWXY".toList),
  ("JK".toList, "JKLMNOPQRSTUVWXY".toList),
  ("IJ".toList, "IJKLMNOPQRSTUVWXY".toList),
  ("HI".toList, "HIJKLMNOPQRSTUVWXY".toList),
  ("GH".toList, "GHIJKLMNOPQRSTUVWXY".toList),
  ("FG".toList, "FGHIJKLMNOPQRSTUVWXY".toList),
  ("EF".toList, "EFGHIJKLMNOPQRSTUVWXY".toList),
  ("DE".toList, "DEFGHIJKLMNOPQRSTUVWXY".toList),
  ("CD".toList, "CDEFGHIJKLMNOPQRSTUVWXY".toList),
  ("BC".toList, "BCDEFGHIJKLMNOPQRSTUVWXY".toList),
  ("AB".toList, "ABCDEFGHIJKLMNOPQRSTUVWXY".toList),
  ("zA".toList, "zABCDEFGHIJKLMNOPQRSTUVWXY".toList),
  ("yz".toList, "yzABCDEFGHIJKLMNOPQRSTUVWXY".toList),
  ("xy".toList, "xyzABCDEFGHIJKLMNOPQRSTUVWXY".toList),
  ("wx".toList, "wxyzABCDEFGHIJKLMNOPQRSTUVWXY".toList),
  ("vw".toList, "vwxyzABCDEFGHIJKLMNOPQRSTUVWXY".toList),
  ("uv".toList, "uvwxyzABCDEFGHIJKLMNOPQRSTUVWXY".toList),
  ("tu".toList, "tuvwxyzABCDEFGHIJKLMNOPQRSTUVWXY".toList),
  ("st".toList, "stuvwxyzABCDEFGHIJKLMNOPQRSTUVWXY".toList),
  ("rs".toList, "rstuvwxyzABCDEFGHIJKLMNOPQRSTUVWXY".toList),
  ("qr".toList, "qrstuvwxyzABCDEFGHIJKLMNOPQRSTUVWXY".toList),
  ("pq".toList, "pqrstuvwxyzABCDEFGHIJKLMNOPQRSTUVWXY".toList),
  ("op".toList, "opqrstuvwxyzABCDEFGHIJKLMNOPQRSTUVWXY".toList),
  ("no".toList, "nopqrstuvwxyzABCDEFGHIJKLMNOPQRSTUVWXY".toList),
  ("mn".toList, "mnopqrstuvwxyzABCDEFGHIJKLMNOPQRSTUVWXY".toList),
  ("lm".toList, "lmnopqrstuvwxyzABCDEFGHIJKLMNOPQRSTUVWXY".toList),
  ("kl".toList, "klmnopqrstuvwxyzABCDEFGHIJKLMNOPQRSTUVWXY".toList),
  ("jk".toList, "jklmnopqrstuvwxyzABCDEFGHIJKLMNOPQRSTUVWXY".toList),
  ("ij".toList, "ijklmnopqrstuvwxyzABCDEFGHIJKLMNOPQRSTUVWXY".toList),
  ("hi".toList, "hijklmnopqrstuvwxyzABCDEFGHIJKLMNOPQRSTUVWXY".toList),
  ("gh".toList, "ghijklmnopqrstuvwxyzABCDEFGHIJKLMNOPQRSTUVWXY".toList),
  ("fg".toList, "fghijklmnopqrstuvwxyzABCDEFGHIJKLMNOPQRSTUVWXY".toList),
  ("ef".toList, "efghijklmnopqrstuvwxyzABCDEFGHIJKLMNOPQRSTUVWXY".toList),
  ("de".toList, "defghijklmnopqrstuvwxyzABCDEFGHIJKLMNOPQRSTUVWXY".toList),
  ("bd".toList, "bdefghijklmnopqrstuvwxyzABCDEFGHIJKLMNOPQRSTUVWXY".toList),
  ("ab".toList, "abdefghijklmnopqrstuvwxyzABCDEFGHIJKLMNOPQRSTUVWXY".toList),
  ("ca".toList, "cabdefghijklmnopqrstuvwxyzABCDEFGHIJKLMNOPQRSTUVWX".toList),
  ("bc".toList, "bcabdefghijklmnopqrstuvwxyzABCDEFGHIJKLMNOPQRSTUVW".toList)]

theorem splitStep_chars {keep : Char → Bool} {a : Char} {acc : List Str}
    (hacc : ∀ w ∈ acc, ∀ c ∈ w, keep c = true) :
    ∀ w ∈ splitStep keep a acc, ∀ c ∈ w, keep c = true := by
  intro w hw c hc
  unfold splitStep at hw
  split at hw
  · split at hw
    · simp only [List.mem_singleton] at hw
      subst hw
      simp only [List.mem_singleton] at hc
      subst hc
      assumption
    · rename_i v vs _
      rcases List.mem_cons.mp hw with h | h
      · subst h
        rcases List.mem_cons.mp hc with h | h
        · subst h; assumption
        · exact hacc _ (List.mem_cons_self _ _) _ h
      · exact hacc _ (List.mem_cons_of_mem _ h) _ hc
  · rcases List.mem_cons.mp hw with h | h
    · subst h; cases hc
    · exact hacc _ h _ hc

theorem foldr_splitStep_chars {keep : Char → Bool} :
    ∀ (s : Str), ∀ w ∈ s.foldr (splitStep keep) [], ∀ c ∈ w, keep c = true := by
  intro s
  induction s with
  | nil => simp
  | cons a s ih => exact splitStep_chars ih

theorem runsBy_sound {keep : Char → Bool} (s : Str) :
    ∀ w ∈ runsBy keep s, w ≠ [] ∧ ∀ c ∈ w, keep c = true := by
  intro w hw
  have h := List.mem_filter.mp hw
  exact ⟨by simpa using h.2, foldr_splitStep_chars s w h.1⟩

theorem foldr_splitStep_word {keep : Char → Bool} :
    ∀ (t : Str), (∀ c ∈ t, keep c = true) →
      ∀ (w : Str) (ws : List Str),
        t.foldr (splitStep keep) (w :: ws) = (t ++ w) :: ws := by
  intro t
  induction t with
  | nil => intro _ w ws; rfl
  | cons a t ih =>
      intro h w ws
      have ha : keep a = true := h a (List.mem_cons_self _ _)
      simp only [List.foldr_cons, ih (fun c hc => h c (List.mem_cons_of_mem _ hc))]
      simp [splitStep, ha]

theorem foldr_splitStep_word_nil {keep : Char → Bool} :
    ∀ (t : Str), t ≠ [] → (∀ c ∈ t, keep c = true) →
      t.foldr (splitStep keep) [] = [t] := by
  intro t
  induction t with
  | nil => intro h; exact absurd rfl h
  | cons a t ih =>
      intro _ h
      have ha : keep a = true := h a (List.mem_cons_self _ _)
      cases t with
      | nil => simp [splitStep, ha]
      | cons b t' =>
          rw [List.foldr_cons, ih (by simp) (fun c hc => h c (List.mem_cons_of_mem _ hc))]
          simp [splitStep, ha]

theorem splitWS_joinSpace (ts : List Str)
    (h : ∀ t ∈ ts, t ≠ [] ∧ ∀ c ∈ t, isSpacePy c = false) :
    splitWS (joinSpace ts) = ts := by
  induction ts with
  | nil => rfl
  | cons t ts ih =>
      have ht := h t (List.mem_cons_self _ _)
      have htk : ∀ c ∈ t, (!isSpacePy c) = true := fun c hc => by
        simp [ht.2 c hc]
      cases ts with
      | nil =>
          show runsBy _ t = [t]
          unfold runsBy
          rw [foldr_splitStep_word_nil t ht.1 htk]
          simp [ht.1]
      | cons t₂ ts' =>
          have ih' := ih (fun u hu => h u (List.mem_cons_of_mem _ hu))
          show runsBy _ (t ++ ' ' :: joinSpace (t₂ :: ts')) = t :: t₂ :: ts'
          unfold runsBy
          rw [List.foldr_append]
          simp only [List.foldr_cons]
          rw [show splitStep (fun c => !isSpacePy c) ' '
                ((joinSpace (t₂ :: ts')).foldr (splitStep fun c => !isSpacePy c) []) =
              [] :: (joinSpace (t₂ :: ts')).foldr (splitStep fun c => !isSpacePy c) [] by
            simp [splitStep, isSpacePy]]
          rw [foldr_splitStep_word t htk]
          unfold splitWS runsBy at ih'
          simp only [List.append_nil, List.filter_cons]
          simp only [decide_not] at ih' ⊢
          rw [if_pos (by simp [ht.1]), ih']

theorem splitWS_cons_space {c : Char} (s : Str) (hc : isSpacePy c = true) :
    splitWS (c :: s) = splitWS s := by
  unfold splitWS runsBy
  simp [splitStep, hc]

theorem splitWS_dropWhile (s : Str) :
    splitWS (s.dropWhile isSpacePy) = splitWS s := by
  induction s with
  | nil => rfl
  | cons a s ih =>
      by_cases ha : isSpacePy a
      · rw [List.dropWhile_cons_of_pos ha, ih, splitWS_cons_space s ha]
      · rw [List.dropWhile_cons_of_neg ha]

theorem foldr_splitStep_spaces (v : Str) (hv : ∀ c ∈ v, isSpacePy c = true) :
    v.foldr (splitStep fun c => !isSpacePy c) [] = List.replicate v.length [] := by
  induction v with
  | nil => rfl
  | cons a v ih =>
      rw [List.foldr_cons, ih (fun c hc => hv c (List.mem_cons_of_mem _ hc))]
      simp [splitStep, hv a (List.mem_cons_self _ _), List.replicate_succ]

theorem foldr_splitStep_replicate (u : Str) :
    ∀ m, ∃ k, u.foldr (splitStep fun c => !isSpacePy c) (List.replicate m []) =
      u.foldr (splitStep fun c => !isSpacePy c) [] ++ List.replicate k [] := by
  induction u with
  | nil => intro m; exact ⟨m, by simp⟩
  | cons a u ih =>
      intro m
      obtain ⟨k, hk⟩ := ih m
      simp only [List.foldr_cons, hk]
      by_cases ha : isSpacePy a
      · exact ⟨k, by simp [splitStep, ha]⟩
      · cases hB : u.foldr (splitStep fun c => !isSpacePy c) [] with
        | nil =>
            cases k with
            | zero => exact ⟨0, by simp [splitStep, ha]⟩
            | succ k' =>
                refine ⟨k', ?_⟩
                simp [splitStep, ha, List.replicate_succ]
        | cons w ws => exact ⟨k, by simp [splitStep, ha]⟩

theorem splitWS_append_spaces (u v : Str) (hv : ∀ c ∈ v, isSpacePy c = true) :
    splitWS (u ++ v) = splitWS u := by
  unfold splitWS runsBy
  rw [List.foldr_append, foldr_splitStep_spaces v hv]
  obtain ⟨k, hk⟩ := foldr_splitStep_replicate u v.length
  rw [hk, List.filter_append]
  simp

theorem splitWS_stripPy (s : Str) : splitWS (stripPy s) = splitWS s := by
  unfold stripPy
  rw [← splitWS_dropWhile s]
  set s₁ := s.dropWhile isSpacePy with hs₁
  have hsplit : s₁ = (s₁.reverse.dropWhile isSpacePy).reverse ++
      (s₁.reverse.takeWhile isSpacePy).reverse := by
    conv_lhs => rw [← List.reverse_reverse s₁]
    rw [← List.reverse_append, List.takeWhile_append_dropWhile]
  conv_rhs => rw [hsplit]
  rw [splitWS_append_spaces]
  intro c hc
  rw [List.mem_reverse] at hc
  exact List.mem_takeWhile_imp hc

theorem digitChar_isDigit : ∀ d, d < 10 → (Nat.digitChar d).isDigit = true := by decide

theorem digitChar_toNat : ∀ d, d < 10 → (Nat.digitChar d).toNat = 48 + d := by decide

theorem natToStr_ne_nil (n : Nat) : natToStr n ≠ [] := by
  rw [natToStr]
  split
  · simp
  · simp

theorem natToStr_digits : ∀ n, ∀ c ∈ natToStr n, c.isDigit = true := by
  intro n
  induction n using Nat.strong_induction_on with
  | _ n ih =>
      rw [natToStr]
      split
      · intro c hc
        rw [List.mem_singleton] at hc
        subst hc
        exact digitChar_isDigit n (by assumption)
      · intro c hc
        rcases List.mem_append.mp hc with h | h
        · exact ih (n / 10) (Nat.div_lt_self (by omega) (by omega)) c h
        · rw [List.mem_singleton] at h
          subst h
          exact digitChar_isDigit _ (Nat.mod_lt _ (by omega))

theorem parseNat_natToStr : ∀ n, parseNat (natToStr n) = n := by
  intro n
  induction n using Nat.strong_induction_on with
  | _ n ih =>
      rw [natToStr]
      split
      · simp only [parseNat, List.foldl_cons, List.foldl_nil]
        rw [digitChar_toNat n (by assumption)]
        omega
      · unfold parseNat
        rw [List.foldl_append]
        have h1 : (natToStr (n / 10)).foldl (fun a c => a * 10 + (c.toNat - 48)) 0 = n / 10 :=
          ih (n / 10) (Nat.div_lt_self (by omega) (by omega))
        rw [h1]
        simp only [List.foldl_cons, List.foldl_nil]
        rw [digitChar_toNat (n % 10) (Nat.mod_lt _ (by omega))]
        omega

theorem isDigit_ne_plus {c : Char} (h : c.isDigit = true) : ¬(c = '+') := by
  rintro rfl
  exact absurd h (by decide)

theorem isDigit_ne_minus {c : Char} (h : c.isDigit = true) : ¬(c = '-') := by
  rintro rfl
  exact absurd h (by decide)

theorem isDigit_not_space {c : Char} (h : c.isDigit = true) : isSpacePy c = false := by
  have h' : 48 ≤ c.toNat ∧ c.toNat ≤ 57 := by
    simp only [Char.isDigit, Bool.and_eq_true, decide_eq_true_eq] at h
    exact ⟨h.1, h.2⟩
  simp only [isSpacePy, Bool.or_eq_false_iff, beq_eq_false_iff_ne, ne_eq]
  refine ⟨⟨⟨⟨⟨?_, ?_⟩, ?_⟩, ?_⟩, ?_⟩, ?_⟩ <;>
    (rintro rfl; revert h'; decide)

theorem pyInt_natToStr (n : Nat) : pyInt (natToStr n) = some (n : Int) := by
  cases hc : natToStr n with
  | nil => exact absurd hc (natToStr_ne_nil n)
  | cons c rest =>
      have hcd : c.isDigit = true := natToStr_digits n c (hc ▸ List.mem_cons_self _ _)
      have hall : (c :: rest).all Char.isDigit = true := by
        rw [List.all_eq_true]
        intro x hx
        exact natToStr_digits n x (hc ▸ hx)
      show pyInt (c :: rest) = some (n : Int)
      rw [pyInt, if_neg (isDigit_ne_plus hcd), if_neg (isDigit_ne_minus hcd), if_pos hall,
        ← hc, parseNat_natToStr]

theorem isSpacePy_toLower {c : Char} (h : isSpacePy c = false) :
    isSpacePy c.toLower = false := by
  by_cases hc : c.toNat ≥ 65 ∧ c.toNat ≤ 90
  · have hofn : c = Char.ofNat c.toNat := (Char.ofNat_toNat c).symm
    have key : ∀ n, n < 91 → 65 ≤ n → isSpacePy (Char.toLower (Char.ofNat n)) = false := by
      decide
    rw [hofn]
    exact key c.toNat (by omega) hc.1
  · have heq : c.toLower = c := by
      simp only [Char.toLower]
      rw [if_neg hc]
    rw [heq]
    exact h

/-! ## Vocabulary invariant lemmas -/

theorem inv_empty : CoderInv emptyCoder :=
  ⟨rfl, rfl, rfl, List.nodup_nil⟩

theorem lookupW_isSome_iff {m : List (Str × Nat)} {w : Str} :
    (lookupW m w).isSome = true ↔ w ∈ m.map Prod.fst := by
  have hmap : ∀ (o : Option (Str × Nat)), (Option.map Prod.snd o).isSome = o.isSome := by
    intro o
    cases o <;> rfl
  unfold lookupW
  rw [hmap, List.find?_isSome]
  simp

theorem lookupW_eq_none_iff {m : List (Str × Nat)} {w : Str} :
    lookupW m w = none ↔ w ∉ m.map Prod.fst := by
  constructor
  · intro h hmem
    have := lookupW_isSome_iff.mpr hmem
    rw [h] at this
    cases this
  · intro h
    cases hl : lookupW m w with
    | none => rfl
    | some k =>
        exact absurd (lookupW_isSome_iff.mp (by rw [hl]; rfl)) h

theorem lookupW_mem {m : List (Str × Nat)} {w : Str} {k : Nat}
    (h : lookupW m w = some k) : (w, k) ∈ m := by
  unfold lookupW at h
  rw [Option.map_eq_some'] at h
  obtain ⟨p, hp, hk⟩ := h
  have hw : p.1 = w := by simpa using List.find?_some hp
  have := List.mem_of_find?_eq_some hp
  rwa [show p = (w, k) from Prod.ext hw hk] at this

theorem mem_lookupW {m : List (Str × Nat)} {w : Str} {k : Nat}
    (hnd : (m.map Prod.fst).Nodup) (h : (w, k) ∈ m) : lookupW m w = some k := by
  induction m with
  | nil => cases h
  | cons p rest ih =>
      rw [List.map_cons, List.nodup_cons] at hnd
      rcases List.mem_cons.mp h with h1 | h1
      · subst h1
        unfold lookupW
        rw [List.find?_cons_of_pos _ (by simp)]
        rfl
      · have hne : p.1 ≠ w := by
          intro he
          exact hnd.1 (he ▸ List.mem_map_of_mem Prod.fst h1)
        unfold lookupW
        rw [List.find?_cons_of_neg _ (by simpa using hne)]
        exact ih hnd.2 h1

theorem lookupW_append_of_some {m m₂ : List (Str × Nat)} {w : Str} {k : Nat}
    (h : lookupW m w = some k) : lookupW (m ++ m₂) w = some k := by
  induction m with
  | nil => simp [lookupW] at h
  | cons p rest ih =>
      unfold lookupW at h ⊢
      rw [List.cons_append]
      by_cases hp : p.1 = w
      · rw [List.find?_cons_of_pos _ (by simpa using hp)] at h ⊢
        exact h
      · rw [List.find?_cons_of_neg _ (by simpa using hp)] at h ⊢
        exact ih h

theorem lookupW_append_single_ne {m : List (Str × Nat)} {w w' : Str} {i : Nat}
    (h : w ≠ w') : lookupW (m ++ [(w, i)]) w' = lookupW m w' := by
  induction m with
  | nil =>
      unfold lookupW
      rw [List.nil_append, List.find?_cons_of_neg _ (by simpa using h), List.find?_nil]
  | cons p rest ih =>
      unfold lookupW at ih ⊢
      rw [List.cons_append]
      by_cases hp : p.1 = w'
      · rw [List.find?_cons_of_pos _ (by simpa using hp),
          List.find?_cons_of_pos _ (by simpa using hp)]
      · rw [List.find?_cons_of_neg _ (by simpa using hp),
          List.find?_cons_of_neg _ (by simpa using hp)]
        exact ih

theorem lookupW_append_single_self {m : List (Str × Nat)} {w : Str} {i : Nat}
    (h : lookupW m w = none) : lookupW (m ++ [(w, i)]) w = some i := by
  induction m with
  | nil =>
      unfold lookupW
      rw [List.nil_append, List.find?_cons_of_pos _ (by simp)]
      rfl
  | cons p rest ih =>
      unfold lookupW at h ih ⊢
      rw [List.cons_append]
      by_cases hp : p.1 = w
      · rw [List.find?_cons_of_pos _ (by simpa using hp)] at h
        cases h
      · rw [List.find?_cons_of_neg _ (by simpa using hp)] at h ⊢
        exact ih h

theorem lookupId_swap {m : List (Str × Nat)} (hids : (m.map Prod.snd).Nodup)
    {w : Str} {k : Nat} (hm : (w, k) ∈ m) :
    lookupId (m.map (fun p => (p.2, p.1))) (k : Int) = some w := by
  induction m with
  | nil => cases hm
  | cons p rest ih =>
      rw [List.map_cons, List.nodup_cons] at hids
      rw [List.map_cons]
      by_cases hp : p.2 = k
      · unfold lookupId
        rw [List.find?_cons_of_pos _ (by simpa using congrArg (Int.ofNat) hp)]
        have hw : p.1 = w := by
          rcases List.mem_cons.mp hm with h1 | h1
          · exact congrArg Prod.fst h1.symm
          · exact absurd (hp ▸ List.mem_map_of_mem Prod.snd h1) hids.1
        simp [hw]
      · unfold lookupId
        rw [List.find?_cons_of_neg _ (by simpa using fun he => hp (by exact_mod_cast he))]
        have h1 : (w, k) ∈ rest := by
          rcases List.mem_cons.mp hm with h1 | h1
          · exact absurd (congrArg Prod.snd h1.symm) hp
          · exact h1
        exact ih hids.2 h1

/-- Appending a fresh token at the next free id preserves the invariant. -/
theorem inv_append_fresh {c : DictionaryCoder} {w : Str} (h : CoderInv c)
    (hw : lookupW c.word_to_id w = none) :
    CoderInv ⟨c.word_to_id ++ [(w, c.next_id)], c.id_to_word ++ [(c.next_id, w)],
      c.next_id + 1⟩ := by
  obtain ⟨hr, hs, hn, hd⟩ := h
  have hwk : w ∉ c.word_to_id.map Prod.fst := lookupW_eq_none_iff.mp hw
  refine ⟨?_, ?_, ?_, ?_⟩
  · simp only [List.map_append, List.length_append, List.map_cons, List.map_nil,
      List.length_cons, List.length_nil, Nat.zero_add]
    rw [hr, hn, ← List.range_succ]
  · simp only [List.map_append, List.map_cons, List.map_nil]
    rw [hs]
  · simp [hn]
  · simp only [List.map_append, List.map_cons, List.map_nil]
    rw [List.nodup_append]
    exact ⟨hd, List.nodup_singleton _, by simpa using hwk⟩

theorem inv_addWord {c : DictionaryCoder} {w : Str} (h : CoderInv c) :
    CoderInv (addWord c w) := by
  unfold addWord
  split
  · exact h
  · rename_i hl
    exact inv_append_fresh h (Option.not_isSome_iff_eq_none.mp hl)

theorem inv_load_rows : ∀ (rows : List Str) (c : DictionaryCoder), CoderInv c →
    CoderInv (rows.foldl
      (fun c row =>
        match parseRow row with
        | none => c
        | some w => addWord c w) c) := by
  intro rows
  induction rows with
  | nil => intro c h; exact h
  | cons row rows ih =>
      intro c h
      rw [List.foldl_cons]
      apply ih
      cases parseRow row with
      | none => exact h
      | some w => exact inv_addWord h

theorem inv_load {lines : List Str} {c c' : DictionaryCoder} (h : CoderInv c)
    (hl : load_dictionary c lines = some c') : CoderInv c' := by
  unfold load_dictionary at hl
  match lines, hl with
  | a :: b :: rows, hl =>
      rw [Option.some_inj] at hl
      subst hl
      exact inv_load_rows rows c h

theorem grown_refl (c0 : DictionaryCoder) : Grown c0 c0 := Or.inl rfl

theorem inv_grown {c0 c : DictionaryCoder} (h : CoderInv c0) (hg : Grown c0 c) :
    CoderInv c := by
  rcases hg with rfl | ⟨hu, rfl⟩
  · exact h
  · exact inv_append_fresh h hu

theorem encodeWord_eq_known {c : DictionaryCoder} {w : Str} {k : Nat}
    (h : lookupW c.word_to_id (lowerStr w) = some k) :
    encodeWord c w = (c, natToStr k) := by
  unfold encodeWord
  rw [h]

theorem encodeWord_eq_unk {c : DictionaryCoder} {w : Str} {u : Nat}
    (h : lookupW c.word_to_id (lowerStr w) = none)
    (h2 : lookupW c.word_to_id unkStr = some u) :
    encodeWord c w = (c, natToStr u) := by
  unfold encodeWord
  rw [h, h2]

theorem encodeWord_eq_fresh {c : DictionaryCoder} {w : Str}
    (h : lookupW c.word_to_id (lowerStr w) = none)
    (h2 : lookupW c.word_to_id unkStr = none) :
    encodeWord c w = (addUnk c, natToStr c.next_id) := by
  unfold encodeWord
  rw [h, h2]
  rfl

theorem lookupW_addUnk_unk (c : DictionaryCoder)
    (h : lookupW c.word_to_id unkStr = none) :
    lookupW (addUnk c).word_to_id unkStr = some c.next_id :=
  lookupW_append_single_self h

theorem encodeWord_state (c : DictionaryCoder) (w : Str) :
    (encodeWord c w).1 = c ∨
      ((encodeWord c w).1 = addUnk c ∧ lookupW c.word_to_id unkStr = none) := by
  cases h1 : lookupW c.word_to_id (lowerStr w) with
  | some k =>
      rw [encodeWord_eq_known h1]
      exact Or.inl rfl
  | none =>
      cases h2 : lookupW c.word_to_id unkStr with
      | some u =>
          rw [encodeWord_eq_unk h1 h2]
          exact Or.inl rfl
      | none =>
          rw [encodeWord_eq_fresh h1 h2]
          exact Or.inr ⟨rfl, rfl⟩

theorem grown_encodeWord {c0 s : DictionaryCoder} {w : Str} (h : Grown c0 s) :
    Grown c0 (encodeWord s w).1 := by
  rcases encodeWord_state s w with hst | ⟨hst, hu⟩
  · rw [hst]; exact h
  · rcases h with rfl | ⟨hu0, rfl⟩
    · exact Or.inr ⟨hu, hst⟩
    · rw [lookupW_addUnk_unk _ hu0] at hu
      cases hu

theorem encodeWord_mono (s : DictionaryCoder) (w : Str) :
    ∀ p ∈ s.word_to_id, p ∈ (encodeWord s w).1.word_to_id := by
  rcases encodeWord_state s w with hst | ⟨hst, _⟩
  · rw [hst]; exact fun p hp => hp
  · rw [hst]; exact fun p hp => List.mem_append_left _ hp

theorem tokenSpec_mono {c0 cf cf' : DictionaryCoder} {w out : Str}
    (h : TokenSpec c0 cf w out)
    (hsub : ∀ p ∈ cf.word_to_id, p ∈ cf'.word_to_id) :
    TokenSpec c0 cf' w out := by
  rcases h with h | ⟨h1, u, h2, h3⟩
  · exact Or.inl h
  · exact Or.inr ⟨h1, u, h2, hsub _ h3⟩

theorem encodeWord_spec {c0 s : DictionaryCoder} (w : Str) (h : Grown c0 s) :
    TokenSpec c0 (encodeWord s w).1 w (encodeWord s w).2 := by
  unfold TokenSpec
  cases h0 : lookupW c0.word_to_id (lowerStr w) with
  | some k =>
      have hs : lookupW s.word_to_id (lowerStr w) = some k := by
        rcases h with rfl | ⟨_, rfl⟩
        · exact h0
        · exact lookupW_append_of_some h0
      rw [encodeWord_eq_known hs]
      exact Or.inl ⟨k, rfl, rfl⟩
  | none =>
      refine Or.inr ⟨rfl, ?_⟩
      rcases h with rfl | ⟨hu0, rfl⟩
      · cases h2 : lookupW s.word_to_id unkStr with
        | some u =>
            rw [encodeWord_eq_unk h0 h2]
            exact ⟨u, rfl, lookupW_mem h2⟩
        | none =>
            rw [encodeWord_eq_fresh h0 h2]
            exact ⟨s.next_id, rfl, List.mem_append_right _ (List.mem_singleton.mpr rfl)⟩
      · by_cases hwu : lowerStr w = unkStr
        · have hs := lookupW_addUnk_unk c0 hu0
          rw [← hwu] at hs
          rw [encodeWord_eq_known hs]
          exact ⟨c0.next_id, rfl, List.mem_append_right _ (List.mem_singleton.mpr rfl)⟩
        · have hs : lookupW (addUnk c0).word_to_id (lowerStr w) = none := by
            show lookupW (c0.word_to_id ++ [(unkStr, c0.next_id)]) (lowerStr w) = none
            rw [lookupW_append_single_ne (Ne.symm hwu)]
            exact h0
          rw [encodeWord_eq_unk hs (lookupW_addUnk_unk c0 hu0)]
          exact ⟨c0.next_id, rfl, List.mem_append_right _ (List.mem_singleton.mpr rfl)⟩

theorem encodeWords_cons (s : DictionaryCoder) (w : Str) (ws : List Str) :
    encodeWords s (w :: ws) =
      ((encodeWords (encodeWord s w).1 ws).1,
        (encodeWord s w).2 :: (encodeWords (encodeWord s w).1 ws).2) := rfl

theorem encodeWords_spec {c0 : DictionaryCoder} :
    ∀ (ws : List Str) (s : DictionaryCoder), Grown c0 s →
      Grown c0 (encodeWords s ws).1 ∧
      (∀ p ∈ s.word_to_id, p ∈ (encodeWords s ws).1.word_to_id) ∧
      List.Forall₂ (TokenSpec c0 (encodeWords s ws).1) ws (encodeWords s ws).2 := by
  intro ws
  induction ws with
  | nil => intro s h; exact ⟨h, fun p hp => hp, List.Forall₂.nil⟩
  | cons w ws ih =>
      intro s h
      obtain ⟨hg, hm, hf⟩ := ih (encodeWord s w).1 (grown_encodeWord h)
      have hspec := encodeWord_spec w h
      rw [encodeWords_cons]
      exact ⟨hg, fun p hp => hm _ (encodeWord_mono s w p hp),
        List.Forall₂.cons (tokenSpec_mono hspec hm) hf⟩

theorem encodeLine_eq (s : DictionaryCoder) (line : Str) :
    encodeLine s line =
      ((encodeWords s (splitWS (stripPy line))).1,
        joinSpace (encodeWords s (splitWS (stripPy line))).2) := rfl

theorem encode_cons (s : DictionaryCoder) (line : Str) (ls : List Str) :
    encode s (line :: ls) =
      ((encode (encodeLine s line).1 ls).1,
        (encodeLine s line).2 :: (encode (encodeLine s line).1 ls).2) := rfl

theorem encode_spec {c0 : DictionaryCoder} :
    ∀ (ls : List Str) (s : DictionaryCoder), Grown c0 s →
      Grown c0 (encode s ls).1 ∧
      (∀ p ∈ s.word_to_id, p ∈ (encode s ls).1.word_to_id) ∧
      List.Forall₂ (fun line out => ∃ outs, out = joinSpace outs ∧
          List.Forall₂ (TokenSpec c0 (encode s ls).1) (splitWS (stripPy line)) outs)
        ls (encode s ls).2 := by
  intro ls
  induction ls with
  | nil => intro s h; exact ⟨h, fun p hp => hp, List.Forall₂.nil⟩
  | cons line ls ih =>
      intro s h
      obtain ⟨hg1, hm1, hf1⟩ := encodeWords_spec (splitWS (stripPy line)) s h
      obtain ⟨hg, hm, hf⟩ := ih (encodeLine s line).1 (by rw [encodeLine_eq]; exact hg1)
      rw [encode_cons]
      refine ⟨hg, ?_, ?_⟩
      · intro p hp
        apply hm
        rw [encodeLine_eq]
        exact hm1 p hp
      · refine List.Forall₂.cons
          ⟨(encodeWords s (splitWS (stripPy line))).2, rfl, ?_⟩ hf
        refine List.Forall₂.imp (fun a b hab => tokenSpec_mono hab ?_) hf1
        intro p hp
        apply hm
        rw [encodeLine_eq]
        exact hp

theorem inv_encode {c : DictionaryCoder} (h : CoderInv c) (ls : List Str) :
    CoderInv (encode c ls).1 :=
  inv_grown h (encode_spec ls c (grown_refl c)).1

theorem inv_encodeRuns {c : DictionaryCoder} (h : CoderInv c) (runs : List (List Str)) :
    CoderInv (encodeRuns c runs) := by
  induction runs generalizing c with
  | nil => exact h
  | cons run runs ih => exact ih (inv_encode h run)

theorem inv_ids_nodup {c : DictionaryCoder} (h : CoderInv c) :
    (c.word_to_id.map Prod.snd).Nodup := by
  rw [h.1]
  exact List.nodup_range _

theorem inv_roundtrip {c : DictionaryCoder} (h : CoderInv c) {t : Str} {k : Nat}
    (ht : lookupW c.word_to_id t = some k) :
    lookupId c.id_to_word (k : Int) = some t := by
  rw [h.2.1]
  exact lookupId_swap (inv_ids_nodup h) (lookupW_mem ht)

theorem mem_injective_of_ids_nodup {m : List (Str × Nat)}
    (hids : (m.map Prod.snd).Nodup) :
    ∀ {t t' : Str} {k : Nat}, (t, k) ∈ m → (t', k) ∈ m → t = t' := by
  induction m with
  | nil => intro t t' k h; cases h
  | cons p rest ih =>
      intro t t' k h1 h2
      rw [List.map_cons, List.nodup_cons] at hids
      rcases List.mem_cons.mp h1 with h1 | h1 <;> rcases List.mem_cons.mp h2 with h2 | h2
      · exact (congrArg Prod.fst h1).trans (congrArg Prod.fst h2).symm
      · exfalso
        apply hids.1
        have : p.2 = k := congrArg Prod.snd h1.symm
        exact this ▸ List.mem_map_of_mem Prod.snd h2
      · exfalso
        apply hids.1
        have : p.2 = k := congrArg Prod.snd h2.symm
        exact this ▸ List.mem_map_of_mem Prod.snd h1
      · exact ih hids.2 h1 h2

theorem coderInv_injective {c : DictionaryCoder} (h : CoderInv c) {t t' : Str} {k : Nat}
    (h1 : lookupW c.word_to_id t = some k) (h2 : lookupW c.word_to_id t' = some k) :
    t = t' :=
  mem_injective_of_ids_nodup (inv_ids_nodup h) (lookupW_mem h1) (lookupW_mem h2)

theorem decodeToken_eq_of_parse {m : List (Nat × Str)} {t : Str} {i : Int} {w : Str}
    (hp : pyInt t = some i) (hl : lookupId m i = some w) : decodeToken m t = w := by
  unfold decodeToken
  rw [hp]
  show (match lookupId m i with | some w => w | none => unkStr) = w
  rw [hl]

theorem decodeToken_natToStr {c1 : DictionaryCoder} (hInv : CoderInv c1) {w : Str} {k : Nat}
    (hm : (w, k) ∈ c1.word_to_id) : decodeToken c1.id_to_word (natToStr k) = w := by
  have hl : lookupId c1.id_to_word (k : Int) = some w := by
    rw [hInv.2.1]
    exact lookupId_swap (inv_ids_nodup hInv) hm
  exact decodeToken_eq_of_parse (pyInt_natToStr k) hl

theorem splitWS_join_natToStr (outs : List Str)
    (h : ∀ o ∈ outs, ∃ k, o = natToStr k) :
    splitWS (joinSpace outs) = outs := by
  apply splitWS_joinSpace
  intro t ht
  obtain ⟨k, rfl⟩ := h t ht
  exact ⟨natToStr_ne_nil k, fun c hc => isDigit_not_space (natToStr_digits k c hc)⟩

theorem decodeLine_join (c1 : DictionaryCoder) (outs : List Str)
    (h : ∀ o ∈ outs, ∃ k, o = natToStr k) :
    decodeLine c1 (joinSpace outs) = joinSpace (outs.map (decodeToken c1.id_to_word)) := by
  unfold decodeLine
  rw [splitWS_stripPy, splitWS_join_natToStr outs h]

theorem load_rows_eq_filterMap : ∀ (rows : List Str) (c : DictionaryCoder),
    rows.foldl
        (fun c row =>
          match parseRow row with
          | none => c
          | some w => addWord c w) c
      = (rows.filterMap parseRow).foldl addWord c := by
  intro rows
  induction rows with
  | nil => intro c; rfl
  | cons row rows ih =>
      intro c
      cases h : parseRow row with
      | none =>
          rw [List.foldl_cons, h, List.filterMap_cons, h]
          exact ih c
      | some w =>
          rw [List.foldl_cons, h, List.filterMap_cons, h, List.foldl_cons]
          exact ih (addWord c w)

theorem addAll_word_to_id : ∀ (ws : List Str) (c : DictionaryCoder),
    (ws.foldl addWord c).word_to_id =
      c.word_to_id ++
        (List.enumFrom c.next_id (dedupFirst (c.word_to_id.map Prod.fst) ws)).map
          (fun p => (p.2, p.1)) := by
  intro ws
  induction ws with
  | nil => intro c; simp [dedupFirst]
  | cons w ws ih =>
      intro c
      rw [List.foldl_cons]
      by_cases hmem : w ∈ c.word_to_id.map Prod.fst
      · have haw : addWord c w = c := by
          unfold addWord
          rw [if_pos (lookupW_isSome_iff.mpr hmem)]
        rw [haw, ih c, dedupFirst, if_pos hmem]
      · have hlk : lookupW c.word_to_id w = none := lookupW_eq_none_iff.mpr hmem
        have haw : addWord c w =
            ⟨c.word_to_id ++ [(w, c.next_id)], c.id_to_word ++ [(c.next_id, w)],
              c.next_id + 1⟩ := by
          unfold addWord
          rw [if_neg (by rw [hlk]; simp)]
        rw [haw, ih, dedupFirst, if_neg hmem]
        simp only [List.map_append, List.map_cons, List.map_nil, List.enumFrom_cons,
          List.append_assoc, List.cons_append, List.nil_append]

theorem decodeToken_eq_of_noparse {m : List (Nat × Str)} {t : Str}
    (h : pyInt t = none) : decodeToken m t = unkStr := by
  unfold decodeToken
  rw [h]

theorem decodeToken_eq_of_miss {m : List (Nat × Str)} {t : Str} {i : Int}
    (hp : pyInt t = some i) (hl : lookupId m i = none) : decodeToken m t = unkStr := by
  unfold decodeToken
  rw [hp]
  show (match lookupId m i with | some w => w | none => unkStr) = unkStr
  rw [hl]

theorem forall₂_mem_right {α β : Type} {R : α → β → Prop} {l1 : List α} {l2 : List β}
    (h : List.Forall₂ R l1 l2) : ∀ b ∈ l2, ∃ a ∈ l1, R a b := by
  induction h with
  | nil => simp
  | cons hab h ih =>
      intro b hb
      rcases List.mem_cons.mp hb with hb | hb
      · subst hb
        exact ⟨_, List.mem_cons_self _ _, hab⟩
      · obtain ⟨a, ha, hR⟩ := ih b hb
        exact ⟨a, List.mem_cons_of_mem _ ha, hR⟩

theorem tokenSpec_numerals {c0 c1 : DictionaryCoder} {toks outs : List Str}
    (h : List.Forall₂ (TokenSpec c0 c1) toks outs) :
    ∀ o ∈ outs, ∃ k, o = natToStr k := by
  intro o ho
  obtain ⟨tok, _, hR⟩ := forall₂_mem_right h o ho
  rcases hR with ⟨k, _, rfl⟩ | ⟨_, u, rfl, _⟩
  · exact ⟨k, rfl⟩
  · exact ⟨u, rfl⟩

theorem splitWS_shape (s : Str) :
    ∀ t ∈ splitWS s, t ≠ [] ∧ ∀ ch ∈ t, isSpacePy ch = false := by
  intro t ht
  have h := runsBy_sound s t ht
  refine ⟨h.1, fun ch hch => ?_⟩
  have := h.2 ch hch
  simpa using this

/-- C2: after a dictionary load and any number of encode runs, the two
mappings are mutually inverse, the token→id map is injective, and ids
are `0, 1, 2, …` in insertion (first-encounter) order. -/
theorem C2_vocab_bijective (dictLines : List Str) (c0 : DictionaryCoder)
    (h : load_dictionary emptyCoder dictLines = some c0) (runs : List (List Str)) :
    (∀ t k, lookupW (encodeRuns c0 runs).word_to_id t = some k →
        lookupId (encodeRuns c0 runs).id_to_word (k : Int) = some t) ∧
    (∀ t t' k, lookupW (encodeRuns c0 runs).word_to_id t = some k →
        lookupW (encodeRuns c0 runs).word_to_id t' = some k → t = t') ∧
    (encodeRuns c0 runs).word_to_id.map Prod.snd =
      List.range (encodeRuns c0 runs).word_to_id.length := by
  have hInv : CoderInv (encodeRuns c0 runs) := inv_encodeRuns (inv_load inv_empty h) runs
  exact ⟨fun t k hk => inv_roundtrip hInv hk,
    fun t t' k h1 h2 => coderInv_injective hInv h1 h2, hInv.1⟩

theorem C2_vocab_bijective_witness :
    load_dictionary emptyCoder
        ["Rank | Word".toList, "----".toList, "9 | dog |".toList, "3 | cat |".toList]
      = some ⟨[("dog".toList, 0), ("cat".toList, 1)],
          [(0, "dog".toList), (1, "cat".toList)], 2⟩ ∧
    ((∀ t k, lookupW (encodeRuns ⟨[("dog".toList, 0), ("cat".toList, 1)],
          [(0, "dog".toList), (1, "cat".toList)], 2⟩ [["Dog runs".toList]]).word_to_id t
            = some k →
        lookupId (encodeRuns ⟨[("dog".toList, 0), ("cat".toList, 1)],
          [(0, "dog".toList), (1, "cat".toList)], 2⟩ [["Dog runs".toList]]).id_to_word
            (k : Int) = some t) ∧
    (∀ t t' k, lookupW (encodeRuns ⟨[("dog".toList, 0), ("cat".toList, 1)],
          [(0, "dog".toList), (1, "cat".toList)], 2⟩ [["Dog runs".toList]]).word_to_id t
            = some k →
        lookupW (encodeRuns ⟨[("dog".toList, 0), ("cat".toList, 1)],
          [(0, "dog".toList), (1, "cat".toList)], 2⟩ [["Dog runs".toList]]).word_to_id t'
            = some k → t = t') ∧
    (encodeRuns ⟨[("dog".toList, 0), ("cat".toList, 1)],
        [(0, "dog".toList), (1, "cat".toList)], 2⟩
        [["Dog runs".toList]]).word_to_id.map Prod.snd =
      List.range (encodeRuns ⟨[("dog".toList, 0), ("cat".toList, 1)],
        [(0, "dog".toList), (1, "cat".toList)], 2⟩
        [["Dog runs".toList]]).word_to_id.length) :=
  ⟨rfl, C2_vocab_bijective
    ["Rank | Word".toList, "----".toList, "9 | dog |".toList, "3 | cat |".toList]
    ⟨[("dog".toList, 0), ("cat".toList, 1)], [(0, "dog".toList), (1, "cat".toList)], 2⟩
    (by rfl) [["Dog runs".toList]]⟩

/-- C4: loading a dictionary file assigns sequential ids `0, 1, 2, …` to
the distinct row tokens in file order (first occurrence wins), ignoring
the rank column entirely. -/
theorem C4_load_file_order (h1 h2 : Str) (rows : List Str) (c : DictionaryCoder)
    (h : load_dictionary emptyCoder (h1 :: h2 :: rows) = some c) :
    c.word_to_id =
      (List.enum (dedupFirst [] (rows.filterMap parseRow))).map (fun p => (p.2, p.1)) := by
  unfold load_dictionary at h
  rw [Option.some_inj] at h
  subst h
  rw [load_rows_eq_filterMap, addAll_word_to_id]
  rfl

theorem C4_load_file_order_witness :
    load_dictionary emptyCoder
        ["Rank | Word".toList, "----".toList, "9 | dog |".toList, "3 | cat |".toList,
          "7 | dog |".toList]
      = some ⟨[("dog".toList, 0), ("cat".toList, 1)],
          [(0, "dog".toList), (1, "cat".toList)], 2⟩ ∧
    (⟨[("dog".toList, 0), ("cat".toList, 1)],
        [(0, "dog".toList), (1, "cat".toList)], 2⟩ : DictionaryCoder).word_to_id =
      (List.enum (dedupFirst []
          (["9 | dog |".toList, "3 | cat |".toList, "7 | dog |".toList].filterMap
            parseRow))).map (fun p => (p.2, p.1)) :=
  ⟨rfl, C4_load_file_order "Rank | Word".toList "----".toList
    ["9 | dog |".toList, "3 | cat |".toList, "7 | dog |".toList]
    ⟨[("dog".toList, 0), ("cat".toList, 1)], [(0, "dog".toList), (1, "cat".toList)], 2⟩
    (by rfl)⟩

/-- C5: an encode run never changes an existing mapping; the only
possible growth is the single pair `('unk', next_id)` appended when
`'unk'` was unmapped, and every previously mapped token keeps its id. -/
theorem C5_encode_frame (c : DictionaryCoder) (ls : List Str) :
    ((encode c ls).1 = c ∨
      (lookupW c.word_to_id unkStr = none ∧
        (encode c ls).1.word_to_id = c.word_to_id ++ [(unkStr, c.next_id)] ∧
        (encode c ls).1.id_to_word = c.id_to_word ++ [(c.next_id, unkStr)] ∧
        (encode c ls).1.next_id = c.next_id + 1)) ∧
    (∀ w k, lookupW c.word_to_id w = some k →
      lookupW (encode c ls).1.word_to_id w = some k) := by
  obtain ⟨hg, hm, hforall⟩ := encode_spec ls c (grown_refl c)
  constructor
  · rcases hg with hh | ⟨hu, hh⟩
    · exact Or.inl hh
    · exact Or.inr ⟨hu, by rw [hh]; rfl, by rw [hh]; rfl, by rw [hh]; rfl⟩
  · intro w k hk
    rcases hg with hh | ⟨hu, hh⟩
    · rw [hh]; exact hk
    · rw [hh]; exact lookupW_append_of_some hk

/-- C3: decode is total and structure-preserving: one output line per
input line, one decoded token per whitespace token; unparsable or
unmapped tokens become `'unk'`, mapped ids become their word. -/
theorem C3_decode_total (c : DictionaryCoder) (lines : List Str) :
    (decode c lines).length = lines.length ∧
    List.Forall₂ (fun line out =>
        ∃ ts, out = joinSpace ts ∧ ts.length = (splitWS (stripPy line)).length ∧
          List.Forall₂ (fun tok o =>
              (pyInt tok = none → o = unkStr) ∧
              (∀ i, pyInt tok = some i → lookupId c.id_to_word i = none → o = unkStr) ∧
              (∀ i w, pyInt tok = some i → lookupId c.id_to_word i = some w → o = w))
            (splitWS (stripPy line)) ts)
      lines (decode c lines) := by
  constructor
  · simp [decode]
  · unfold decode
    rw [List.forall₂_map_right_iff, List.forall₂_same]
    intro line _
    refine ⟨(splitWS (stripPy line)).map (decodeToken c.id_to_word), rfl, by simp, ?_⟩
    rw [List.forall₂_map_right_iff, List.forall₂_same]
    intro tok _
    refine ⟨fun hp => decodeToken_eq_of_noparse hp,
      fun i hp hl => decodeToken_eq_of_miss hp hl,
      fun i w hp hl => decodeToken_eq_of_parse hp hl⟩

/-- C1: encode with a loaded dictionary, persist and reload the grown
vocabulary, then decode: every line decodes to as many tokens as the
case-folded original, tokens present in the loaded dictionary round-trip
to their case-folded form, and absent tokens decode to `'unk'`. -/
theorem C1_encode_decode_roundtrip (dictLines textLines : List Str)
    (c0 : DictionaryCoder) (h : load_dictionary emptyCoder dictLines = some c0) :
    List.Forall₂ (fun orig decLine =>
        (splitWS decLine).length = ((splitWS (stripPy orig)).map lowerStr).length ∧
        List.Forall₂ (fun tok dtok =>
            ((lookupW c0.word_to_id tok).isSome = true → dtok = tok) ∧
            (lookupW c0.word_to_id tok = none → dtok = unkStr))
          ((splitWS (stripPy orig)).map lowerStr) (splitWS decLine))
      textLines
      (decode (reload (encode c0 textLines).1) (encode c0 textLines).2) := by
  have hInv0 : CoderInv c0 := inv_load inv_empty h
  obtain ⟨hg, hm, hf⟩ := encode_spec textLines c0 (grown_refl c0)
  have hInv1 : CoderInv (encode c0 textLines).1 := inv_grown hInv0 hg
  have hdec : decode (reload (encode c0 textLines).1) (encode c0 textLines).2
      = (encode c0 textLines).2.map (decodeLine (encode c0 textLines).1) := rfl
  rw [hdec, List.forall₂_map_right_iff]
  refine List.Forall₂.imp ?_ hf
  intro line out hP
  obtain ⟨outs, rfl, htoks⟩ := hP
  have houts := tokenSpec_numerals htoks
  rw [decodeLine_join _ outs houts]
  have hdts : List.Forall₂ (fun tok dtok =>
      ((lookupW c0.word_to_id (lowerStr tok)).isSome = true ∧ dtok = lowerStr tok) ∨
        (lookupW c0.word_to_id (lowerStr tok) = none ∧ dtok = unkStr))
      (splitWS (stripPy line))
      (outs.map (decodeToken (encode c0 textLines).1.id_to_word)) := by
    rw [List.forall₂_map_right_iff]
    refine List.Forall₂.imp ?_ htoks
    intro tok o hts
    rcases hts with ⟨k, hk, rfl⟩ | ⟨hk, u, rfl, humem⟩
    · exact Or.inl ⟨by rw [hk]; rfl,
        decodeToken_natToStr hInv1 (hm _ (lookupW_mem hk))⟩
    · exact Or.inr ⟨hk, decodeToken_natToStr hInv1 humem⟩
  have hshape : ∀ d ∈ outs.map (decodeToken (encode c0 textLines).1.id_to_word),
      d ≠ [] ∧ ∀ ch ∈ d, isSpacePy ch = false := by
    intro d hd
    obtain ⟨tok, htokmem, hrel⟩ := forall₂_mem_right hdts d hd
    have hts := splitWS_shape (stripPy line) tok htokmem
    rcases hrel with ⟨_, rfl⟩ | ⟨_, rfl⟩
    · constructor
      · intro he
        exact hts.1 (by simpa [lowerStr] using he)
      · intro ch hch
        obtain ⟨a, ha, rfl⟩ := List.mem_map.mp hch
        exact isSpacePy_toLower (hts.2 a ha)
    · exact ⟨by simp [unkStr], by decide⟩
  rw [splitWS_joinSpace _ hshape]
  constructor
  · simp only [List.length_map]
    exact (List.Forall₂.length_eq htoks).symm
  · rw [List.forall₂_map_left_iff]
    refine List.Forall₂.imp ?_ hdts
    intro tok dtok hrel
    rcases hrel with ⟨hsome, rfl⟩ | ⟨hnone, rfl⟩
    · exact ⟨fun _ => rfl, fun hn => (by rw [hn] at hsome; cases hsome)⟩
    · exact ⟨fun hs => (by rw [hnone] at hs; cases hs), fun _ => rfl⟩

theorem C1_encode_decode_roundtrip_witness :
    load_dictionary emptyCoder
        ["Rank | Word".toList, "----".toList, "9 | dog |".toList, "3 | cat |".toList]
      = some ⟨[("dog".toList, 0), ("cat".toList, 1)],
          [(0, "dog".toList), (1, "cat".toList)], 2⟩ ∧
    List.Forall₂ (fun orig decLine =>
        (splitWS decLine).length = ((splitWS (stripPy orig)).map lowerStr).length ∧
        List.Forall₂ (fun tok dtok =>
            ((lookupW [("dog".toList, 0), ("cat".toList, 1)] tok).isSome = true →
                dtok = tok) ∧
            (lookupW [("dog".toList, 0), ("cat".toList, 1)] tok = none → dtok = unkStr))
          ((splitWS (stripPy orig)).map lowerStr) (splitWS decLine))
      ["Dog runs".toList]
      (decode
        (reload (encode ⟨[("dog".toList, 0), ("cat".toList, 1)],
          [(0, "dog".toList), (1, "cat".toList)], 2⟩ ["Dog runs".toList]).1)
        (encode ⟨[("dog".toList, 0), ("cat".toList, 1)],
          [(0, "dog".toList), (1, "cat".toList)], 2⟩ ["Dog runs".toList]).2) :=
  ⟨rfl, C1_encode_decode_roundtrip
    ["Rank | Word".toList, "----".toList, "9 | dog |".toList, "3 | cat |".toList]
    ["Dog runs".toList]
    ⟨[("dog".toList, 0), ("cat".toList, 1)], [(0, "dog".toList), (1, "cat".toList)], 2⟩
    (by rfl)⟩

/-! ## Edit-distance lemmas -/

theorem levR_nil (ys : Str) : levR [] ys = ys.length := by
  rw [levR]

theorem levR_nil_right (xs : Str) : levR xs [] = xs.length := by
  cases xs with
  | nil => rw [levR]
  | cons x xs => rw [levR]; rfl

theorem levR_cons_cons (x y : Char) (xs ys : Str) :
    levR (x :: xs) (y :: ys) =
      if x = y then levR xs ys
      else 1 + min (levR xs (y :: ys)) (min (levR (x :: xs) ys) (levR xs ys)) := by
  rw [levR]

/-- Adding or removing one leading character on either side changes the
distance by at most one. -/
theorem levR_lipschitz : ∀ (N : Nat) (xs ys : Str), xs.length + ys.length ≤ N →
    ∀ c : Char,
      levR (c :: xs) ys ≤ levR xs ys + 1 ∧
      levR xs ys ≤ levR (c :: xs) ys + 1 ∧
      levR xs (c :: ys) ≤ levR xs ys + 1 ∧
      levR xs ys ≤ levR xs (c :: ys) + 1 := by
  intro N
  induction N with
  | zero =>
      intro xs ys hlen c
      have hx : xs = [] := List.length_eq_zero.mp (by omega)
      have hy : ys = [] := List.length_eq_zero.mp (by omega)
      subst hx
      subst hy
      refine ⟨?_, ?_, ?_, ?_⟩ <;> simp [levR_nil, levR_nil_right]
  | succ N ih =>
      intro xs ys hlen c
      refine ⟨?_, ?_, ?_, ?_⟩
      · cases ys with
        | nil => simp [levR_nil_right]
        | cons d ys' =>
            rw [levR_cons_cons]
            by_cases hcd : c = d
            · rw [if_pos hcd]
              exact (ih xs ys' (by simp only [List.length_cons] at hlen; omega) d).2.2.2
            · rw [if_neg hcd]
              have hle : min (levR xs (d :: ys'))
                  (min (levR (c :: xs) ys') (levR xs ys')) ≤ levR xs (d :: ys') :=
                min_le_left _ _
              omega
      · cases ys with
        | nil =>
            simp only [levR_nil_right, List.length_cons]
            omega
        | cons d ys' =>
            rw [levR_cons_cons]
            by_cases hcd : c = d
            · rw [if_pos hcd]
              exact (ih xs ys' (by simp only [List.length_cons] at hlen; omega) d).2.2.1
            · rw [if_neg hcd]
              have h1 := (ih xs ys' (by simp only [List.length_cons] at hlen; omega) d).2.2.1
              have h2 := (ih xs ys' (by simp only [List.length_cons] at hlen; omega) c).2.1
              omega
      · cases xs with
        | nil => simp [levR_nil]
        | cons d xs' =>
            rw [levR_cons_cons]
            by_cases hdc : d = c
            · rw [if_pos hdc]
              exact (ih xs' ys (by simp only [List.length_cons] at hlen; omega) d).2.1
            · rw [if_neg hdc]
              have hle : min (levR xs' (c :: ys))
                  (min (levR (d :: xs') ys) (levR xs' ys)) ≤ levR (d :: xs') ys :=
                le_trans (min_le_right _ _) (min_le_left _ _)
              omega
      · cases xs with
        | nil =>
            simp only [levR_nil, List.length_cons]
            omega
        | cons d xs' =>
            rw [levR_cons_cons d c xs' ys]
            by_cases hdc : d = c
            · rw [if_pos hdc]
              exact (ih xs' ys (by simp only [List.length_cons] at hlen; omega) d).1
            · rw [if_neg hdc]
              have hA1 := (ih xs' ys (by simp only [List.length_cons] at hlen; omega) d).1
              have hB2 := (ih xs' ys (by simp only [List.length_cons] at hlen; omega) c).2.2.2
              omega

theorem levR_symm_aux : ∀ (N : Nat) (xs ys : Str), xs.length + ys.length ≤ N →
    levR xs ys = levR ys xs := by
  intro N
  induction N with
  | zero =>
      intro xs ys hlen
      have hx : xs = [] := List.length_eq_zero.mp (by omega)
      have hy : ys = [] := List.length_eq_zero.mp (by omega)
      subst hx
      subst hy
      rfl
  | succ N ih =>
      intro xs ys hlen
      cases xs with
      | nil => rw [levR_nil, levR_nil_right]
      | cons d xs' =>
          cases ys with
          | nil => rw [levR_nil, levR_nil_right]
          | cons e ys' =>
              rw [levR_cons_cons, levR_cons_cons]
              have h1 := ih xs' (e :: ys')
                (by simp only [List.length_cons] at hlen ⊢; omega)
              have h2 := ih (d :: xs') ys'
                (by simp only [List.length_cons] at hlen ⊢; omega)
              have h3 := ih xs' ys' (by simp only [List.length_cons] at hlen ⊢; omega)
              by_cases hde : d = e
              · rw [if_pos hde, if_pos hde.symm]
                exact h3
              · rw [if_neg hde, if_neg (fun he => hde he.symm)]
                rw [h1, h2, h3]
                omega

theorem levR_symm (xs ys : Str) : levR xs ys = levR ys xs :=
  levR_symm_aux (xs.length + ys.length) xs ys le_rfl

theorem levR_self : ∀ xs : Str, levR xs xs = 0 := by
  intro xs
  induction xs with
  | nil => simp [levR_nil]
  | cons x xs ih => rw [levR_cons_cons, if_pos rfl, ih]

theorem levD_symm (a b : Str) : levD a b = levD b a :=
  levR_symm a.reverse b.reverse

theorem levD_nil_right (a : Str) : levD a [] = a.length := by
  unfold levD
  rw [List.reverse_nil, levR_nil_right, List.length_reverse]

theorem levD_nil_left (b : Str) : levD [] b = b.length := by
  unfold levD
  rw [List.reverse_nil, levR_nil, List.length_reverse]

theorem editScript_nil_left : ∀ ys : Str, EditScript [] ys ys.length := by
  intro ys
  induction ys with
  | nil => exact .nil
  | cons y ys ih => exact .ins y ih

theorem editScript_nil_right : ∀ xs : Str, EditScript xs [] xs.length := by
  intro xs
  induction xs with
  | nil => exact .nil
  | cons x xs ih => exact .del x ih

theorem levR_achievable : ∀ (N : Nat) (xs ys : Str), xs.length + ys.length ≤ N →
    EditScript xs ys (levR xs ys) := by
  intro N
  induction N with
  | zero =>
      intro xs ys hlen
      have hx : xs = [] := List.length_eq_zero.mp (by omega)
      have hy : ys = [] := List.length_eq_zero.mp (by omega)
      subst hx
      subst hy
      rw [levR_nil]
      exact .nil
  | succ N ih =>
      intro xs ys hlen
      cases xs with
      | nil =>
          rw [levR_nil]
          exact editScript_nil_left ys
      | cons d xs' =>
          cases ys with
          | nil =>
              rw [levR_nil_right]
              exact editScript_nil_right _
          | cons e ys' =>
              rw [levR_cons_cons]
              by_cases hde : d = e
              · rw [if_pos hde]
                subst hde
                exact .keep d (ih xs' ys' (by simp only [List.length_cons] at hlen; omega))
              · rw [if_neg hde]
                rcases min_choice (levR xs' (e :: ys'))
                    (min (levR (d :: xs') ys') (levR xs' ys')) with hm | hm
                · rw [hm, Nat.add_comm]
                  exact .del d (ih xs' (e :: ys')
                    (by simp only [List.length_cons] at hlen ⊢; omega))
                · rw [hm]
                  rcases min_choice (levR (d :: xs') ys') (levR xs' ys') with hm2 | hm2
                  · rw [hm2, Nat.add_comm]
                    exact .ins e (ih (d :: xs') ys'
                      (by simp only [List.length_cons] at hlen ⊢; omega))
                  · rw [hm2, Nat.add_comm]
                    exact .subst hde (ih xs' ys'
                      (by simp only [List.length_cons] at hlen; omega))

theorem levR_optimal : ∀ {xs ys : Str} {n : Nat}, EditScript xs ys n → levR xs ys ≤ n := by
  intro xs ys n h
  induction h with
  | nil => simp [levR_nil]
  | keep c h ih =>
      rw [levR_cons_cons, if_pos rfl]
      exact ih
  | subst hne h ih =>
      rename_i xs' ys' n' c d
      rw [levR_cons_cons, if_neg hne]
      have hle : min (levR xs' (d :: ys')) (min (levR (c :: xs') ys') (levR xs' ys'))
          ≤ levR xs' ys' :=
        le_trans (min_le_right (levR xs' (d :: ys'))
            (min (levR (c :: xs') ys') (levR xs' ys')))
          (min_le_right (levR (c :: xs') ys') (levR xs' ys'))
      omega
  | del c h ih =>
      rename_i xs' ys' n'
      have hA1 := (levR_lipschitz (xs'.length + ys'.length) xs' ys' le_rfl c).1
      omega
  | ins d h ih =>
      rename_i xs' ys' n'
      have hB1 := (levR_lipschitz (xs'.length + ys'.length) xs' ys' le_rfl d).2.2.1
      omega

theorem editScript_keep_snoc (c : Char) : ∀ {xs ys : Str} {n : Nat},
    EditScript xs ys n → EditScript (xs ++ [c]) (ys ++ [c]) n := by
  intro xs ys n h
  induction h with
  | nil => exact .keep c .nil
  | keep d h ih => exact .keep d ih
  | subst hne h ih => exact .subst hne ih
  | del d h ih => exact .del d ih
  | ins d h ih => exact .ins d ih

theorem editScript_subst_snoc {c d : Char} (hne : c ≠ d) : ∀ {xs ys : Str} {n : Nat},
    EditScript xs ys n → EditScript (xs ++ [c]) (ys ++ [d]) (n + 1) := by
  intro xs ys n h
  induction h with
  | nil => exact .subst hne .nil
  | keep e h ih => exact .keep e ih
  | subst hne' h ih => exact .subst hne' ih
  | del e h ih => exact .del e ih
  | ins e h ih => exact .ins e ih

theorem editScript_del_snoc (c : Char) : ∀ {xs ys : Str} {n : Nat},
    EditScript xs ys n → EditScript (xs ++ [c]) ys (n + 1) := by
  intro xs ys n h
  induction h with
  | nil => exact .del c .nil
  | keep e h ih => exact .keep e ih
  | subst hne' h ih => exact .subst hne' ih
  | del e h ih => exact .del e ih
  | ins e h ih => exact .ins e ih

theorem editScript_ins_snoc (d : Char) : ∀ {xs ys : Str} {n : Nat},
    EditScript xs ys n → EditScript xs (ys ++ [d]) (n + 1) := by
  intro xs ys n h
  induction h with
  | nil => exact .ins d .nil
  | keep e h ih => exact .keep e ih
  | subst hne' h ih => exact .subst hne' ih
  | del e h ih => exact .del e ih
  | ins e h ih => exact .ins e ih

theorem editScript_reverse : ∀ {xs ys : Str} {n : Nat},
    EditScript xs ys n → EditScript xs.reverse ys.reverse n := by
  intro xs ys n h
  induction h with
  | nil => exact .nil
  | keep c h ih =>
      rw [List.reverse_cons, List.reverse_cons]
      exact editScript_keep_snoc c ih
  | subst hne h ih =>
      rw [List.reverse_cons, List.reverse_cons]
      exact editScript_subst_snoc hne ih
  | del c h ih =>
      rw [List.reverse_cons]
      exact editScript_del_snoc c ih
  | ins d h ih =>
      rw [List.reverse_cons]
      exact editScript_ins_snoc d ih

theorem levD_snoc_min (u p : Str) (c d : Char) :
    levD (u ++ [c]) (p ++ [d]) =
      min (levD u (p ++ [d]) + 1)
        (min (levD (u ++ [c]) p + 1) (levD u p + if c = d then 0 else 1)) := by
  unfold levD
  simp only [List.reverse_append, List.reverse_cons, List.reverse_nil, List.nil_append,
    List.singleton_append]
  rw [levR_cons_cons]
  by_cases hcd : c = d
  · rw [if_pos hcd, if_pos hcd]
    have h1 := (levR_lipschitz (u.reverse.length + p.reverse.length)
      u.reverse p.reverse le_rfl d).2.2.2
    have h2 := (levR_lipschitz (u.reverse.length + p.reverse.length)
      u.reverse p.reverse le_rfl c).2.1
    omega
  · rw [if_neg hcd, if_neg hcd]
    omega

theorem rowAux_spec (c : Char) : ∀ (w : Str) (u p : Str),
    rowAux c w (levD u p :: mapPrefixes (fun q => levD u (p ++ q)) w) (levD (u ++ [c]) p)
      = mapPrefixes (fun q => levD (u ++ [c]) (p ++ q)) w := by
  intro w
  induction w with
  | nil => intro u p; rfl
  | cons d w ih =>
      intro u p
      have hfun : (fun q => levD u (p ++ (d :: q))) = (fun q => levD u ((p ++ [d]) ++ q)) :=
        funext (fun q => by rw [List.append_cons p d q])
      have hfun2 : (fun q => levD (u ++ [c]) (p ++ (d :: q)))
          = (fun q => levD (u ++ [c]) ((p ++ [d]) ++ q)) :=
        funext (fun q => by rw [List.append_cons p d q])
      show rowAux c (d :: w)
          (levD u p :: levD u (p ++ [d]) :: mapPrefixes (fun q => levD u (p ++ (d :: q))) w)
          (levD (u ++ [c]) p)
        = levD (u ++ [c]) (p ++ [d])
            :: mapPrefixes (fun q => levD (u ++ [c]) (p ++ (d :: q))) w
      rw [hfun, hfun2, rowAux]
      rw [← levD_snoc_min u p c d]
      rw [ih u (p ++ [d])]

theorem levFold_spec (s2 : Str) : ∀ (rest u : Str),
    levFold s2 (levD u [] :: mapPrefixes (fun q => levD u q) s2) u.length rest
      = levD (u ++ rest) [] :: mapPrefixes (fun q => levD (u ++ rest) q) s2 := by
  intro rest
  induction rest with
  | nil => intro u; rw [levFold, List.append_nil]
  | cons c rest ih =>
      intro u
      rw [levFold]
      have hcur : currentRow c s2 (levD u [] :: mapPrefixes (fun q => levD u q) s2) u.length
          = levD (u ++ [c]) [] :: mapPrefixes (fun q => levD (u ++ [c]) q) s2 := by
        unfold currentRow
        have hlen : u.length + 1 = levD (u ++ [c]) [] := by
          rw [levD_nil_right]
          simp
        have hrow := rowAux_spec c s2 u []
        simp only [List.append_nil, List.nil_append] at hrow
        rw [hlen, hrow]
      rw [hcur]
      have hih := ih (u ++ [c])
      simp only [List.length_append, List.length_cons, List.length_nil, List.append_assoc,
        List.singleton_append] at hih
      simpa using hih

theorem getLastD_mapPrefixes : ∀ (w : Str) (f : Str → Nat) (a : Nat),
    (f [] :: mapPrefixes f w).getLastD a = f w := by
  intro w
  induction w with
  | nil => intro f a; rfl
  | cons d w ih =>
      intro f a
      show (f [] :: f [d] :: mapPrefixes (fun q => f (d :: q)) w).getLastD a = f (d :: w)
      rw [List.getLastD_cons]
      exact ih (fun q => f (d :: q)) (f [])

theorem mapPrefixes_length_add : ∀ (w : Str) (n : Nat),
    mapPrefixes (fun q => q.length + n) w = List.range' (n + 1) w.length := by
  intro w
  induction w with
  | nil => intro n; rfl
  | cons d w ih =>
      intro n
      show (([d] : Str).length + n) :: mapPrefixes (fun q => (d :: q).length + n) w
        = List.range' (n + 1) (w.length + 1)
      have hfun : (fun q : Str => (d :: q).length + n) = (fun q : Str => q.length + (n + 1)) :=
        funext (fun q => by simp [List.length_cons]; omega)
      rw [hfun, ih (n + 1), List.range'_succ]
      simp [Nat.add_comm]

theorem initRow_eq (s2 : Str) :
    List.range (s2.length + 1) = levD [] [] :: mapPrefixes (fun q => levD [] q) s2 := by
  have hfun : (fun q : Str => levD [] q) = (fun q : Str => q.length + 0) :=
    funext (fun q => by rw [levD_nil_left]; omega)
  rw [hfun, mapPrefixes_length_add]
  rw [show levD [] [] = 0 by rw [levD_nil_left]; rfl]
  rw [List.range_eq_range']
  rw [List.range'_succ]

theorem levCore_eq_levD (s1 s2 : Str) : levCore s1 s2 = levD s1 s2 := by
  unfold levCore
  by_cases h2 : s2.length = 0
  · rw [if_pos h2]
    have : s2 = [] := List.length_eq_zero.mp h2
    subst this
    rw [levD_nil_right]
  · rw [if_neg h2, initRow_eq]
    have hfold := levFold_spec s2 s1 []
    simp only [List.nil_append, List.length_nil] at hfold
    rw [hfold, getLastD_mapPrefixes]

theorem levenshtein_eq_levD (s1 s2 : Str) : levenshtein_distance s1 s2 = levD s1 s2 := by
  unfold levenshtein_distance
  by_cases h : s1.length < s2.length
  · rw [if_pos h, levCore_eq_levD]
    exact levD_symm s2 s1
  · rw [if_neg h, levCore_eq_levD]

/-- C8: `levenshtein_distance` computes exactly the minimum number of
single-character insertions, deletions and substitutions transforming
`a` into `b` (the least cost of an `EditScript`); it is symmetric,
zero on equal strings, and `distance("", s) = length s`. -/
theorem C8_levenshtein_correct (a b s : Str) :
    IsLeast {n | EditScript a b n} (levenshtein_distance a b) ∧
    levenshtein_distance a b = levenshtein_distance b a ∧
    levenshtein_distance a a = 0 ∧
    levenshtein_distance [] s = s.length := by
  refine ⟨⟨?_, ?_⟩, ?_, ?_, ?_⟩
  · show EditScript a b (levenshtein_distance a b)
    rw [levenshtein_eq_levD]
    unfold levD
    have h := levR_achievable (a.reverse.length + b.reverse.length)
      a.reverse b.reverse le_rfl
    simpa using editScript_reverse h
  · intro n hn
    rw [levenshtein_eq_levD]
    exact levR_optimal (editScript_reverse hn)
  · rw [levenshtein_eq_levD, levenshtein_eq_levD]
    exact levD_symm a b
  · rw [levenshtein_eq_levD]
    unfold levD
    exact levR_self a.reverse
  · rw [levenshtein_eq_levD, levD_nil_left]

/-! ## Batch sorting lemmas -/

theorem process_batch_cons (base : Str) (rest : List Str) :
    process_batch (base :: rest) =
      (((base :: rest).map (fun l => (levenshtein_distance base l, l))).mergeSort
        (fun a b => decide (a.1 ≤ b.1))).map Prod.snd := rfl

theorem pairLE_trans : ∀ a b c : Nat × Str,
    decide (a.1 ≤ b.1) = true → decide (b.1 ≤ c.1) = true → decide (a.1 ≤ c.1) = true := by
  intro a b c hab hbc
  simp only [decide_eq_true_eq] at hab hbc ⊢
  omega

theorem pairLE_total : ∀ a b : Nat × Str,
    (decide (a.1 ≤ b.1) || decide (b.1 ≤ a.1)) = true := by
  intro a b
  simp only [Bool.or_eq_true, decide_eq_true_eq]
  omega

/-- C7: within every batch, `process_batch` orders the lines by
non-decreasing edit distance to the batch's first line, and lines of
equal distance keep their original relative order (the per-distance
subsequences of the batch are output unchanged). -/
theorem C7_batch_sort_stable (base : Str) (rest : List Str) :
    List.Pairwise (· ≤ ·)
      ((process_batch (base :: rest)).map (fun l => levenshtein_distance base l)) ∧
    ∀ d : Nat,
      (process_batch (base :: rest)).filter
          (fun l => decide (levenshtein_distance base l = d))
        = (base :: rest).filter (fun l => decide (levenshtein_distance base l = d)) := by
  have hperm := List.mergeSort_perm
    ((base :: rest).map (fun l => (levenshtein_distance base l, l)))
    (fun a b => decide (a.1 ≤ b.1))
  have hfst : ∀ p ∈ ((base :: rest).map
        (fun l => (levenshtein_distance base l, l))).mergeSort
      (fun a b => decide (a.1 ≤ b.1)), p.1 = levenshtein_distance base p.2 := by
    intro p hp
    have hmem := hperm.mem_iff.mp hp
    obtain ⟨l, _, rfl⟩ := List.mem_map.mp hmem
    rfl
  constructor
  · rw [process_batch_cons, List.map_map]
    have hsorted := @List.sorted_mergeSort _ (fun a b : Nat × Str => decide (a.1 ≤ b.1))
      pairLE_trans pairLE_total
      ((base :: rest).map (fun l => (levenshtein_distance base l, l)))
    have hmap : (((base :: rest).map (fun l => (levenshtein_distance base l, l))).mergeSort
          (fun a b => decide (a.1 ≤ b.1))).map
            ((fun l => levenshtein_distance base l) ∘ Prod.snd)
        = (((base :: rest).map (fun l => (levenshtein_distance base l, l))).mergeSort
          (fun a b => decide (a.1 ≤ b.1))).map Prod.fst := by
      apply List.map_congr_left
      intro p hp
      exact (hfst p hp).symm
    rw [hmap]
    refine List.Pairwise.map Prod.fst ?_ hsorted
    intro a b hab
    simpa using hab
  · intro d
    rw [process_batch_cons, List.filter_map]
    have h2 : (((base :: rest).map (fun l => (levenshtein_distance base l, l))).mergeSort
          (fun a b => decide (a.1 ≤ b.1))).filter
            ((fun l => decide (levenshtein_distance base l = d)) ∘ Prod.snd)
        = (((base :: rest).map (fun l => (levenshtein_distance base l, l))).mergeSort
          (fun a b => decide (a.1 ≤ b.1))).filter (fun p => decide (p.1 = d)) := by
      apply List.filter_congr
      intro p hp
      simp only [Function.comp_apply]
      rw [hfst p hp]
    rw [h2]
    have hstab : (((base :: rest).map (fun l => (levenshtein_distance base l, l))).mergeSort
          (fun a b => decide (a.1 ≤ b.1))).filter (fun p => decide (p.1 = d))
        = ((base :: rest).map (fun l => (levenshtein_distance base l, l))).filter
            (fun p => decide (p.1 = d)) := by
      have hsubl : List.Sublist
          (((base :: rest).map (fun l => (levenshtein_distance base l, l))).filter
            (fun p => decide (p.1 = d)))
          ((base :: rest).map (fun l => (levenshtein_distance base l, l))) :=
        List.filter_sublist _
      have hpw : List.Pairwise (fun a b : Nat × Str => decide (a.1 ≤ b.1) = true)
          (((base :: rest).map (fun l => (levenshtein_distance base l, l))).filter
            (fun p => decide (p.1 = d))) := by
        apply List.pairwise_of_forall_mem_list
        intro a ha b hb
        have ha' := (List.mem_filter.mp ha).2
        have hb' := (List.mem_filter.mp hb).2
        simp only [decide_eq_true_eq] at ha' hb' ⊢
        omega
      have hsub2 := List.sublist_mergeSort pairLE_trans pairLE_total hpw hsubl
      have hsub3 := hsub2.filter (fun p => decide (p.1 = d))
      rw [List.filter_eq_self.mpr (fun a ha => (List.mem_filter.mp ha).2)] at hsub3
      have hlen : ((((base :: rest).map (fun l => (levenshtein_distance base l, l))).filter
            (fun p => decide (p.1 = d)))).length
          = ((((base :: rest).map
              (fun l => (levenshtein_distance base l, l))).mergeSort
            (fun a b => decide (a.1 ≤ b.1))).filter (fun p => decide (p.1 = d))).length :=
        (List.Perm.length_eq (hperm.filter (fun p => decide (p.1 = d)))).symm
      exact (hsub3.eq_of_length hlen).symm
    rw [hstab, List.filter_map, List.map_map]
    have h3 : ((base :: rest).filter
          ((fun p : Nat × Str => decide (p.1 = d)) ∘ fun l =>
            (levenshtein_distance base l, l))).map
          (Prod.snd ∘ fun l => (levenshtein_distance base l, l))
        = ((base :: rest).filter
          ((fun p : Nat × Str => decide (p.1 = d)) ∘ fun l =>
            (levenshtein_distance base l, l))).map id := by
      apply List.map_congr_left
      intro l _
      rfl
    rw [h3, List.map_id]
    apply List.filter_congr
    intro l _
    rfl

theorem process_batch_perm (batch : List Str) : (process_batch batch).Perm batch := by
  cases batch with
  | nil => exact List.Perm.refl _
  | cons base rest =>
      rw [process_batch_cons]
      have h := (List.mergeSort_perm
        ((base :: rest).map (fun l => (levenshtein_distance base l, l)))
        (fun a b => decide (a.1 ≤ b.1))).map Prod.snd
      rw [List.map_map] at h
      have h2 : (Prod.snd ∘ fun l : Str => (levenshtein_distance base l, l)) = id :=
        funext (fun l => rfl)
      rw [h2, List.map_id] at h
      exact h

theorem rpAux_cons (B : Nat) (batch : List Str) (l : Str) (ls : List Str) :
    rpAux B batch (l :: ls) =
      if B ≤ (if stripPy (clean_line l) = [] then batch
              else batch ++ [stripPy (clean_line l)]).length then
        process_batch (if stripPy (clean_line l) = [] then batch
              else batch ++ [stripPy (clean_line l)]) ++ rpAux B [] ls
      else rpAux B (if stripPy (clean_line l) = [] then batch
              else batch ++ [stripPy (clean_line l)]) ls := rfl

theorem chunksAux_nil (B : Nat) (acc : List Str) :
    chunksAux B acc [] = if acc = [] then [] else [acc] := rfl

theorem chunksAux_cons (B : Nat) (acc : List Str) (l : Str) (ls : List Str) :
    chunksAux B acc (l :: ls) =
      if B ≤ (acc ++ [l]).length then (acc ++ [l]) :: chunksAux B [] ls
      else chunksAux B (acc ++ [l]) ls := rfl

theorem rpAux_eq_chunks (B : Nat) : ∀ (ls : List Str) (batch : List Str),
    batch.length < B →
    rpAux B batch ls =
      (chunksAux B batch
        ((ls.map (fun l => stripPy (clean_line l))).filter
          (fun l => decide (l ≠ [])))).flatMap process_batch := by
  intro ls
  induction ls with
  | nil =>
      intro batch hb
      rw [rpAux, List.map_nil, List.filter_nil, chunksAux_nil]
      by_cases hb0 : batch = []
      · subst hb0
        rfl
      · rw [if_neg hb0, List.flatMap_cons]
        simp
  | cons l ls ih =>
      intro batch hb
      rw [rpAux_cons, List.map_cons]
      by_cases hcl : stripPy (clean_line l) = []
      · rw [if_pos hcl, List.filter_cons_of_neg (by simp [hcl])]
        rw [if_neg (by omega)]
        exact ih batch hb
      · rw [if_neg hcl, List.filter_cons_of_pos (by simp [hcl]), chunksAux_cons]
        by_cases hflush : B ≤ (batch ++ [stripPy (clean_line l)]).length
        · rw [if_pos hflush, if_pos hflush, List.flatMap_cons]
          rw [ih [] (by simp only [List.length_nil]; omega)]
        · rw [if_neg hflush, if_neg hflush]
          exact ih (batch ++ [stripPy (clean_line l)]) (by omega)

theorem chunksAux_flatten (B : Nat) : ∀ (l acc : List Str),
    (chunksAux B acc l).flatten = acc ++ l := by
  intro l
  induction l with
  | nil =>
      intro acc
      rw [chunksAux_nil]
      by_cases hacc : acc = []
      · subst hacc; rfl
      · rw [if_neg hacc]
        simp
  | cons x xs ih =>
      intro acc
      rw [chunksAux_cons]
      by_cases hflush : B ≤ (acc ++ [x]).length
      · rw [if_pos hflush, List.flatten_cons, ih []]
        simp
      · rw [if_neg hflush, ih (acc ++ [x])]
        simp

theorem chunksAux_mem_bound (B : Nat) : ∀ (l acc : List Str), acc.length < B →
    ∀ c ∈ chunksAux B acc l, c.length ≤ B ∧ c ≠ [] := by
  intro l
  induction l with
  | nil =>
      intro acc hacc c hc
      rw [chunksAux_nil] at hc
      by_cases hacc0 : acc = []
      · rw [if_pos hacc0] at hc
        cases hc
      · rw [if_neg hacc0] at hc
        rw [List.mem_singleton] at hc
        subst hc
        exact ⟨Nat.le_of_lt hacc, hacc0⟩
  | cons x xs ih =>
      intro acc hacc c hc
      rw [chunksAux_cons] at hc
      by_cases hflush : B ≤ (acc ++ [x]).length
      · rw [if_pos hflush] at hc
        rcases List.mem_cons.mp hc with hc | hc
        · subst hc
          refine ⟨?_, by simp⟩
          simp only [List.length_append, List.length_cons, List.length_nil] at hflush ⊢
          omega
        · exact ih [] (by simp only [List.length_nil]; omega) c hc
      · rw [if_neg hflush] at hc
        exact ih (acc ++ [x]) (by omega) c hc

theorem chunksAux_dropLast_length (B : Nat) : ∀ (l acc : List Str), acc.length < B →
    ∀ c ∈ (chunksAux B acc l).dropLast, c.length = B := by
  intro l
  induction l with
  | nil =>
      intro acc hacc c hc
      rw [chunksAux_nil] at hc
      by_cases hacc0 : acc = []
      · rw [if_pos hacc0] at hc
        cases hc
      · rw [if_neg hacc0] at hc
        simp at hc
  | cons x xs ih =>
      intro acc hacc c hc
      rw [chunksAux_cons] at hc
      by_cases hflush : B ≤ (acc ++ [x]).length
      · rw [if_pos hflush] at hc
        cases hrest : chunksAux B [] xs with
        | nil =>
            rw [hrest] at hc
            simp at hc
        | cons r rs =>
            rw [hrest, List.dropLast_cons₂] at hc
            rcases List.mem_cons.mp hc with hc | hc
            · subst hc
              simp only [List.length_append, List.length_cons, List.length_nil]
                at hflush hacc ⊢
              omega
            · have := ih [] (by simp only [List.length_nil]; omega)
              rw [hrest] at this
              exact this c hc
      · rw [if_neg hflush] at hc
        exact ih (acc ++ [x]) (by omega) c hc

theorem flatMap_perm_flatten : ∀ (cs : List (List Str)),
    (∀ c ∈ cs, (process_batch c).Perm c) →
    (cs.flatMap process_batch).Perm cs.flatten := by
  intro cs
  induction cs with
  | nil => intro _; exact List.Perm.refl _
  | cons c cs ih =>
      intro h
      rw [List.flatMap_cons, List.flatten_cons]
      exact List.Perm.append (h c (List.mem_cons_self _ _))
        (ih (fun c hc => h c (List.mem_cons_of_mem _ hc)))

/-- C6: for a positive batch size B, the clusterer's output is exactly
the concatenation of the locally processed consecutive B-sized chunks of
the cleaned nonblank lines (the final chunk possibly smaller), each
batch a permutation of its chunk; the output line count equals the
cleaned input line count. -/
theorem C6_batch_structure (lines : List Str) (B : Nat) (hB : 0 < B) :
    read_and_process_in_batches lines B
        = (chunks B (cleanedLines lines)).flatMap process_batch ∧
    (chunks B (cleanedLines lines)).flatten = cleanedLines lines ∧
    (∀ c ∈ (chunks B (cleanedLines lines)).dropLast, c.length = B) ∧
    (∀ c ∈ chunks B (cleanedLines lines), c.length ≤ B ∧ c ≠ []) ∧
    (∀ c ∈ chunks B (cleanedLines lines), (process_batch c).Perm c) ∧
    (read_and_process_in_batches lines B).length = (cleanedLines lines).length := by
  have h1 : read_and_process_in_batches lines B
      = (chunks B (cleanedLines lines)).flatMap process_batch :=
    rpAux_eq_chunks B lines [] (by simpa using hB)
  have hflat : (chunks B (cleanedLines lines)).flatten = cleanedLines lines := by
    rw [chunks, chunksAux_flatten]
    rfl
  refine ⟨h1, hflat, ?_, ?_, ?_, ?_⟩
  · exact chunksAux_dropLast_length B (cleanedLines lines) [] (by simpa using hB)
  · exact chunksAux_mem_bound B (cleanedLines lines) [] (by simpa using hB)
  · intro c _
    exact process_batch_perm c
  · rw [h1]
    rw [List.Perm.length_eq (flatMap_perm_flatten (chunks B (cleanedLines lines))
      (fun c _ => process_batch_perm c))]
    rw [hflat]

theorem C6_batch_structure_witness :
    0 < 2 ∧
    (read_and_process_in_batches ["b".toList, "".toList, "a".toList] 2
        = (chunks 2 (cleanedLines ["b".toList, "".toList, "a".toList])).flatMap
            process_batch ∧
    (chunks 2 (cleanedLines ["b".toList, "".toList, "a".toList])).flatten
        = cleanedLines ["b".toList, "".toList, "a".toList] ∧
    (∀ c ∈ (chunks 2 (cleanedLines ["b".toList, "".toList, "a".toList])).dropLast,
        c.length = 2) ∧
    (∀ c ∈ chunks 2 (cleanedLines ["b".toList, "".toList, "a".toList]),
        c.length ≤ 2 ∧ c ≠ []) ∧
    (∀ c ∈ chunks 2 (cleanedLines ["b".toList, "".toList, "a".toList]),
        (process_batch c).Perm c) ∧
    (read_and_process_in_batches ["b".toList, "".toList, "a".toList] 2).length
        = (cleanedLines ["b".toList, "".toList, "a".toList]).length) :=
  ⟨by decide, C6_batch_structure ["b".toList, "".toList, "a".toList] 2 (by decide)⟩

/-! ## Word-frequency ranking lemmas -/

theorem strLE_total : ∀ a b : Str, (strLE a b || strLE b a) = true := by
  intro a
  induction a with
  | nil => intro b; simp [strLE]
  | cons x xs ih =>
      intro b
      cases b with
      | nil => simp [strLE]
      | cons y ys =>
          simp only [strLE, Bool.or_eq_true, Bool.and_eq_true, decide_eq_true_eq]
          rcases lt_trichotomy x y with h | h | h
          · exact Or.inl (Or.inl h)
          · subst h
            rcases Bool.or_eq_true .. |>.mp (ih ys) with h2 | h2
            · exact Or.inl (Or.inr ⟨rfl, h2⟩)
            · exact Or.inr (Or.inr ⟨rfl, h2⟩)
          · exact Or.inr (Or.inl h)

theorem strLE_trans : ∀ a b c : Str, strLE a b = true → strLE b c = true →
    strLE a c = true := by
  intro a
  induction a with
  | nil => intro b c _ _; simp [strLE]
  | cons x xs ih =>
      intro b c hab hbc
      cases b with
      | nil => simp [strLE] at hab
      | cons y ys =>
          cases c with
          | nil => simp [strLE] at hbc
          | cons z zs =>
              simp only [strLE, Bool.or_eq_true, Bool.and_eq_true,
                decide_eq_true_eq] at hab hbc ⊢
              rcases hab with hab | ⟨rfl, hab⟩
              · rcases hbc with hbc | ⟨rfl, _⟩
                · exact Or.inl (hab.trans hbc)
                · exact Or.inl hab
              · rcases hbc with hbc | ⟨rfl, hbc⟩
                · exact Or.inl hbc
                · exact Or.inr ⟨rfl, ih ys zs hab hbc⟩

theorem strLE_antisymm : ∀ a b : Str, strLE a b = true → strLE b a = true → a = b := by
  intro a
  induction a with
  | nil =>
      intro b _ hba
      cases b with
      | nil => rfl
      | cons y ys => simp [strLE] at hba
  | cons x xs ih =>
      intro b hab hba
      cases b with
      | nil => simp [strLE] at hab
      | cons y ys =>
          simp only [strLE, Bool.or_eq_true, Bool.and_eq_true,
            decide_eq_true_eq] at hab hba
          rcases hab with hab | ⟨rfl, hab⟩
          · rcases hba with hba | ⟨he, _⟩
            · exact absurd (hab.trans hba) (lt_irrefl x)
            · exact absurd (he ▸ hab) (lt_irrefl x)
          · rcases hba with hba | ⟨_, hba⟩
            · exact absurd hba (lt_irrefl x)
            · rw [ih ys hab hba]

theorem rankLE_iff (a b : Str × Nat) : rankLE a b = true ↔
    b.2 < a.2 ∨ (b.2 = a.2 ∧ (b.1.length < a.1.length ∨
      (b.1.length = a.1.length ∧ strLE a.1 b.1 = true))) := by
  simp [rankLE, Bool.or_eq_true, Bool.and_eq_true, decide_eq_true_eq]

theorem rankLE_trans : ∀ a b c : Str × Nat,
    rankLE a b = true → rankLE b c = true → rankLE a c = true := by
  intro a b c hab hbc
  rw [rankLE_iff] at hab hbc ⊢
  rcases hab with hab | ⟨he1, hab⟩ <;> rcases hbc with hbc | ⟨he2, hbc⟩
  · exact Or.inl (hbc.trans hab)
  · exact Or.inl (he2 ▸ hab)
  · exact Or.inl (he1 ▸ hbc)
  · refine Or.inr ⟨he2.trans he1, ?_⟩
    rcases hab with hab | ⟨hl1, hab⟩ <;> rcases hbc with hbc | ⟨hl2, hbc⟩
    · exact Or.inl (hbc.trans hab)
    · exact Or.inl (hl2 ▸ hab)
    · exact Or.inl (hl1 ▸ hbc)
    · exact Or.inr ⟨hl2.trans hl1, strLE_trans _ _ _ hab hbc⟩

theorem rankLE_total : ∀ a b : Str × Nat, (rankLE a b || rankLE b a) = true := by
  intro a b
  simp only [Bool.or_eq_true, rankLE_iff]
  rcases lt_trichotomy a.2 b.2 with h | h | h
  · exact Or.inr (Or.inl h)
  · rcases lt_trichotomy a.1.length b.1.length with h2 | h2 | h2
    · exact Or.inr (Or.inr ⟨h, Or.inl h2⟩)
    · rcases Bool.or_eq_true .. |>.mp (strLE_total a.1 b.1) with h3 | h3
      · exact Or.inl (Or.inr ⟨h.symm, Or.inr ⟨h2.symm, h3⟩⟩)
      · exact Or.inr (Or.inr ⟨h, Or.inr ⟨h2, h3⟩⟩)
    · exact Or.inl (Or.inr ⟨h.symm, Or.inl h2⟩)
  · exact Or.inl (Or.inl h)

theorem rankLE_antisymm : ∀ a b : Str × Nat,
    rankLE a b = true → rankLE b a = true → a = b := by
  intro a b hab hba
  rw [rankLE_iff] at hab hba
  rcases hab with hab | ⟨he1, hab⟩
  · rcases hba with hba | ⟨he2, _⟩
    · exact absurd (hab.trans hba) (lt_irrefl _)
    · exact absurd (he2 ▸ hab) (lt_irrefl _)
  · rcases hba with hba | ⟨he2, hba⟩
    · exact absurd (he1 ▸ hba) (lt_irrefl _)
    · rcases hab with hab | ⟨hl1, hab⟩
      · rcases hba with hba | ⟨hl2, _⟩
        · exact absurd (hab.trans hba) (lt_irrefl _)
        · exact absurd (hl2 ▸ hab) (lt_irrefl _)
      · rcases hba with hba | ⟨hl2, hba⟩
        · exact absurd (hl1 ▸ hba) (lt_irrefl _)
        · have hw : a.1 = b.1 := strLE_antisymm a.1 b.1 hab hba
          have hc : a.2 = b.2 := he1.symm
          exact Prod.ext hw hc

/-- C9: the serialized word dictionary lists the counted tokens sorted
by the composite key (frequency desc, length desc, text asc); with
distinct tokens the order is strict (no remaining ties), the comparator
is total, and ranks are `1, 2, 3, …` in that order. -/
theorem C9_word_dict_ranking (m : List (Str × Nat)) (h : (m.map Prod.fst).Nodup) :
    save_word_frequency_dict m
        = ((m.mergeSort rankLE).enum).map (fun p => (p.1 + 1, p.2)) ∧
    (m.mergeSort rankLE).Perm m ∧
    List.Pairwise (fun a b => rankLE a b = true ∧ rankLE b a = false)
      (m.mergeSort rankLE) ∧
    (∀ a b : Str × Nat, (rankLE a b || rankLE b a) = true) ∧
    (save_word_frequency_dict m).map Prod.fst = List.range' 1 m.length := by
  have hperm := List.mergeSort_perm m rankLE
  refine ⟨rfl, hperm, ?_, rankLE_total, ?_⟩
  · have hsorted := @List.sorted_mergeSort _ rankLE
      (fun a b c => rankLE_trans a b c) rankLE_total m
    have hnd : ((m.mergeSort rankLE).map Prod.fst).Nodup :=
      ((hperm.map Prod.fst).nodup_iff).mpr h
    have hpw : List.Pairwise (fun a b : Str × Nat => a.1 ≠ b.1) (m.mergeSort rankLE) :=
      (List.pairwise_map.mp hnd)
    refine (hsorted.and hpw).imp ?_
    intro a b hab
    refine ⟨hab.1, ?_⟩
    rw [Bool.eq_false_iff]
    intro hba
    exact hab.2 (congrArg Prod.fst (rankLE_antisymm a b hab.1 hba))
  · unfold save_word_frequency_dict
    rw [List.map_map]
    have hfun : ((Prod.fst : Nat × (Str × Nat) → Nat) ∘ fun p => (p.1 + 1, p.2))
        = (fun i => i + 1) ∘ (Prod.fst : Nat × (Str × Nat) → Nat) :=
      funext (fun p => rfl)
    rw [hfun, ← List.map_map, List.enum_map_fst]
    rw [List.range'_eq_map_range]
    rw [hperm.length_eq]
    apply List.map_congr_left
    intro i _
    omega

theorem C9_word_dict_ranking_witness :
    ((([("cat".toList, 1), ("dog".toList, 3)] : List (Str × Nat)).map Prod.fst).Nodup) ∧
    (save_word_frequency_dict [("cat".toList, 1), ("dog".toList, 3)]
        = ((([("cat".toList, 1), ("dog".toList, 3)] : List (Str × Nat)).mergeSort
            rankLE).enum).map (fun p => (p.1 + 1, p.2)) ∧
    (([("cat".toList, 1), ("dog".toList, 3)] : List (Str × Nat)).mergeSort rankLE).Perm
        [("cat".toList, 1), ("dog".toList, 3)] ∧
    List.Pairwise (fun a b => rankLE a b = true ∧ rankLE b a = false)
      (([("cat".toList, 1), ("dog".toList, 3)] : List (Str × Nat)).mergeSort rankLE) ∧
    (∀ a b : Str × Nat, (rankLE a b || rankLE b a) = true) ∧
    (save_word_frequency_dict [("cat".toList, 1), ("dog".toList, 3)]).map Prod.fst
        = List.range' 1 ([("cat".toList, 1), ("dog".toList, 3)] : List (Str × Nat)).length) :=
  ⟨by decide, C9_word_dict_ranking [("cat".toList, 1), ("dog".toList, 3)] (by decide)⟩

/-! ## Longest-substring table lemmas -/

theorem updateLongest_mem_src : ∀ (m : List (Str × Str)) (s : Str) {k v : Str},
    (k, v) ∈ updateLongest m s → (k, v) ∈ m ∨ (k = s.take 2 ∧ v = s) := by
  intro m s
  induction m with
  | nil =>
      intro k v h
      rw [updateLongest, List.mem_singleton] at h
      exact Or.inr ⟨congrArg Prod.fst h, congrArg Prod.snd h⟩
  | cons p rest ih =>
      intro k v h
      rw [updateLongest] at h
      by_cases hk : p.1 = s.take 2
      · rw [if_pos hk] at h
        by_cases hlen : p.2.length < s.length
        · rw [if_pos hlen] at h
          rcases List.mem_cons.mp h with h | h
          · exact Or.inr ⟨(congrArg Prod.fst h).trans hk, congrArg Prod.snd h⟩
          · exact Or.inl (List.mem_cons_of_mem _ h)
        · rw [if_neg hlen] at h
          exact Or.inl h
      · rw [if_neg hk] at h
        rcases List.mem_cons.mp h with h | h
        · exact Or.inl (h ▸ List.mem_cons_self _ _)
        · rcases ih h with h | h
          · exact Or.inl (List.mem_cons_of_mem _ h)
          · exact Or.inr h

theorem updateLongest_keys_sub : ∀ (m : List (Str × Str)) (s : Str) {x : Str},
    x ∈ (updateLongest m s).map Prod.fst → x ∈ m.map Prod.fst ∨ x = s.take 2 := by
  intro m s x hx
  obtain ⟨p, hp, rfl⟩ := List.mem_map.mp hx
  rcases @updateLongest_mem_src m s p.1 p.2 hp with h | h
  · exact Or.inl (List.mem_map_of_mem Prod.fst h)
  · exact Or.inr h.1

theorem updateLongest_nodup : ∀ (m : List (Str × Str)) (s : Str),
    (m.map Prod.fst).Nodup → ((updateLongest m s).map Prod.fst).Nodup := by
  intro m s
  induction m with
  | nil => intro _; simp [updateLongest]
  | cons p rest ih =>
      intro hnd
      rw [List.map_cons, List.nodup_cons] at hnd
      rw [updateLongest]
      by_cases hk : p.1 = s.take 2
      · rw [if_pos hk]
        by_cases hlen : p.2.length < s.length
        · rw [if_pos hlen]
          rw [List.map_cons, List.nodup_cons]
          exact hnd
        · rw [if_neg hlen]
          rw [List.map_cons, List.nodup_cons]
          exact hnd
      · rw [if_neg hk]
        rw [List.map_cons, List.nodup_cons]
        refine ⟨?_, ih hnd.2⟩
        intro hmem
        rcases updateLongest_keys_sub rest s hmem with h | h
        · exact hnd.1 h
        · exact hk h

theorem updateLongest_exists : ∀ (m : List (Str × Str)) (s : Str),
    ∃ v, (s.take 2, v) ∈ updateLongest m s ∧ s.length ≤ v.length := by
  intro m s
  induction m with
  | nil => exact ⟨s, by rw [updateLongest]; exact List.mem_singleton.mpr rfl, le_rfl⟩
  | cons p rest ih =>
      rw [updateLongest]
      by_cases hk : p.1 = s.take 2
      · rw [if_pos hk]
        by_cases hlen : p.2.length < s.length
        · rw [if_pos hlen]
          exact ⟨s, hk ▸ List.mem_cons_self _ _, le_rfl⟩
        · rw [if_neg hlen]
          exact ⟨p.2, hk ▸ List.mem_cons_self _ _, by omega⟩
      · rw [if_neg hk]
        obtain ⟨v, hv, hle⟩ := ih
        exact ⟨v, List.mem_cons_of_mem _ hv, hle⟩

theorem updateLongest_key_mono : ∀ (m : List (Str × Str)) (s : Str) {k v : Str},
    (k, v) ∈ m → ∃ v', (k, v') ∈ updateLongest m s ∧ v.length ≤ v'.length := by
  intro m s
  induction m with
  | nil => intro k v h; cases h
  | cons p rest ih =>
      intro k v h
      rw [updateLongest]
      by_cases hk : p.1 = s.take 2
      · rw [if_pos hk]
        by_cases hlen : p.2.length < s.length
        · rw [if_pos hlen]
          rcases List.mem_cons.mp h with h | h
          · refine ⟨s, ?_, ?_⟩
            · rw [show k = p.1 from congrArg Prod.fst h]
              exact List.mem_cons_self _ _
            · rw [show v = p.2 from congrArg Prod.snd h]
              omega
          · exact ⟨v, List.mem_cons_of_mem _ h, le_rfl⟩
        · rw [if_neg hlen]
          exact ⟨v, h, le_rfl⟩
      · rw [if_neg hk]
        rcases List.mem_cons.mp h with h | h
        · exact ⟨v, h ▸ List.mem_cons_self _ _, le_rfl⟩
        · obtain ⟨v', hv', hle⟩ := ih h
          exact ⟨v', List.mem_cons_of_mem _ hv', hle⟩

theorem updateLongest_preserve : ∀ (m : List (Str × Str)) (k v s : Str),
    (k, v) ∈ m → s.length ≤ v.length → (k, v) ∈ updateLongest m s := by
  intro m
  induction m with
  | nil => intro k v s h; cases h
  | cons p rest ih =>
      intro k v s h hle
      rw [updateLongest]
      by_cases hk : p.1 = s.take 2
      · rw [if_pos hk]
        by_cases hlen : p.2.length < s.length
        · rw [if_pos hlen]
          rcases List.mem_cons.mp h with h | h
          · exfalso
            have hvp : v.length = p.2.length := by
              rw [show v = p.2 from congrArg Prod.snd h]
            omega
          · exact List.mem_cons_of_mem _ h
        · rw [if_neg hlen]
          exact h
      · rw [if_neg hk]
        rcases List.mem_cons.mp h with h | h
        · exact h ▸ List.mem_cons_self _ _
        · exact List.mem_cons_of_mem _ (ih k v s h hle)

theorem nodupKeys_unique : ∀ (m : List (Str × Str)),
    (m.map Prod.fst).Nodup → ∀ {k a b : Str}, (k, a) ∈ m → (k, b) ∈ m → a = b := by
  intro m
  induction m with
  | nil => intro _ k a b h; cases h
  | cons p rest ih =>
      intro hnd k a b ha hb
      rw [List.map_cons, List.nodup_cons] at hnd
      rcases List.mem_cons.mp ha with ha | ha <;> rcases List.mem_cons.mp hb with hb | hb
      · exact (congrArg Prod.snd ha).trans (congrArg Prod.snd hb).symm
      · exfalso
        apply hnd.1
        rw [← show k = p.1 from congrArg Prod.fst ha]
        exact List.mem_map_of_mem Prod.fst hb
      · exfalso
        apply hnd.1
        rw [← show k = p.1 from congrArg Prod.fst hb]
        exact List.mem_map_of_mem Prod.fst ha
      · exact ih hnd.2 ha hb

theorem longestInv_update {m : List (Str × Str)} {P : List Str} (s : Str)
    (h : LongestInv m P) : LongestInv (updateLongest m s) (P ++ [s]) := by
  obtain ⟨hnd, hshape, hdom⟩ := h
  refine ⟨updateLongest_nodup m s hnd, ?_, ?_⟩
  · intro k v hv
    rcases updateLongest_mem_src m s hv with hv | ⟨rfl, rfl⟩
    · obtain ⟨h1, h2⟩ := hshape k v hv
      exact ⟨h1, List.mem_append_left _ h2⟩
    · exact ⟨rfl, List.mem_append_right _ (List.mem_singleton.mpr rfl)⟩
  · intro t ht
    rcases List.mem_append.mp ht with ht | ht
    · obtain ⟨v₀, hm₀, hle₀⟩ := hdom t ht
      obtain ⟨v₁, hm₁, hle₁⟩ := updateLongest_key_mono m s hm₀
      exact ⟨v₁, hm₁, by omega⟩
    · rw [List.mem_singleton] at ht
      rw [ht]
      exact updateLongest_exists m s

theorem longestInv_foldl : ∀ (ss : List Str) (m : List (Str × Str)) (P : List Str),
    LongestInv m P → LongestInv (ss.foldl updateLongest m) (P ++ ss) := by
  intro ss
  induction ss with
  | nil => intro m P h; simpa using h
  | cons s ss ih =>
      intro m P h
      rw [List.foldl_cons]
      have := ih (updateLongest m s) (P ++ [s]) (longestInv_update s h)
      simpa [List.append_assoc] using this

theorem longestInv_build (orders : List (List Str)) :
    LongestInv (build_enhanced_dict orders) orders.flatten := by
  suffices h : ∀ (os : List (List Str)) (m : List (Str × Str)) (P : List Str),
      LongestInv m P →
      LongestInv (os.foldl (fun m ord => ord.foldl updateLongest m) m) (P ++ os.flatten) by
    have := h orders [] [] ⟨List.nodup_nil, fun k v hv => absurd hv (List.not_mem_nil _),
      fun s hs => absurd hs (List.not_mem_nil _)⟩
    simpa using this
  intro os
  induction os with
  | nil => intro m P h; simpa using h
  | cons ord os ih =>
      intro m P h
      rw [List.foldl_cons]
      have := ih (ord.foldl updateLongest m) (P ++ ord) (longestInv_foldl ord m P h)
      simpa [List.append_assoc] using this

theorem forall₂_mem_left {α β : Type} {R : α → β → Prop} {l1 : List α} {l2 : List β}
    (h : List.Forall₂ R l1 l2) : ∀ a ∈ l1, ∃ b ∈ l2, R a b := by
  induction h with
  | nil => simp
  | cons hab h ih =>
      intro a ha
      rcases List.mem_cons.mp ha with ha | ha
      · subst ha
        exact ⟨_, List.mem_cons_self _ _, hab⟩
      · obtain ⟨b, hb, hR⟩ := ih a ha
        exact ⟨b, List.mem_cons_of_mem _ hb, hR⟩

/-- C10 (amended): for every enumeration of each scanned line's
substring set, the substring retained under a prefix key starts with
that key and has maximal length among all extracted substrings with
that key; and an update never displaces a stored substring of equal (or
greater) length, so a substring seen in a later step can only replace a
strictly shorter one.  Which equal-length substring of a single line is
retained depends on the enumeration order of the line's substring set,
which the source does not fix. -/
theorem C10_longest_per_key (lines : List Str) (max_lines : Nat)
    (orders : List (List Str))
    (h : List.Forall₂ EnumeratesSubs orders (scannedLines lines max_lines)) :
    (∀ k v, (k, v) ∈ build_enhanced_dict orders →
        v.take 2 = k ∧
        (∃ line ∈ scannedLines lines max_lines, v ∈ extract_substrings line 3 50) ∧
        (∀ line ∈ scannedLines lines max_lines, ∀ s ∈ extract_substrings line 3 50,
          s.take 2 = k → s.length ≤ v.length)) ∧
    (∀ (m : List (Str × Str)) (k v s : Str),
        (k, v) ∈ m → s.length ≤ v.length → (k, v) ∈ updateLongest m s) := by
  obtain ⟨hnd, hshape, hdom⟩ := longestInv_build orders
  refine ⟨?_, updateLongest_preserve⟩
  intro k v hv
  obtain ⟨hk, hvmem⟩ := hshape k v hv
  refine ⟨hk, ?_, ?_⟩
  · obtain ⟨ord, hord, hvord⟩ := List.mem_flatten.mp hvmem
    obtain ⟨line, hline, henum⟩ := forall₂_mem_left h ord hord
    exact ⟨line, hline, (henum v).mp hvord⟩
  · intro line hline s hs hkey
    obtain ⟨ord, hord, henum⟩ := forall₂_mem_right h line hline
    have hsord : s ∈ ord := (henum s).mpr hs
    have hsflat : s ∈ orders.flatten := List.mem_flatten.mpr ⟨ord, hord, hsord⟩
    obtain ⟨v₀, hm₀, hle₀⟩ := hdom s hsflat
    rw [hkey] at hm₀
    rw [nodupKeys_unique _ hnd hm₀ hv] at hle₀
    exact hle₀

theorem C10_longest_per_key_witness :
    List.Forall₂ EnumeratesSubs [["abc".toList]] (scannedLines ["abc".toList] 1000) ∧
    ((∀ k v, (k, v) ∈ build_enhanced_dict [["abc".toList]] →
        v.take 2 = k ∧
        (∃ line ∈ scannedLines ["abc".toList] 1000, v ∈ extract_substrings line 3 50) ∧
        (∀ line ∈ scannedLines ["abc".toList] 1000, ∀ s ∈ extract_substrings line 3 50,
          s.take 2 = k → s.length ≤ v.length)) ∧
    (∀ (m : List (Str × Str)) (k v s : Str),
        (k, v) ∈ m → s.length ≤ v.length → (k, v) ∈ updateLongest m s)) := by
  have henum : List.Forall₂ EnumeratesSubs [["abc".toList]]
      (scannedLines ["abc".toList] 1000) := by
    have hscan : scannedLines ["abc".toList] 1000 = ["abc".toList] := by decide
    rw [hscan]
    have hext : extract_substrings "abc".toList 3 50 = ["abc".toList] := by decide
    refine List.Forall₂.cons ?_ List.Forall₂.nil
    intro s
    rw [hext]
  exact ⟨henum, C10_longest_per_key ["abc".toList] 1000 [["abc".toList]] henum⟩



/-! ## The C10 counterexample: set-iteration order decides ties -/

theorem build_single (ord : List Str) :
    build_enhanced_dict [ord] = List.foldl updateLongest [] ord := rfl

theorem foldl_chunk {α β : Type} (f : β → α → β) (l : List α) (b : β) (n : Nat) :
    l.foldl f b = (l.drop n).foldl f ((l.take n).foldl f b) := by
  rw [← List.foldl_append, List.take_append_drop]

set_option maxRecDepth 100000 in
theorem C10_sliceF0 : (subsC10).take 220 = C10chunkF0 := by decide

set_option maxRecDepth 100000 in
theorem C10_sliceF1 : ((subsC10).drop 220).take 220 = C10chunkF1 := by decide

set_option maxRecDepth 100000 in
theorem C10_sliceF2 : (((subsC10).drop 220).drop 220).take 220 = C10chunkF2 := by decide

set_option maxRecDepth 100000 in
theorem C10_sliceF3 : ((((subsC10).drop 220).drop 220).drop 220).take 220 = C10chunkF3 := by decide

set_option maxRecDepth 100000 in
theorem C10_sliceF4 : (((((subsC10).drop 220).drop 220).drop 220).drop 220).take 220 = C10chunkF4 := by decide

set_option maxRecDepth 100000 in
theorem C10_sliceF5 : ((((((subsC10).drop 220).drop 220).drop 220).drop 220).drop 220).take 220 = C10chunkF5 := by decide

set_option maxRecDepth 100000 in
theorem C10_stepF0 :
    List.foldl updateLongest ([] : List (Str × Str)) C10chunkF0 = C10M220 := by decide

set_option maxRecDepth 100000 in
theorem C10_stepF1 :
    List.foldl updateLongest C10M220 C10chunkF1 = C10M440 := by decide

set_option maxRecDepth 100000 in
theorem C10_stepF2 :
    List.foldl updateLongest C10M440 C10chunkF2 = C10M660 := by decide

set_option maxRecDepth 100000 in
theorem C10_stepF3 :
    List.foldl updateLongest C10M660 C10chunkF3 = C10M880 := by decide

set_option maxRecDepth 100000 in
theorem C10_stepF4 :
    List.foldl updateLongest C10M880 C10chunkF4 = C10M1100 := by decide

set_option maxRecDepth 100000 in
theorem C10_stepF5 :
    List.foldl updateLongest C10M1100 C10chunkF5 = C10M1320 := by decide

set_option maxRecDepth 100000 in
theorem C10_emptyF : ((((((subsC10).drop 220).drop 220).drop 220).drop 220).drop 220).drop 220 = ([] : List Str) := by decide

set_option maxRecDepth 100000 in
theorem C10_sliceR0 : (subsC10.reverse).take 220 = C10chunkR0 := by decide

set_option maxRecDepth 100000 in
theorem C10_sliceR1 : ((subsC10.reverse).drop 220).take 220 = C10chunkR1 := by decide

set_option maxRecDepth 100000 in
theorem C10_sliceR2 : (((subsC10.reverse).drop 220).drop 220).take 220 = C10chunkR2 := by decide

set_option maxRecDepth 100000 in
theorem C10_sliceR3 : ((((subsC10.reverse).drop 220).drop 220).drop 220).take 220 = C10chunkR3 := by decide

set_option maxRecDepth 100000 in
theorem C10_sliceR4 : (((((subsC10.reverse).drop 220).drop 220).drop 220).drop 220).take 220 = C10chunkR4 := by decide

set_option maxRecDepth 100000 in
theorem C10_sliceR5 : ((((((subsC10.reverse).drop 220).drop 220).drop 220).drop 220).drop 220).take 220 = C10chunkR5 := by decide

set_option maxRecDepth 100000 in
theorem C10_stepR0 :
    List.foldl updateLongest ([] : List (Str × Str)) C10chunkR0 = C10N220 := by decide

set_option maxRecDepth 100000 in
theorem C10_stepR1 :
    List.foldl updateLongest C10N220 C10chunkR1 = C10N440 := by decide

set_option maxRecDepth 100000 in
theorem C10_stepR2 :
    List.foldl updateLongest C10N440 C10chunkR2 = C10N660 := by decide

set_option maxRecDepth 100000 in
theorem C10_stepR3 :
    List.foldl updateLongest C10N660 C10chunkR3 = C10N880 := by decide

set_option maxRecDepth 100000 in
theorem C10_stepR4 :
    List.foldl updateLongest C10N880 C10chunkR4 = C10N1100 := by decide

set_option maxRecDepth 100000 in
theorem C10_stepR5 :
    List.foldl updateLongest C10N1100 C10chunkR5 = C10N1320 := by decide

set_option maxRecDepth 100000 in
theorem C10_emptyR : ((((((subsC10.reverse).drop 220).drop 220).drop 220).drop 220).drop 220).drop 220 = ([] : List Str) := by decide

set_option maxRecDepth 100000 in
theorem C10_build_fwd : build_enhanced_dict [subsC10] = C10M1320 := by
  rw [build_single]
  rw [foldl_chunk updateLongest (subsC10) ([] : List (Str × Str)) 220,
    C10_sliceF0, C10_stepF0]
  rw [foldl_chunk updateLongest ((subsC10).drop 220) C10M220 220,
    C10_sliceF1, C10_stepF1]
  rw [foldl_chunk updateLongest (((subsC10).drop 220).drop 220) C10M440 220,
    C10_sliceF2, C10_stepF2]
  rw [foldl_chunk updateLongest ((((subsC10).drop 220).drop 220).drop 220) C10M660 220,
    C10_sliceF3, C10_stepF3]
  rw [foldl_chunk updateLongest (((((subsC10).drop 220).drop 220).drop 220).drop 220) C10M880 220,
    C10_sliceF4, C10_stepF4]
  rw [foldl_chunk updateLongest ((((((subsC10).drop 220).drop 220).drop 220).drop 220).drop 220) C10M1100 220,
    C10_sliceF5, C10_stepF5]
  rw [C10_emptyF]
  rfl

set_option maxRecDepth 100000 in
theorem C10_build_rev : build_enhanced_dict [subsC10.reverse] = C10N1320 := by
  rw [build_single]
  rw [foldl_chunk updateLongest (subsC10.reverse) ([] : List (Str × Str)) 220,
    C10_sliceR0, C10_stepR0]
  rw [foldl_chunk updateLongest ((subsC10.reverse).drop 220) C10N220 220,
    C10_sliceR1, C10_stepR1]
  rw [foldl_chunk updateLongest (((subsC10.reverse).drop 220).drop 220) C10N440 220,
    C10_sliceR2, C10_stepR2]
  rw [foldl_chunk updateLongest ((((subsC10.reverse).drop 220).drop 220).drop 220) C10N660 220,
    C10_sliceR3, C10_stepR3]
  rw [foldl_chunk updateLongest (((((subsC10.reverse).drop 220).drop 220).drop 220).drop 220) C10N880 220,
    C10_sliceR4, C10_stepR4]
  rw [foldl_chunk updateLongest ((((((subsC10.reverse).drop 220).drop 220).drop 220).drop 220).drop 220) C10N1100 220,
    C10_sliceR5, C10_stepR5]
  rw [C10_emptyR]
  rfl


/-- C10 (counterexample): the reversed enumeration of `C10line`'s
substring set is as valid an iteration sequence as the scan order, yet
it retains a different substring for key `"ab"` — so the retained
substring is not determined as "the first seen in scan order": it
depends on the set's unspecified iteration order. -/
theorem C10_order_dependent :
    List.Forall₂ EnumeratesSubs [subsC10.reverse] (scannedLines [C10line] 1000) ∧
    lookupL (build_enhanced_dict [subsC10.reverse]) ['a', 'b']
      ≠ lookupL (build_enhanced_dict [subsC10]) ['a', 'b'] := by
  constructor
  · have hscan : scannedLines [C10line] 1000 = [C10line] := by decide
    rw [hscan]
    refine List.Forall₂.cons ?_ List.Forall₂.nil
    intro s
    exact List.mem_reverse
  · rw [C10_build_fwd, C10_build_rev]
    decide
